import Mathlib

/-!
# Si5351 frequency synthesis: register codec and synthesis controller

Shallow embedding of `src/Syntez/si5351a.cpp`.

Conventions of the embedding

* C unsigned integers are natural numbers reduced modulo `2 ^ w` at every
  operation that can leave the range (`u8`, `u32`, `u64`, `sub32`, `sub64`).
  `int` is taken to be at least 32 bits wide, so `1 << rdiv` is `2 ^ rdiv` for
  the shift counts the controller reaches.
* `((uint8_t*)&x)[i]` is byte `i` of `x` in little-endian order (`byte_of`).
* Every division or modulo whose divisor is a run-time value goes through
  `udiv` / `umod`, which answer `none` on a zero divisor; the controller
  functions therefore return an `Option`.
* The bus is observed as the list of transactions it carries.  A transaction
  is the list of bytes sent between `i2c_begin_write(SI5351_I2C_ADDR)` and
  `i2c_end()`: the register address followed by the data bytes.
* The class declaration (`si5351a.h`) is not part of the sources at hand; the
  fields are the ones the member functions use, each wide enough for the
  values stored in it (`Si5351.wf`).
-/

namespace Syntez

/-! ## Machine integers -/

/-- Conversion to `uint8_t`. -/
def u8 (x : Nat) : Nat := x % 2 ^ 8

/-- Conversion to `uint32_t`. -/
def u32 (x : Nat) : Nat := x % 2 ^ 32

/-- Conversion to `uint64_t`. -/
def u64 (x : Nat) : Nat := x % 2 ^ 64

/-- Subtraction of `uint32_t` values, wrapping modulo `2 ^ 32`. -/
def sub32 (x y : Nat) : Nat := (u32 x + (2 ^ 32 - u32 y)) % 2 ^ 32

/-- Subtraction of `uint64_t` values, wrapping modulo `2 ^ 64`. -/
def sub64 (x y : Nat) : Nat := (u64 x + (2 ^ 64 - u64 y)) % 2 ^ 64

/-- Unsigned division; `none` stands for a division by zero. -/
def udiv (x y : Nat) : Option Nat := if y = 0 then none else some (x / y)

/-- Unsigned remainder; `none` stands for a division by zero. -/
def umod (x y : Nat) : Option Nat := if y = 0 then none else some (x % y)

/-- Byte `i` of a machine word, little-endian: `((uint8_t*)&x)[i]`. -/
def byte_of (x i : Nat) : Nat := (x / 256 ^ i) % 256

/-! ## Register map (lines 5-31) -/

def SI_CLK0_CONTROL : Nat := 16
def SI_CLK1_CONTROL : Nat := 17
def SI_CLK2_CONTROL : Nat := 18
def SI_SYNTH_PLL_A : Nat := 26
def SI_SYNTH_PLL_B : Nat := 34
def SI_SYNTH_MS_0 : Nat := 42
def SI_SYNTH_MS_1 : Nat := 50
def SI_SYNTH_MS_2 : Nat := 58
def SI_PLL_RESET : Nat := 177
def SI_CLK_SRC_PLL_A : Nat := 0x00
def SI_CLK_SRC_PLL_B : Nat := 0x20
def FRAC_DENOM : Nat := 0xFFFFF

/-- The macro `R_DIV(x)`, that is `(x) << 4`. -/
def R_DIV (x : Nat) : Nat := x <<< 4

/-! ## Bus transactions -/

/-- One bus transaction: the bytes between `i2c_begin_write` and `i2c_end`. -/
abbrev Txn := List Nat

/-- Data bytes sent in one transaction land in consecutive registers, the
first of them in register `reg`. -/
def regWritesFrom : Nat → List Nat → List (Nat × Nat)
  | _, [] => []
  | reg, d :: ds => (reg, d) :: regWritesFrom (reg + 1) ds

/-- The register writes a transaction performs: the first byte addresses a
register and each following byte goes to the next register in turn. -/
def Txn.regWrites : Txn → List (Nat × Nat)
  | [] => []
  | reg :: data => regWritesFrom reg data

/-- The register writes of a whole trace, in order. -/
def regWrites : List Txn → List (Nat × Nat)
  | [] => []
  | t :: w => t.regWrites ++ regWrites w

/-- The values written to the registers `base .. base + 7`, in order. -/
def writesTo (base : Nat) (w : List Txn) : List (Nat × Nat) :=
  (regWrites w).filter fun p => decide (base ≤ p.1 ∧ p.1 < base + 8)

/-- Function `si5351_write_reg` (lines 33-39). -/
def si5351_write_reg (reg data : Nat) : List Txn := [[u8 reg, u8 data]]

/-! ## Register codec -/

/-- Function `si5351_setup_pll` (lines 47-65). -/
def si5351_setup_pll (pll a b c : Nat) : Option (List Txn) :=
  let pll := u8 pll
  let a := u8 a
  let b := u32 b
  let c := u32 c
  match udiv (u32 (128 * b)) c with
  | none => none
  | some t =>
    let P1 := sub32 (u32 (u32 (128 * a) + t)) 512
    let P2 := sub32 (u32 (128 * b)) (u32 (c * t))
    let P3 := c
    some [[pll,
      byte_of P3 1,
      u8 P3,
      u8 (byte_of P1 2 &&& 0x3),
      byte_of P1 1,
      u8 P1,
      u8 (((P3 &&& 0x000F0000) >>> 12) ||| ((P2 &&& 0x000F0000) >>> 16)),
      byte_of P2 1,
      u8 P2]]

/-- Function `si5351_setup_msynth_int` (lines 71-89). -/
def si5351_setup_msynth_int (synth divider rDiv : Nat) : List Txn :=
  let synth := u8 synth
  let divider := u32 divider
  let rDiv := u8 rDiv
  let P1 := sub32 (u32 (128 * divider)) 512
  let P2 := 0
  let P3 := 1
  [[synth,
    byte_of P3 1,
    u8 P3,
    u8 ((byte_of P1 2 &&& 0x3) ||| rDiv),
    byte_of P1 1,
    u8 P1,
    u8 (((P3 &&& 0x000F0000) >>> 12) ||| ((P2 &&& 0x000F0000) >>> 16)),
    byte_of P2 1,
    u8 P2]]

/-- Function `si5351_setup_msynth` (lines 96-111). -/
def si5351_setup_msynth (synth a b c rDiv : Nat) : Option (List Txn) :=
  let synth := u8 synth
  let a := u8 a
  let b := u32 b
  let c := u32 c
  let rDiv := u8 rDiv
  match udiv (u32 (128 * b)) c with
  | none => none
  | some t =>
    let P1 := sub32 (u32 (u32 (128 * a) + t)) 512
    let P2 := sub32 (u32 (128 * b)) (u32 (c * t))
    let P3 := c
    some (
      si5351_write_reg (synth + 0) (byte_of P3 1) ++
      si5351_write_reg (synth + 1) (u8 P3) ++
      si5351_write_reg (synth + 2) ((byte_of P1 2 &&& 0x3) ||| rDiv) ++
      si5351_write_reg (synth + 3) (byte_of P1 1) ++
      si5351_write_reg (synth + 4) (u8 P1) ++
      si5351_write_reg (synth + 5) (((P3 &&& 0x000F0000) >>> 12) ||| ((P2 &&& 0x000F0000) >>> 16)) ++
      si5351_write_reg (synth + 6) (byte_of P2 1) ++
      si5351_write_reg (synth + 7) (u8 P2))

/-! ## Synthesis controller -/

/-- The member variables of class `Si5351` used in `si5351a.cpp`. -/
structure Si5351 where
  xtal_freq : Nat
  power0 : Nat
  power1 : Nat
  power2 : Nat
  freq0 : Nat
  freq1 : Nat
  freq2 : Nat
  freq0_div : Nat
  freq1_div : Nat
  freq2_div : Nat
  freq0_rdiv : Nat
  freq1_rdiv : Nat
  freq2_rdiv : Nat
  freq_pll_b : Nat
  deriving DecidableEq

/-- Every member holds a value of its machine type: 32 bits for frequencies
and dividers, 8 bits for shift counts and power levels. -/
def Si5351.wf (s : Si5351) : Prop :=
  s.xtal_freq < 2 ^ 32 ∧ s.freq0 < 2 ^ 32 ∧ s.freq1 < 2 ^ 32 ∧ s.freq2 < 2 ^ 32 ∧
  s.freq0_div < 2 ^ 32 ∧ s.freq1_div < 2 ^ 32 ∧ s.freq2_div < 2 ^ 32 ∧
  s.freq0_rdiv < 2 ^ 8 ∧ s.freq1_rdiv < 2 ^ 8 ∧ s.freq2_rdiv < 2 ^ 8 ∧
  s.power0 < 2 ^ 8 ∧ s.power1 < 2 ^ 8 ∧ s.power2 < 2 ^ 8 ∧ s.freq_pll_b < 2 ^ 32

instance (s : Si5351) : Decidable s.wf := by
  unfold Si5351.wf
  infer_instance

/-- Function `Si5351::setup` (lines 113-122); `i2c_init` belongs to the bus. -/
def Si5351.setup (s : Si5351) (_power0 _power1 _power2 : Nat) : Si5351 × List Txn :=
  ({ s with power0 := u8 _power0 &&& 0x3, power1 := u8 _power1 &&& 0x3,
            power2 := u8 _power2 &&& 0x3 },
   si5351_write_reg SI_CLK0_CONTROL 0x80 ++
   si5351_write_reg SI_CLK1_CONTROL 0x80 ++
   si5351_write_reg SI_CLK2_CONTROL 0x80)

/-- Function `Si5351::disable_out` (lines 150-172). -/
def Si5351.disable_out (s : Si5351) (clk_num : Nat) : Si5351 × List Txn :=
  match u8 clk_num with
  | 0 =>
    if s.freq0_div ≠ 0 then
      ({ s with freq0_div := 0 }, si5351_write_reg SI_CLK0_CONTROL 0x80)
    else (s, [])
  | 1 =>
    if s.freq1_div ≠ 0 then
      ({ s with freq1_div := 0 }, si5351_write_reg SI_CLK1_CONTROL 0x80)
    else (s, [])
  | 2 =>
    if s.freq2_div ≠ 0 then
      ({ s with freq2_div := 0 }, si5351_write_reg SI_CLK2_CONTROL 0x80)
    else (s, [])
  | _ => (s, [])

/-- The loop `while (divider > 900) { rdiv++; divider >>= 1; }` (lines 192-195,
238-241 and 287-290), from the values of `divider` and `rdiv` on entry to
their values on exit. -/
def div_loop (divider rdiv : Nat) : Nat × Nat :=
  if divider > 900 then div_loop (divider >>> 1) (u8 (rdiv + 1)) else (divider, rdiv)
termination_by divider
decreasing_by
  simp only [Nat.shiftRight_eq_div_pow]
  omega

/-- The loop `while (divider > 900) { rdiv++; ff <<= 1; divider >>= 1; }`
(lines 270-274), from the values of `divider`, `rdiv` and `ff` on entry to
their values on exit. -/
def div_loop_ff (divider rdiv ff : Nat) : Nat × Nat × Nat :=
  if divider > 900 then div_loop_ff (divider >>> 1) (u8 (rdiv + 1)) (u32 (ff <<< 1))
  else (divider, rdiv, ff)
termination_by divider
decreasing_by
  simp only [Nat.shiftRight_eq_div_pow]
  omega

/-- The values computed for one PLL: the locals `divider`, `rdiv`, `pll_freq`,
`mult` and `num`. -/
structure PllCalc where
  divider : Nat
  rdiv : Nat
  pll_freq : Nat
  mult : Nat
  num : Nat
  deriving DecidableEq

/-- The block that follows the test `divider < 6`, written three times in the
source (lines 192-201, 238-247 and 287-296): the R-divider loop, clearing the
low bit, and the PLL frequency, multiplier and numerator.  `divider0` is the
quotient `900000000 / freq` the block starts from.  The factor `(1 << rdiv)`
is an `int`; it is `2 ^ rdiv` as long as the shift stays inside the `int`,
which a 32-bit `int` guarantees for every shift count the loop can reach. -/
def pll_calc (divider0 freq xtal_freq : Nat) : Option PllCalc :=
  let divider := (div_loop divider0 0).1
  let rdiv := (div_loop divider0 0).2
  let divider := divider &&& 0xFFFFFFFE
  let pll_freq := u32 (u32 (divider * freq) * u32 (1 <<< rdiv))
  match udiv (u64 (pll_freq * 10)) xtal_freq with
  | none => none
  | some q =>
    let mult := u8 q
    match udiv (u64 (u64 (sub64 pll_freq (u64 (mult * xtal_freq) / 10) * FRAC_DENOM) * 10))
        xtal_freq with
    | none => none
    | some n => some ⟨divider, rdiv, pll_freq, mult, u32 n⟩

/-- Function `Si5351::update_freq0` (lines 174-212).  The cell behind the
pointer `need_reset_pll` is passed in and handed back. -/
def Si5351.update_freq0 (s : Si5351) (need_reset_pll : Nat) :
    Option (Si5351 × Nat × List Txn) :=
  if s.freq0 = 0 then
    some ((s.disable_out 0).1, need_reset_pll, (s.disable_out 0).2)
  else
    match udiv 900000000 s.freq0 with
    | none => none
    | some divider0 =>
      if divider0 < 6 then
        some ((s.disable_out 0).1, need_reset_pll, (s.disable_out 0).2)
      else
        match pll_calc divider0 s.freq0 s.xtal_freq with
        | none => none
        | some p =>
          match si5351_setup_pll SI_SYNTH_PLL_A p.mult p.num FRAC_DENOM with
          | none => none
          | some wpll =>
            if p.divider ≠ s.freq0_div ∨ p.rdiv ≠ s.freq0_rdiv then
              some ({ s with freq0_div := p.divider, freq0_rdiv := p.rdiv }, 1,
                wpll ++ si5351_setup_msynth_int SI_SYNTH_MS_0 p.divider (R_DIV p.rdiv) ++
                si5351_write_reg SI_CLK0_CONTROL (0x4C ||| s.power0 ||| SI_CLK_SRC_PLL_A))
            else
              some (s, need_reset_pll, wpll)

/-- The block `if (freq1_changed) { ... }` of `update_freq12` (lines 232-259).
The first component tells whether the function returned at line 236. -/
def Si5351.update_freq12_clk1 (s : Si5351) (need_reset_pll : Nat) :
    Option (Bool × Si5351 × Nat × List Txn) :=
  match udiv 900000000 s.freq1 with
  | none => none
  | some divider0 =>
    if divider0 < 6 then
      some (true, (s.disable_out 1).1, need_reset_pll, (s.disable_out 1).2)
    else
      match pll_calc divider0 s.freq1 s.xtal_freq with
      | none => none
      | some p =>
        match si5351_setup_pll SI_SYNTH_PLL_B p.mult p.num FRAC_DENOM with
        | none => none
        | some wpll =>
          if p.divider ≠ s.freq1_div ∨ p.rdiv ≠ s.freq1_rdiv then
            some (false,
              { s with freq1_div := p.divider, freq1_rdiv := p.rdiv,
                       freq_pll_b := p.pll_freq }, 1,
              wpll ++ si5351_setup_msynth_int SI_SYNTH_MS_1 p.divider (R_DIV p.rdiv) ++
              si5351_write_reg SI_CLK1_CONTROL (0x4C ||| s.power1 ||| SI_CLK_SRC_PLL_B) ++
              si5351_write_reg SI_CLK2_CONTROL (0x4C ||| s.power2 ||| SI_CLK_SRC_PLL_B))
          else
            some (false, { s with freq_pll_b := p.pll_freq }, need_reset_pll, wpll)

/-- The locals of the shared-PLL branch for channel 2 when the multisynth is
programmed: `divider`, `rdiv`, `ff` and `num`. -/
structure Ms2Calc where
  divider : Nat
  rdiv : Nat
  ff : Nat
  num : Nat
  deriving DecidableEq

/-- Lines 268-275 of `update_freq12`: the loop on `divider`, `rdiv`, `ff` and
the numerator, from the quotient `divider0 = freq_pll_b / freq2`. -/
def ms2_calc (divider0 freq_pll_b freq2 : Nat) : Option Ms2Calc :=
  let divider := (div_loop_ff divider0 0 freq2).1
  let rdiv := (div_loop_ff divider0 0 freq2).2.1
  let ff := (div_loop_ff divider0 0 freq2).2.2
  match umod freq_pll_b ff with
  | none => none
  | some r =>
    match udiv (u64 (r * FRAC_DENOM)) ff with
    | none => none
    | some n => some ⟨divider, rdiv, ff, u32 n⟩

/-- The block `if (freq2) { ... }` of the branch `if (freq1)` of
`update_freq12` (lines 261-279). -/
def Si5351.update_freq12_clk2 (s : Si5351) : Option (Si5351 × List Txn) :=
  match udiv s.freq_pll_b s.freq2 with
  | none => none
  | some divider0 =>
    if divider0 < 6 then
      some (s.disable_out 2)
    else
      match ms2_calc divider0 s.freq_pll_b s.freq2 with
      | none => none
      | some m =>
        match si5351_setup_msynth SI_SYNTH_MS_2 m.divider m.num
            (if m.num ≠ 0 then FRAC_DENOM else 1) (R_DIV m.rdiv) with
        | none => none
        | some wms => some ({ s with freq2_div := 1 }, wms)

/-- The branch `else if (freq2) { ... }` of `update_freq12` (lines 280-308). -/
def Si5351.update_freq12_direct (s : Si5351) (need_reset_pll : Nat) :
    Option (Si5351 × Nat × List Txn) :=
  match udiv 900000000 s.freq2 with
  | none => none
  | some divider0 =>
    if divider0 < 6 then
      some ((s.disable_out 2).1, need_reset_pll, (s.disable_out 2).2)
    else
      match pll_calc divider0 s.freq2 s.xtal_freq with
      | none => none
      | some p =>
        match si5351_setup_pll SI_SYNTH_PLL_B p.mult p.num FRAC_DENOM with
        | none => none
        | some wpll =>
          if p.divider ≠ s.freq2_div ∨ p.rdiv ≠ s.freq2_rdiv then
            some ({ s with freq2_div := p.divider, freq2_rdiv := p.rdiv }, 1,
              wpll ++ si5351_setup_msynth_int SI_SYNTH_MS_2 p.divider (R_DIV p.rdiv) ++
              si5351_write_reg SI_PLL_RESET 0xA0 ++
              si5351_write_reg SI_CLK2_CONTROL (0x4C ||| s.power2 ||| SI_CLK_SRC_PLL_B))
          else
            some (s, need_reset_pll, wpll)

/-- The two tests that open `update_freq12` (lines 223-229): a channel whose
requested frequency is 0 is disabled. -/
def Si5351.update_freq12_off (s : Si5351) : Si5351 × List Txn :=
  let d1 := if s.freq1 = 0 then s.disable_out 1 else (s, [])
  let d2 := if d1.1.freq2 = 0 then d1.1.disable_out 2 else (d1.1, [])
  (d2.1, d1.2 ++ d2.2)

/-- Function `Si5351::update_freq12` (lines 214-309). -/
def Si5351.update_freq12 (s : Si5351) (freq1_changed need_reset_pll : Nat) :
    Option (Si5351 × Nat × List Txn) :=
  let s2 := s.update_freq12_off.1
  let w := s.update_freq12_off.2
  if s2.freq1 ≠ 0 then
    match (if u8 freq1_changed ≠ 0 then s2.update_freq12_clk1 need_reset_pll
           else some (false, s2, need_reset_pll, [])) with
    | none => none
    | some (true, s3, nr, w3) => some (s3, nr, w ++ w3)
    | some (false, s3, nr, w3) =>
      if s3.freq2 ≠ 0 then
        match s3.update_freq12_clk2 with
        | none => none
        | some (s4, w4) => some (s4, nr, w ++ w3 ++ w4)
      else some (s3, nr, w ++ w3)
  else if s2.freq2 ≠ 0 then
    match s2.update_freq12_direct need_reset_pll with
    | none => none
    | some (s3, nr, w3) => some (s3, nr, w ++ w3)
  else some (s2, need_reset_pll, w)

/-- Function `Si5351::set_xtal_freq` (lines 124-131).  The local
`need_reset_pll` is never read here; it starts at 0 in the embedding. -/
def Si5351.set_xtal_freq (s : Si5351) (freq reset_pll : Nat) : Option (Si5351 × List Txn) :=
  match ({ s with xtal_freq := u32 freq }).update_freq0 0 with
  | none => none
  | some (s1, nr, w0) =>
    match s1.update_freq12 1 nr with
    | none => none
    | some (s2, _, w12) =>
      some (s2, w0 ++ w12 ++
        (if u8 reset_pll ≠ 0 then si5351_write_reg SI_PLL_RESET 0xA0 else []))

/-- Function `Si5351::set_freq` (lines 133-148). -/
def Si5351.set_freq (s : Si5351) (f0 f1 f2 : Nat) : Option (Si5351 × List Txn) :=
  let f0 := u32 f0
  let f1 := u32 f1
  let f2 := u32 f2
  let freq1_changed := if f1 ≠ s.freq1 then 1 else 0
  match (if f0 ≠ s.freq0 then ({ s with freq0 := f0 }).update_freq0 0
         else some (s, 0, [])) with
  | none => none
  | some (s1, nr, w0) =>
    match (if freq1_changed ≠ 0 ∨ f2 ≠ s1.freq2 then
             ({ s1 with freq1 := f1, freq2 := f2 }).update_freq12 freq1_changed nr
           else some (s1, nr, [])) with
    | none => none
    | some (s2, nr2, w12) =>
      some (s2, w0 ++ w12 ++
        (if nr2 ≠ 0 then si5351_write_reg SI_PLL_RESET 0xA0 else []))


/-! ## Reading the parameter fields back

The eight parameter bytes of a PLL or multisynth hold, in the chip's register
format, the 18-bit field P1 and the 20-bit fields P2 and P3. -/

/-- The field P1: bits 16-17 in the low two bits of byte 2, then bytes 3, 4. -/
def field_P1 (bs : List Nat) : Nat :=
  (bs.getD 2 0 % 4) * 65536 + bs.getD 3 0 * 256 + bs.getD 4 0

/-- The field P2: bits 16-19 in the low nibble of byte 5, then bytes 6, 7. -/
def field_P2 (bs : List Nat) : Nat :=
  (bs.getD 5 0 % 16) * 65536 + bs.getD 6 0 * 256 + bs.getD 7 0

/-- The field P3: bits 16-19 in the high nibble of byte 5, then bytes 0, 1. -/
def field_P3 (bs : List Nat) : Nat :=
  (bs.getD 5 0 / 16) * 65536 + bs.getD 0 0 * 256 + bs.getD 1 0

/-- The triple (a, b, c) denoted by eight parameter bytes. -/
def decode_abc (bs : List Nat) : Nat × Nat × Nat :=
  ((field_P1 bs + 512) / 128,
   (field_P2 bs + field_P3 bs * ((field_P1 bs + 512) % 128)) / 128,
   field_P3 bs)

/-- The eight parameter bytes that carry the fields P1, P2, P3 and the
R-divider bits `rDiv`. -/
def param_bytes (P1 P2 P3 rDiv : Nat) : List Nat :=
  [P3 / 256 % 256, P3 % 256, (P1 / 65536 % 4) ||| rDiv, P1 / 256 % 256, P1 % 256,
   (P3 / 65536 % 16) * 16 + P2 / 65536 % 16, P2 / 256 % 256, P2 % 256]

/-! ## Vocabulary for statements about the controller -/

/-- The two states agree on what the caller asked for: crystal value, the
three requested frequencies and the three power levels. -/
def Si5351.sameRequest (s s' : Si5351) : Prop :=
  s'.xtal_freq = s.xtal_freq ∧ s'.freq0 = s.freq0 ∧ s'.freq1 = s.freq1 ∧
  s'.freq2 = s.freq2 ∧ s'.power0 = s.power0 ∧ s'.power1 = s.power1 ∧ s'.power2 = s.power2

/-- The cached divider of channel `k`. -/
def Si5351.freq_div (s : Si5351) (k : Nat) : Nat :=
  match k with
  | 0 => s.freq0_div
  | 1 => s.freq1_div
  | _ => s.freq2_div

/-- The state in which everything is zero. -/
def Si5351.zero : Si5351 := ⟨0, 0, 0, 0, 0, 0, 0, 0, 0, 0, 0, 0, 0, 0⟩

/-- The all-zero state after `set_xtal_freq 250000000`: a 25 MHz crystal, its
frequency stored in tenths of a hertz. -/
def Si5351.start : Si5351 := { Si5351.zero with xtal_freq := 250000000 }

/-- The state `Si5351.start` with channel 0 running at 100 MHz (divider 8). -/
def Si5351.ch0_on : Si5351 :=
  { Si5351.zero with xtal_freq := 250000000, freq0 := 100000000, freq0_div := 8 }

/-- The state reached from `Si5351.start` by `set_freq 0 14000000 0`: channel 1
at 14 MHz, PLL B retained at 896 MHz. -/
def Si5351.ch1_14MHz : Si5351 :=
  { Si5351.start with freq1 := 14000000, freq1_div := 64, freq_pll_b := 896000000 }

/-- The state reached from `Si5351.start` by `set_freq 0 9000000 0`: channel 1
at 9 MHz, PLL B retained at 900 MHz. -/
def Si5351.ch1_9MHz : Si5351 :=
  { Si5351.start with freq1 := 9000000, freq1_div := 100, freq_pll_b := 900000000 }

/-- The state `Si5351.ch1_14MHz` with channel 2 at 7 MHz on the shared PLL. -/
def Si5351.ch12_on : Si5351 :=
  { Si5351.start with freq1 := 14000000, freq1_div := 64, freq_pll_b := 896000000,
                      freq2 := 7000000, freq2_div := 1 }

/-! ## Vocabulary for statements about traces -/

/-- Some write of the trace goes to channel `k`: to its control register
`16 + k` or to one of its eight multisynth registers `42 + 8 k .. 49 + 8 k`. -/
def touches (k : Nat) (w : List Txn) : Bool :=
  (regWrites w).any fun p =>
    p.1 == 16 + k || (decide (42 + 8 * k ≤ p.1) && decide (p.1 < 50 + 8 * k))

/-- Some write of the trace goes to the PLL reset register 177. -/
def resets (w : List Txn) : Bool :=
  (regWrites w).any fun p => p.1 == 177

/-- The transaction of `si5351_setup_msynth_int`: the base register of a
multisynth followed by eight bytes in one transaction. -/
def isIntTxn (t : Txn) : Bool :=
  t.length == 9 && (t.headD 0 == 42 || t.headD 0 == 50 || t.headD 0 == 58)

/-- Some multisynth was programmed in integer mode. -/
def intProgrammed (w : List Txn) : Bool :=
  w.any isIntTxn

/-- The value most recently written to register `r`, if the trace writes it. -/
def lastWrite (r : Nat) (w : List Txn) : Option Nat :=
  (((regWrites w).filter fun p => p.1 == r).getLast?).map Prod.snd

/-- A sequence of `set_freq` calls; the traces of the calls are concatenated. -/
def Si5351.run (s : Si5351) : List (Nat × Nat × Nat) → Option (Si5351 × List Txn)
  | [] => some (s, [])
  | (f0, f1, f2) :: rest =>
    match s.set_freq f0 f1 f2 with
    | none => none
    | some (s1, w1) =>
      match Si5351.run s1 rest with
      | none => none
      | some (s2, w2) => some (s2, w1 ++ w2)

/-- Multisynth `k` was programmed in integer mode: the trace holds a
transaction of `si5351_setup_msynth_int` for its base register `42 + 8 k`. -/
def programmedInt (k : Nat) (w : List Txn) : Bool :=
  w.any fun t => t.length == 9 && t.headD 0 == 42 + 8 * k

/-- The test `divider != freqN_div || rdiv != freqN_rdiv` of the controller
(lines 205, 250 and 300) for the frequency `f` and the cached pair
`(div, rdiv)`: the quotient `900000000 / f` is at least 6, so that the search
`pll_calc` runs, and the divider or the shift count it computes differs from
the cached one. -/
def cacheMiss (f xtal_freq div rdiv : Nat) : Bool :=
  decide (6 ≤ 900000000 / f) &&
  match pll_calc (900000000 / f) f xtal_freq with
  | none => false
  | some p => decide (p.divider ≠ div ∨ p.rdiv ≠ rdiv)

/-- The call `set_freq f0 f1 f2` reprograms a multisynth in integer mode
because the computed divider or shift differs from the cached values: for
channel 0 when f0 changes; for channel 1 when f1 changes; for channel 2 on the
direct PLL-B path, which is taken when f1 or f2 changes and f1 is 0. -/
def Si5351.reprograms (s : Si5351) (f0 f1 f2 : Nat) : Bool :=
  (decide (u32 f0 ≠ s.freq0) && cacheMiss (u32 f0) s.xtal_freq s.freq0_div s.freq0_rdiv) ||
  (decide (u32 f1 ≠ s.freq1) && cacheMiss (u32 f1) s.xtal_freq s.freq1_div s.freq1_rdiv) ||
  (decide ((u32 f1 ≠ s.freq1 ∨ u32 f2 ≠ s.freq2) ∧ u32 f1 = 0) &&
    cacheMiss (u32 f2) s.xtal_freq s.freq2_div s.freq2_rdiv)

/-! ## Bit-level facts -/

theorem shiftRight_and (a b i : Nat) : (a &&& b) >>> i = (a >>> i) &&& (b >>> i) := by
  apply Nat.eq_of_testBit_eq
  intro j
  simp

theorem and_nibble4_shr16 (x : Nat) : (x &&& 0xF0000) >>> 16 = x / 65536 % 16 := by
  rw [shiftRight_and]
  have h : (0xF0000 : Nat) >>> 16 = 2 ^ 4 - 1 := by decide
  rw [h, Nat.and_pow_two_sub_one_eq_mod, Nat.shiftRight_eq_div_pow]

theorem and_nibble4_low (x : Nat) : (x &&& 0xF0000) % 65536 = 0 := by
  have h := Nat.and_pow_two_sub_one_eq_mod (x &&& 0xF0000) 16
  rw [Nat.and_assoc] at h
  have h2 : (0xF0000 : Nat) &&& (2 ^ 16 - 1) = 0 := by decide
  rw [h2, Nat.and_zero] at h
  simpa using h.symm

theorem and_nibble4_shr12 (x : Nat) : (x &&& 0xF0000) >>> 12 = (x / 65536 % 16) * 16 := by
  have h1 := and_nibble4_shr16 x
  have h2 := and_nibble4_low x
  rw [Nat.shiftRight_eq_div_pow] at h1 ⊢
  omega

theorem and_three (x : Nat) : x &&& 0x3 = x % 4 := by
  have h := Nat.and_pow_two_sub_one_eq_mod x 2
  simpa using h

theorem and_clear_low (d : Nat) (h : d < 2 ^ 32) : d &&& 0xFFFFFFFE = 2 * (d / 2) := by
  have h0 : (d &&& 0xFFFFFFFE) % 2 = 0 := by
    have h := Nat.and_pow_two_sub_one_eq_mod (d &&& 0xFFFFFFFE) 1
    rw [Nat.and_assoc] at h
    have h2 : (0xFFFFFFFE : Nat) &&& (2 ^ 1 - 1) = 0 := by decide
    rw [h2, Nat.and_zero] at h
    simpa using h.symm
  have h1 : (d &&& 0xFFFFFFFE) / 2 = d / 2 := by
    have h3 := shiftRight_and d 0xFFFFFFFE 1
    have h2 : (0xFFFFFFFE : Nat) >>> 1 = 2 ^ 31 - 1 := by decide
    rw [h2, Nat.and_pow_two_sub_one_eq_mod] at h3
    simp only [Nat.shiftRight_eq_div_pow] at h3
    omega
  omega

theorem or_nibbles (h l : Nat) (hl : l < 16) : (h * 16) ||| l = h * 16 + l := by
  have h1 := Nat.mul_add_lt_is_or (i := 4) (b := l) (by simpa using hl) h
  rw [Nat.mul_comm] at h1
  simpa using h1.symm

theorem nibble_byte (P3 P2 : Nat) :
    u8 (((P3 &&& 0x000F0000) >>> 12) ||| ((P2 &&& 0x000F0000) >>> 16)) =
      (P3 / 65536 % 16) * 16 + P2 / 65536 % 16 := by
  rw [and_nibble4_shr12, and_nibble4_shr16, or_nibbles _ _ (Nat.mod_lt _ (by decide))]
  unfold u8
  omega

theorem u8_of_lt {x : Nat} (h : x < 256) : u8 x = x := by
  unfold u8
  omega

theorem u8_u8 (x : Nat) : u8 (u8 x) = u8 x := by
  unfold u8
  omega

theorem byte_of_one (x : Nat) : byte_of x 1 = x / 256 % 256 := by
  simp [byte_of]

theorem byte2_and_three (x : Nat) : byte_of x 2 &&& 0x3 = x / 65536 % 4 := by
  rw [and_three]
  simp only [byte_of]
  omega

theorem or_lt_256 (x y : Nat) (hx : x < 4) (hy : y < 256) : x ||| y < 256 :=
  Nat.or_lt_two_pow (n := 8) (by omega) (by omega)

/-! ## The register codec in closed form -/

/-- The parameter words of lines 49-52 (and 98-101) when nothing wraps. -/
theorem codec_words (a b c : Nat) (hb : 128 * b < 2 ^ 32)
    (ha : 4 ≤ a) (ha2 : 128 * a + 128 * b / c < 2 ^ 32) :
    sub32 (u32 (u32 (128 * a) + 128 * b / c)) 512 = 128 * a + 128 * b / c - 512 ∧
    sub32 (u32 (128 * b)) (u32 (c * (128 * b / c))) = 128 * b % c := by
  have h1 : c * (128 * b / c) ≤ 128 * b := Nat.mul_div_le _ _
  have h2 := Nat.div_add_mod (128 * b) c
  generalize 128 * b / c = t at *
  generalize 128 * b % c = r at *
  generalize c * t = ct at *
  constructor
  · unfold sub32 u32
    omega
  · unfold sub32 u32
    omega

theorem setup_pll_bytes (pll a b c : Nat) (ha : 4 ≤ a) (ha2 : a < 256) (hc : 0 < c)
    (hc2 : c < 2 ^ 32) (hb : 128 * b < 2 ^ 32) (hP1 : 128 * a + 128 * b / c < 2 ^ 32) :
    si5351_setup_pll pll a b c =
      some [u8 pll :: param_bytes (128 * a + 128 * b / c - 512) (128 * b % c) c 0] := by
  have hb2 : b < 2 ^ 32 := by omega
  have hw := codec_words a b c hb ha hP1
  have e1 : u8 a = a := by unfold u8; omega
  have e2 : u32 b = b := by unfold u32; omega
  have e3 : u32 c = c := by unfold u32; omega
  have e4 : u32 (128 * b) = 128 * b := by unfold u32; omega
  have e5 : c ≠ 0 := by omega
  simp only [si5351_setup_pll, e1, e2, e3, udiv, e5, if_false]
  rw [e4] at hw ⊢
  rw [hw.1, hw.2, nibble_byte, and_three]
  simp only [param_bytes, byte_of, u8, Nat.or_zero]
  congr 3
  all_goals first | rfl | omega | (simp; omega)

theorem setup_msynth_writes (synth a b c rDiv : Nat) (hs : synth + 7 < 256) (ha : 4 ≤ a)
    (ha2 : a < 256) (hc : 0 < c) (hc2 : c < 2 ^ 32) (hb : 128 * b < 2 ^ 32)
    (hP1 : 128 * a + 128 * b / c < 2 ^ 32) (hr : rDiv < 256) :
    ∃ w, si5351_setup_msynth synth a b c rDiv = some w ∧
      regWrites w = regWritesFrom synth
        (param_bytes (128 * a + 128 * b / c - 512) (128 * b % c) c rDiv) := by
  have hb2 : b < 2 ^ 32 := by omega
  have hw := codec_words a b c hb ha hP1
  have e0 : u8 synth = synth := u8_of_lt (by omega)
  have e1 : u8 a = a := u8_of_lt ha2
  have e2 : u32 b = b := by unfold u32; omega
  have e3 : u32 c = c := by unfold u32; omega
  have e4 : u32 (128 * b) = 128 * b := by unfold u32; omega
  have e5 : c ≠ 0 := by omega
  have e6 : u8 rDiv = rDiv := u8_of_lt hr
  simp only [si5351_setup_msynth, e0, e1, e2, e3, e6, udiv, e5, if_false]
  rw [e4] at hw ⊢
  rw [hw.1, hw.2]
  refine ⟨_, rfl, ?_⟩
  generalize 128 * a + 128 * b / c - 512 = P1
  generalize 128 * b % c = P2
  have a0 : u8 (synth + 0) = synth := u8_of_lt (by omega)
  have a1 : u8 (synth + 1) = synth + 1 := u8_of_lt (by omega)
  have a2 : u8 (synth + 2) = synth + 1 + 1 := u8_of_lt (by omega)
  have a3 : u8 (synth + 3) = synth + 1 + 1 + 1 := u8_of_lt (by omega)
  have a4 : u8 (synth + 4) = synth + 1 + 1 + 1 + 1 := u8_of_lt (by omega)
  have a5 : u8 (synth + 5) = synth + 1 + 1 + 1 + 1 + 1 := u8_of_lt (by omega)
  have a6 : u8 (synth + 6) = synth + 1 + 1 + 1 + 1 + 1 + 1 := u8_of_lt (by omega)
  have a7 : u8 (synth + 7) = synth + 1 + 1 + 1 + 1 + 1 + 1 + 1 := u8_of_lt (by omega)
  have b0 : u8 (byte_of c 1) = c / 256 % 256 := by
    rw [byte_of_one]
    exact u8_of_lt (Nat.mod_lt _ (by decide))
  have b3 : u8 (byte_of P1 1) = P1 / 256 % 256 := by
    rw [byte_of_one]
    exact u8_of_lt (Nat.mod_lt _ (by decide))
  have b6 : u8 (byte_of P2 1) = P2 / 256 % 256 := by
    rw [byte_of_one]
    exact u8_of_lt (Nat.mod_lt _ (by decide))
  have b2 : u8 ((byte_of P1 2 &&& 0x3) ||| rDiv) = (P1 / 65536 % 4) ||| rDiv := by
    rw [byte2_and_three]
    exact u8_of_lt (or_lt_256 _ _ (Nat.mod_lt _ (by decide)) hr)
  simp only [si5351_write_reg, List.cons_append, List.nil_append, regWrites, Txn.regWrites,
    regWritesFrom, List.append_nil, param_bytes, a0, a1, a2, a3, a4, a5, a6, a7, b0, b2, b3,
    b6, nibble_byte, u8_u8]
  rfl

/-- The fields read back from well-sized parameter bytes. -/
theorem fields_param_bytes (P1 P2 P3 r : Nat) (h1 : P1 < 2 ^ 18) (h2 : P2 < 2 ^ 20)
    (h3 : P3 < 2 ^ 20) :
    field_P1 (param_bytes P1 P2 P3 (r * 16)) = P1 ∧
    field_P2 (param_bytes P1 P2 P3 (r * 16)) = P2 ∧
    field_P3 (param_bytes P1 P2 P3 (r * 16)) = P3 := by
  have ho : (P1 / 65536 % 4) ||| (r * 16) = r * 16 + P1 / 65536 % 4 := by
    rw [Nat.lor_comm]
    exact or_nibbles _ _ (by omega)
  simp only [field_P1, field_P2, field_P3, param_bytes, List.getD_cons_succ,
    List.getD_cons_zero, ho]
  refine ⟨?_, ?_, ?_⟩ <;> omega

theorem decode_param_bytes (a b c r : Nat) (ha : 4 ≤ a) (ha2 : a ≤ 2047) (hc : 0 < c)
    (hc2 : c < 2 ^ 20) (hb : b < c) :
    decode_abc (param_bytes (128 * a + 128 * b / c - 512) (128 * b % c) c (r * 16))
      = (a, b, c) := by
  have ht : 128 * b / c < 128 := Nat.div_lt_of_lt_mul (by omega)
  have hm : 128 * b % c < c := Nat.mod_lt _ hc
  have hdm := Nat.div_add_mod (128 * b) c
  obtain ⟨f1, f2, f3⟩ := fields_param_bytes (128 * a + 128 * b / c - 512) (128 * b % c) c r
    (by omega) (by omega) (by omega)
  simp only [decode_abc, f1, f2, f3]
  generalize 128 * b / c = t at *
  generalize 128 * b % c = m at *
  have e1 : 128 * a + t - 512 + 512 = 128 * a + t := by omega
  have e2 : (128 * a + t) / 128 = a := by omega
  have e3 : (128 * a + t) % 128 = t := by omega
  rw [e1, e2, e3]
  have e4 : (m + c * t) / 128 = b := by omega
  rw [e4]

/-! ## The divider search -/

/-- The loop halves `divider` exactly as often as needed to reach 900 or less
and counts the halvings in `rdiv`. -/
theorem div_loop_spec (d : Nat) : ∀ r, ∃ k, (div_loop d r).1 = d / 2 ^ k ∧ d / 2 ^ k ≤ 900 ∧
    (∀ j, j < k → 900 < d / 2 ^ j) ∧ (r + k < 256 → (div_loop d r).2 = r + k) := by
  induction d using Nat.strong_induction_on with
  | _ d ih =>
    intro r
    rw [div_loop]
    split
    · rename_i hd
      have hlt : d >>> 1 < d := by
        simp only [Nat.shiftRight_eq_div_pow]
        omega
      obtain ⟨k, h1, h2, h3, h4⟩ := ih (d >>> 1) hlt (u8 (r + 1))
      have hdiv : ∀ j, d >>> 1 / 2 ^ j = d / 2 ^ (j + 1) := by
        intro j
        have e : 2 ^ 1 * 2 ^ j = 2 ^ (j + 1) := by ring
        rw [Nat.shiftRight_eq_div_pow, Nat.div_div_eq_div_mul, e]
      refine ⟨k + 1, ?_, ?_, ?_, ?_⟩
      · rw [h1, hdiv]
      · rw [← hdiv]
        exact h2
      · intro j hj
        cases j with
        | zero => simpa using hd
        | succ j =>
          rw [← hdiv]
          exact h3 j (by omega)
      · intro hr
        have e : u8 (r + 1) = r + 1 := u8_of_lt (by omega)
        rw [e] at h4 ⊢
        rw [h4 (by omega)]
        omega
    · rename_i hd
      exact ⟨0, by simp, by simpa using hd, by intro j hj; omega, by intro _; rfl⟩

/-- The values `pll_calc` computes, spelled out. -/
theorem pll_calc_eq (d0 f x : Nat) (hx : 0 < x) :
    ∃ p, pll_calc d0 f x = some p ∧
      p.divider = (div_loop d0 0).1 &&& 0xFFFFFFFE ∧
      p.rdiv = (div_loop d0 0).2 ∧
      p.pll_freq = u32 (u32 (p.divider * f) * u32 (1 <<< p.rdiv)) ∧
      p.mult = u8 (u64 (p.pll_freq * 10) / x) ∧
      p.num = u32 (u64 (u64 (sub64 p.pll_freq (u64 (p.mult * x) / 10) * FRAC_DENOM) * 10) / x) := by
  have hx0 : x ≠ 0 := by omega
  simp [pll_calc, udiv, hx0]

/-- Outcome of the divider search for a target frequency `f` whose quotient
`900000000 / f` is at least 6. -/
theorem search_facts (f x : Nat) (hx : 0 < x) (h6 : 6 ≤ 900000000 / f) :
    ∃ p, pll_calc (900000000 / f) f x = some p ∧ p.rdiv ≤ 20 ∧
      900000000 / f / 2 ^ p.rdiv ≤ 900 ∧
      (∀ j, j < p.rdiv → 900 < 900000000 / f / 2 ^ j) ∧
      p.divider = 2 * (900000000 / f / 2 ^ p.rdiv / 2) ∧
      6 ≤ p.divider ∧ p.divider ≤ 900 ∧
      p.pll_freq = p.divider * f * 2 ^ p.rdiv ∧
      675000000 < p.pll_freq ∧ p.pll_freq ≤ 900000000 ∧
      p.mult = u8 (u64 (p.pll_freq * 10) / x) ∧
      p.num = u32 (u64 (u64 (sub64 p.pll_freq (u64 (p.mult * x) / 10) * FRAC_DENOM) * 10) / x) := by
  have hf : 0 < f := by
    rcases Nat.eq_zero_or_pos f with h | h
    · rw [h] at h6
      simp at h6
    · exact h
  obtain ⟨p, hp, hdiv, hr, hpll, hmult, hnum⟩ := pll_calc_eq (900000000 / f) f x hx
  obtain ⟨k, h1, h2, h3, h4⟩ := div_loop_spec (900000000 / f) 0
  have hd0 : 900000000 / f ≤ 900000000 := Nat.div_le_self _ _
  have hk : k ≤ 20 := by
    by_contra hcon
    have := h3 20 (by omega)
    have e : (2 : Nat) ^ 20 = 1048576 := by norm_num
    rw [e] at this
    omega
  have hrk : p.rdiv = k := by
    rw [hr, h4 (by omega)]
    omega
  have hd1 : 6 ≤ 900000000 / f / 2 ^ k := by
    cases k with
    | zero => simpa using h6
    | succ k =>
      have h := h3 k (by omega)
      rw [pow_succ, ← Nat.div_div_eq_div_mul]
      omega
  have hdk : (div_loop (900000000 / f) 0).1 < 2 ^ 32 := by
    rw [h1]
    omega
  have hdivider : p.divider = 2 * (900000000 / f / 2 ^ k / 2) := by
    rw [hdiv, and_clear_low _ hdk, h1]
  -- the products stay at or below 900000000
  have m1 : 900000000 / f * f ≤ 900000000 := Nat.div_mul_le_self _ _
  have m2 : 900000000 / f / 2 ^ k * 2 ^ k ≤ 900000000 / f := Nat.div_mul_le_self _ _
  have m3 : 900000000 < 900000000 / f * f + f := Nat.lt_div_mul_add hf
  have hpk : 0 < 2 ^ k := Nat.pow_pos (by decide)
  have m4 : 900000000 / f < 900000000 / f / 2 ^ k * 2 ^ k + 2 ^ k := Nat.lt_div_mul_add hpk
  have hpk20 : 2 ^ k ≤ 2 ^ 20 := Nat.pow_le_pow_right (by decide) hk
  generalize 900000000 / f = d0 at *
  generalize hd1' : d0 / 2 ^ k = d1 at *
  generalize hK : 2 ^ k = K at *
  have hD : p.divider ≤ d1 := by omega
  have hD2 : d1 ≤ p.divider + 1 := by omega
  have b1 : p.divider * f * K ≤ 900000000 := by
    calc p.divider * f * K ≤ d1 * f * K :=
          Nat.mul_le_mul_right _ (Nat.mul_le_mul_right _ hD)
      _ = d1 * K * f := by ring
      _ ≤ d0 * f := Nat.mul_le_mul_right _ m2
      _ ≤ 900000000 := m1
  have b2 : p.divider * f ≤ p.divider * f * K := Nat.le_mul_of_pos_right _ hpk
  have b3 : 900000000 < (p.divider + 2) * f * K := by
    calc 900000000 < d0 * f + f := m3
      _ = (d0 + 1) * f := by ring
      _ ≤ (d1 * K + K) * f := Nat.mul_le_mul_right _ (by omega)
      _ = (d1 + 1) * f * K := by ring
      _ ≤ (p.divider + 2) * f * K :=
          Nat.mul_le_mul_right _ (Nat.mul_le_mul_right _ (by omega))
  have b4 : 6 * (f * K) ≤ p.divider * f * K := by
    calc 6 * (f * K) ≤ p.divider * (f * K) := Nat.mul_le_mul_right _ (by omega)
      _ = p.divider * f * K := by ring
  have b5 : (p.divider + 2) * f * K = p.divider * f * K + 2 * (f * K) := by ring
  have hpllv : p.pll_freq = p.divider * f * K := by
    rw [hpll, hrk, Nat.shiftLeft_eq, Nat.one_mul, hK]
    have e1 : u32 (p.divider * f) = p.divider * f := by
      unfold u32
      omega
    have e2 : u32 K = K := by
      unfold u32
      omega
    rw [e1, e2]
    unfold u32
    omega
  refine ⟨p, hp, by omega, ?_, ?_, ?_, by omega, by omega, ?_, by omega, by omega,
    hmult, hnum⟩
  · rw [hrk, hK]
    omega
  · intro j hj
    exact h3 j (by omega)
  · rw [hrk, hK]
    omega
  · rw [hrk, hK]
    exact hpllv

/-! ## The controller functions in closed form -/

theorem div_loop_le (d r : Nat) (h : d ≤ 900) : div_loop d r = (d, r) := by
  rw [div_loop]
  simp [Nat.not_lt.mpr h]

theorem div_loop_gt (d r : Nat) (h : 900 < d) :
    div_loop d r = div_loop (d >>> 1) (u8 (r + 1)) := by
  rw [div_loop]
  simp [h]

/-- The PLL encoder never divides by zero when called with `FRAC_DENOM`, and
emits one transaction: the PLL's base register and eight bytes. -/
theorem setup_pll_frac (pll a b : Nat) :
    ∃ b0 b1 b2 b3 b4 b5 b6 b7, si5351_setup_pll pll a b FRAC_DENOM =
      some [[u8 pll, b0, b1, b2, b3, b4, b5, b6, b7]] := by
  have e : u32 FRAC_DENOM ≠ 0 := by decide
  simp only [si5351_setup_pll, udiv, e, if_false]
  exact ⟨_, _, _, _, _, _, _, _, rfl⟩

/-- The integer multisynth encoder emits one transaction: the base register
and eight bytes. -/
theorem setup_msynth_int_shape (synth divider rDiv : Nat) :
    ∃ b0 b1 b2 b3 b4 b5 b6 b7, si5351_setup_msynth_int synth divider rDiv =
      [[u8 synth, b0, b1, b2, b3, b4, b5, b6, b7]] :=
  ⟨_, _, _, _, _, _, _, _, rfl⟩

theorem update_freq0_eq (s : Si5351) (nr : Nat) (p : PllCalc) (wpll : List Txn)
    (h6 : 6 ≤ 900000000 / s.freq0)
    (hp : pll_calc (900000000 / s.freq0) s.freq0 s.xtal_freq = some p)
    (hw : si5351_setup_pll SI_SYNTH_PLL_A p.mult p.num FRAC_DENOM = some wpll) :
    s.update_freq0 nr =
      if p.divider ≠ s.freq0_div ∨ p.rdiv ≠ s.freq0_rdiv then
        some ({ s with freq0_div := p.divider, freq0_rdiv := p.rdiv }, 1,
          wpll ++ si5351_setup_msynth_int SI_SYNTH_MS_0 p.divider (R_DIV p.rdiv) ++
          si5351_write_reg SI_CLK0_CONTROL (0x4C ||| s.power0 ||| SI_CLK_SRC_PLL_A))
      else some (s, nr, wpll) := by
  have hf : s.freq0 ≠ 0 := by
    intro h
    rw [h] at h6
    simp at h6
  have h6' : ¬ 900000000 / s.freq0 < 6 := by omega
  simp only [Si5351.update_freq0, hf, if_false, udiv, h6', hp, hw]

theorem update_freq12_clk1_eq (s : Si5351) (nr : Nat) (p : PllCalc) (wpll : List Txn)
    (h6 : 6 ≤ 900000000 / s.freq1)
    (hp : pll_calc (900000000 / s.freq1) s.freq1 s.xtal_freq = some p)
    (hw : si5351_setup_pll SI_SYNTH_PLL_B p.mult p.num FRAC_DENOM = some wpll) :
    s.update_freq12_clk1 nr =
      if p.divider ≠ s.freq1_div ∨ p.rdiv ≠ s.freq1_rdiv then
        some (false,
          { s with freq1_div := p.divider, freq1_rdiv := p.rdiv, freq_pll_b := p.pll_freq }, 1,
          wpll ++ si5351_setup_msynth_int SI_SYNTH_MS_1 p.divider (R_DIV p.rdiv) ++
          si5351_write_reg SI_CLK1_CONTROL (0x4C ||| s.power1 ||| SI_CLK_SRC_PLL_B) ++
          si5351_write_reg SI_CLK2_CONTROL (0x4C ||| s.power2 ||| SI_CLK_SRC_PLL_B))
      else some (false, { s with freq_pll_b := p.pll_freq }, nr, wpll) := by
  have hf : s.freq1 ≠ 0 := by
    intro h
    rw [h] at h6
    simp at h6
  have h6' : ¬ 900000000 / s.freq1 < 6 := by omega
  simp only [Si5351.update_freq12_clk1, hf, if_false, udiv, h6', hp, hw]

theorem update_freq12_direct_eq (s : Si5351) (nr : Nat) (p : PllCalc) (wpll : List Txn)
    (h6 : 6 ≤ 900000000 / s.freq2)
    (hp : pll_calc (900000000 / s.freq2) s.freq2 s.xtal_freq = some p)
    (hw : si5351_setup_pll SI_SYNTH_PLL_B p.mult p.num FRAC_DENOM = some wpll) :
    s.update_freq12_direct nr =
      if p.divider ≠ s.freq2_div ∨ p.rdiv ≠ s.freq2_rdiv then
        some ({ s with freq2_div := p.divider, freq2_rdiv := p.rdiv }, 1,
          wpll ++ si5351_setup_msynth_int SI_SYNTH_MS_2 p.divider (R_DIV p.rdiv) ++
          si5351_write_reg SI_PLL_RESET 0xA0 ++
          si5351_write_reg SI_CLK2_CONTROL (0x4C ||| s.power2 ||| SI_CLK_SRC_PLL_B))
      else some (s, nr, wpll) := by
  have hf : s.freq2 ≠ 0 := by
    intro h
    rw [h] at h6
    simp at h6
  have h6' : ¬ 900000000 / s.freq2 < 6 := by omega
  simp only [Si5351.update_freq12_direct, hf, if_false, udiv, h6', hp, hw]

/-- The multiplier and numerator handed to the PLL encoder when the stored
crystal value lies between 100,000,000 and 450,000,000. -/
theorem pll_args_range (pll x : Nat) (h1 : 675000000 < pll) (h2 : pll ≤ 900000000)
    (hx1 : 100000000 ≤ x) (hx2 : x ≤ 450000000) :
    u8 (u64 (pll * 10) / x) = pll * 10 / x ∧
    15 ≤ pll * 10 / x ∧ pll * 10 / x ≤ 90 ∧
    u32 (u64 (u64 (sub64 pll (u64 (pll * 10 / x * x) / 10) * FRAC_DENOM) * 10) / x) =
      (pll - pll * 10 / x * x / 10) * FRAC_DENOM * 10 / x ∧
    (pll - pll * 10 / x * x / 10) * FRAC_DENOM * 10 / x ≤ 0xFFFFF := by
  have hx : 0 < x := by omega
  have q1 : 15 ≤ pll * 10 / x := (Nat.le_div_iff_mul_le hx).mpr (by omega)
  have q2 : pll * 10 / x < 91 := (Nat.div_lt_iff_lt_mul hx).mpr (by omega)
  have q3 : pll * 10 / x * x ≤ pll * 10 := Nat.div_mul_le_self _ _
  have q4 : pll * 10 < pll * 10 / x * x + x := Nat.lt_div_mul_add hx
  have e0 : u64 (pll * 10) = pll * 10 := by
    unfold u64
    omega
  generalize hq : pll * 10 / x = q at *
  generalize hm : q * x = mx at *
  have e1 : u64 mx = mx := by
    unfold u64
    omega
  have e2 : sub64 pll (mx / 10) = pll - mx / 10 := by
    unfold sub64 u64
    omega
  have n1 : (pll - mx / 10) * FRAC_DENOM * 10 < 1048576 * x := by
    unfold FRAC_DENOM
    omega
  have n2 : (pll - mx / 10) * FRAC_DENOM * 10 / x < 1048576 :=
    (Nat.div_lt_iff_lt_mul hx).mpr n1
  have e3 : u64 ((pll - mx / 10) * FRAC_DENOM) = (pll - mx / 10) * FRAC_DENOM := by
    unfold u64 FRAC_DENOM
    omega
  have e4 : u64 ((pll - mx / 10) * FRAC_DENOM * 10) = (pll - mx / 10) * FRAC_DENOM * 10 := by
    unfold u64 FRAC_DENOM
    omega
  refine ⟨?_, q1, by omega, ?_, by
    generalize (pll - mx / 10) * FRAC_DENOM * 10 / x = n at *
    omega⟩
  · rw [e0, hq]
    exact u8_of_lt (by omega)
  · rw [e1, e2, e3, e4]
    generalize (pll - mx / 10) * FRAC_DENOM * 10 / x = n at *
    unfold u32
    omega

/-- What `update_freq0` does with the outcome of the search: the PLL encoder
is called first, with the computed multiplier and numerator, and the cache
ends up holding the computed divider and shift count. -/
theorem update_freq0_search (s : Si5351) (nr : Nat) (p : PllCalc)
    (h6 : 6 ≤ 900000000 / s.freq0)
    (hp : pll_calc (900000000 / s.freq0) s.freq0 s.xtal_freq = some p) :
    ∃ s' nr' wpll rest, s.update_freq0 nr = some (s', nr', wpll ++ rest) ∧
      si5351_setup_pll SI_SYNTH_PLL_A p.mult p.num FRAC_DENOM = some wpll ∧
      s'.freq0_div = p.divider ∧ s'.freq0_rdiv = p.rdiv := by
  obtain ⟨b0, b1, b2, b3, b4, b5, b6, b7, hw⟩ := setup_pll_frac SI_SYNTH_PLL_A p.mult p.num
  rw [update_freq0_eq s nr p _ h6 hp hw]
  by_cases hc : p.divider ≠ s.freq0_div ∨ p.rdiv ≠ s.freq0_rdiv
  · rw [if_pos hc]
    exact ⟨{ s with freq0_div := p.divider, freq0_rdiv := p.rdiv }, 1, _,
      si5351_setup_msynth_int SI_SYNTH_MS_0 p.divider (R_DIV p.rdiv) ++
        si5351_write_reg SI_CLK0_CONTROL (0x4C ||| s.power0 ||| SI_CLK_SRC_PLL_A),
      by simp only [List.append_assoc], hw, rfl, rfl⟩
  · rw [if_neg hc]
    have h1 : p.divider = s.freq0_div := by
      by_contra h
      exact hc (Or.inl h)
    have h2 : p.rdiv = s.freq0_rdiv := by
      by_contra h
      exact hc (Or.inr h)
    exact ⟨s, nr, _, [], by rw [List.append_nil], hw, h1.symm, h2.symm⟩

theorem update_freq12_clk1_search (s : Si5351) (nr : Nat) (p : PllCalc)
    (h6 : 6 ≤ 900000000 / s.freq1)
    (hp : pll_calc (900000000 / s.freq1) s.freq1 s.xtal_freq = some p) :
    ∃ s' nr' wpll rest, s.update_freq12_clk1 nr = some (false, s', nr', wpll ++ rest) ∧
      si5351_setup_pll SI_SYNTH_PLL_B p.mult p.num FRAC_DENOM = some wpll ∧
      s'.freq1_div = p.divider ∧ s'.freq1_rdiv = p.rdiv ∧ s'.freq_pll_b = p.pll_freq := by
  obtain ⟨b0, b1, b2, b3, b4, b5, b6, b7, hw⟩ := setup_pll_frac SI_SYNTH_PLL_B p.mult p.num
  rw [update_freq12_clk1_eq s nr p _ h6 hp hw]
  by_cases hc : p.divider ≠ s.freq1_div ∨ p.rdiv ≠ s.freq1_rdiv
  · rw [if_pos hc]
    exact ⟨{ s with freq1_div := p.divider, freq1_rdiv := p.rdiv, freq_pll_b := p.pll_freq },
      1, _,
      si5351_setup_msynth_int SI_SYNTH_MS_1 p.divider (R_DIV p.rdiv) ++
        si5351_write_reg SI_CLK1_CONTROL (0x4C ||| s.power1 ||| SI_CLK_SRC_PLL_B) ++
        si5351_write_reg SI_CLK2_CONTROL (0x4C ||| s.power2 ||| SI_CLK_SRC_PLL_B),
      by simp only [List.append_assoc], hw, rfl, rfl, rfl⟩
  · rw [if_neg hc]
    have h1 : p.divider = s.freq1_div := by
      by_contra h
      exact hc (Or.inl h)
    have h2 : p.rdiv = s.freq1_rdiv := by
      by_contra h
      exact hc (Or.inr h)
    exact ⟨{ s with freq_pll_b := p.pll_freq }, nr, _, [], by rw [List.append_nil], hw,
      h1.symm, h2.symm, rfl⟩

theorem update_freq12_direct_search (s : Si5351) (nr : Nat) (p : PllCalc)
    (h6 : 6 ≤ 900000000 / s.freq2)
    (hp : pll_calc (900000000 / s.freq2) s.freq2 s.xtal_freq = some p) :
    ∃ s' nr' wpll rest, s.update_freq12_direct nr = some (s', nr', wpll ++ rest) ∧
      si5351_setup_pll SI_SYNTH_PLL_B p.mult p.num FRAC_DENOM = some wpll ∧
      s'.freq2_div = p.divider ∧ s'.freq2_rdiv = p.rdiv := by
  obtain ⟨b0, b1, b2, b3, b4, b5, b6, b7, hw⟩ := setup_pll_frac SI_SYNTH_PLL_B p.mult p.num
  rw [update_freq12_direct_eq s nr p _ h6 hp hw]
  by_cases hc : p.divider ≠ s.freq2_div ∨ p.rdiv ≠ s.freq2_rdiv
  · rw [if_pos hc]
    exact ⟨{ s with freq2_div := p.divider, freq2_rdiv := p.rdiv }, 1, _,
      si5351_setup_msynth_int SI_SYNTH_MS_2 p.divider (R_DIV p.rdiv) ++
        si5351_write_reg SI_PLL_RESET 0xA0 ++
        si5351_write_reg SI_CLK2_CONTROL (0x4C ||| s.power2 ||| SI_CLK_SRC_PLL_B),
      by simp only [List.append_assoc], hw, rfl, rfl⟩
  · rw [if_neg hc]
    have h1 : p.divider = s.freq2_div := by
      by_contra h
      exact hc (Or.inl h)
    have h2 : p.rdiv = s.freq2_rdiv := by
      by_contra h
      exact hc (Or.inr h)
    exact ⟨s, nr, _, [], by rw [List.append_nil], hw, h1.symm, h2.symm⟩

/-! ## The controller returns: no division by zero, requests kept -/

theorem sameRequest_refl (s : Si5351) : s.sameRequest s :=
  ⟨rfl, rfl, rfl, rfl, rfl, rfl, rfl⟩

theorem sameRequest_trans {s t u : Si5351} (h1 : s.sameRequest t)
    (h2 : t.sameRequest u) : s.sameRequest u := by
  obtain ⟨a1, a2, a3, a4, a5, a6, a7⟩ := h1
  obtain ⟨b1, b2, b3, b4, b5, b6, b7⟩ := h2
  exact ⟨b1.trans a1, b2.trans a2, b3.trans a3, b4.trans a4, b5.trans a5, b6.trans a6,
    b7.trans a7⟩

/-- What `disable_out` leaves alone: the request, the retained PLL-B
frequency, the cached shift counts and the cached dividers of the other
channels. -/
theorem disable_out_frame (s : Si5351) (k : Nat) :
    s.sameRequest (s.disable_out k).1 ∧ (s.disable_out k).1.freq_pll_b = s.freq_pll_b ∧
    (s.disable_out k).1.freq0_rdiv = s.freq0_rdiv ∧
    (s.disable_out k).1.freq1_rdiv = s.freq1_rdiv ∧
    (s.disable_out k).1.freq2_rdiv = s.freq2_rdiv ∧
    (u8 k ≠ 0 → (s.disable_out k).1.freq0_div = s.freq0_div) ∧
    (u8 k ≠ 1 → (s.disable_out k).1.freq1_div = s.freq1_div) ∧
    (u8 k ≠ 2 → (s.disable_out k).1.freq2_div = s.freq2_div) := by
  unfold Si5351.disable_out
  split <;> (try split) <;> simp_all [Si5351.sameRequest]

/-- The writes of `disable_out` and the cached divider it leaves. -/
theorem disable_out_writes (s : Si5351) (k : Nat) (hk : k ≤ 2) :
    (s.disable_out k).2 = (if s.freq_div k ≠ 0 then [[16 + k, 0x80]] else []) ∧
    (s.disable_out k).1.freq_div k = 0 := by
  have hk3 : k = 0 ∨ k = 1 ∨ k = 2 := by omega
  rcases hk3 with h | h | h
  · subst h
    have e : u8 0 = 0 := by decide
    simp only [Si5351.disable_out, e, Si5351.freq_div]
    split
    · exact ⟨rfl, rfl⟩
    · rename_i h0
      exact ⟨rfl, by simpa using h0⟩
  · subst h
    have e : u8 1 = 1 := by decide
    simp only [Si5351.disable_out, e, Si5351.freq_div]
    split
    · exact ⟨rfl, rfl⟩
    · rename_i h0
      exact ⟨rfl, by simpa using h0⟩
  · subst h
    have e : u8 2 = 2 := by decide
    simp only [Si5351.disable_out, e, Si5351.freq_div]
    split
    · exact ⟨rfl, rfl⟩
    · rename_i h0
      exact ⟨rfl, by simpa using h0⟩

/-- `update_freq0` returns whenever the crystal value is nonzero; it keeps the
request, the retained PLL-B frequency and the caches of channels 1 and 2, and
its writes have one of four shapes. -/
theorem update_freq0_total (s : Si5351) (nr : Nat) (hx : 0 < s.xtal_freq) :
    ∃ s' nr' w, s.update_freq0 nr = some (s', nr', w) ∧ s.sameRequest s' ∧
      s'.freq_pll_b = s.freq_pll_b ∧ s'.freq1_div = s.freq1_div ∧
      s'.freq2_div = s.freq2_div ∧ s'.freq1_rdiv = s.freq1_rdiv ∧
      s'.freq2_rdiv = s.freq2_rdiv ∧
      (w = [] ∨ w = [[16, 0x80]] ∨
        (∃ b0 b1 b2 b3 b4 b5 b6 b7, w = [[26, b0, b1, b2, b3, b4, b5, b6, b7]]) ∨
        (∃ b0 b1 b2 b3 b4 b5 b6 b7 c0 c1 c2 c3 c4 c5 c6 c7 v,
          w = [[26, b0, b1, b2, b3, b4, b5, b6, b7], [42, c0, c1, c2, c3, c4, c5, c6, c7],
            [16, v]])) := by
  have hdis : ∃ s' nr' w,
      some ((s.disable_out 0).1, nr, (s.disable_out 0).2) = some (s', nr', w) ∧
      s.sameRequest s' ∧ s'.freq_pll_b = s.freq_pll_b ∧ s'.freq1_div = s.freq1_div ∧
      s'.freq2_div = s.freq2_div ∧ s'.freq1_rdiv = s.freq1_rdiv ∧
      s'.freq2_rdiv = s.freq2_rdiv ∧
      (w = [] ∨ w = [[16, 0x80]] ∨
        (∃ b0 b1 b2 b3 b4 b5 b6 b7, w = [[26, b0, b1, b2, b3, b4, b5, b6, b7]]) ∨
        (∃ b0 b1 b2 b3 b4 b5 b6 b7 c0 c1 c2 c3 c4 c5 c6 c7 v,
          w = [[26, b0, b1, b2, b3, b4, b5, b6, b7], [42, c0, c1, c2, c3, c4, c5, c6, c7],
            [16, v]])) := by
    obtain ⟨a1, a2, _, a4, a5, _, a7, a8⟩ := disable_out_frame s 0
    refine ⟨_, _, _, rfl, a1, a2, a7 (by decide), a8 (by decide), a4, a5, ?_⟩
    rw [(disable_out_writes s 0 (by decide)).1]
    split
    · exact Or.inr (Or.inl rfl)
    · exact Or.inl rfl
  by_cases hf : s.freq0 = 0
  · simp only [Si5351.update_freq0, hf, if_true]
    simpa only [hf] using hdis
  · by_cases h6 : 900000000 / s.freq0 < 6
    · simp only [Si5351.update_freq0, hf, if_false, udiv, h6, if_true]
      exact hdis
    · obtain ⟨p, hp, _⟩ := pll_calc_eq (900000000 / s.freq0) s.freq0 s.xtal_freq hx
      obtain ⟨b0, b1, b2, b3, b4, b5, b6, b7, hw⟩ := setup_pll_frac SI_SYNTH_PLL_A p.mult p.num
      obtain ⟨c0, c1, c2, c3, c4, c5, c6, c7, hm⟩ :=
        setup_msynth_int_shape SI_SYNTH_MS_0 p.divider (R_DIV p.rdiv)
      rw [update_freq0_eq s nr p _ (by omega) hp hw]
      split
      · refine ⟨_, _, _, rfl, ⟨rfl, rfl, rfl, rfl, rfl, rfl, rfl⟩, rfl, rfl, rfl, rfl, rfl, ?_⟩
        right
        right
        right
        rw [hm]
        exact ⟨_, _, _, _, _, _, _, _, _, _, _, _, _, _, _, _, _, rfl⟩
      · refine ⟨_, _, _, rfl, sameRequest_refl s, rfl, rfl, rfl, rfl, rfl, ?_⟩
        right
        right
        left
        exact ⟨_, _, _, _, _, _, _, _, rfl⟩

/-! ## Channel 2 on the shared PLL -/

/-- The loop of lines 270-274 started from `d = P / ff`: it doubles `ff` and
halves `divider` exactly as often as needed, `ff` never wraps, and `divider`
stays the quotient of `P` by `ff`. -/
theorem div_loop_ff_spec (P : Nat) (hP : P < 2 ^ 32) (d : Nat) :
    ∀ r ff, 0 < ff → d = P / ff → 1 ≤ d →
      ∃ k, (div_loop_ff d r ff).1 = P / (ff * 2 ^ k) ∧
        (div_loop_ff d r ff).2.2 = ff * 2 ^ k ∧
        (r + k < 256 → (div_loop_ff d r ff).2.1 = r + k) ∧
        1 ≤ P / (ff * 2 ^ k) ∧ P / (ff * 2 ^ k) ≤ 900 ∧
        (∀ j, j < k → 900 < P / (ff * 2 ^ j)) := by
  induction d using Nat.strong_induction_on with
  | _ d ih =>
    intro r ff hff hd h1
    rw [div_loop_ff]
    split
    · rename_i hgt
      have hlt : d >>> 1 < d := by
        simp only [Nat.shiftRight_eq_div_pow]
        omega
      have hmul : P / ff * ff ≤ P := Nat.div_mul_le_self _ _
      have hff2 : ff * 2 < 2 ^ 32 := by
        have : 2 * ff ≤ P / ff * ff := Nat.mul_le_mul_right _ (by omega)
        omega
      have e1 : u32 (ff <<< 1) = ff * 2 := by
        rw [Nat.shiftLeft_eq]
        unfold u32
        omega
      have e2 : d >>> 1 = P / (ff * 2) := by
        rw [Nat.shiftRight_eq_div_pow, hd, Nat.div_div_eq_div_mul]
      have h1' : 1 ≤ d >>> 1 := by
        simp only [Nat.shiftRight_eq_div_pow]
        omega
      obtain ⟨k, a1, a2, a3, a4, a5, a6⟩ :=
        ih (d >>> 1) hlt (u8 (r + 1)) (u32 (ff <<< 1)) (by omega) (by rw [e1, e2]) h1'
      have epow : ∀ j, ff * 2 * 2 ^ j = ff * 2 ^ (j + 1) := by
        intro j
        ring
      rw [e1] at a1 a2 a3 a4 a5 a6
      refine ⟨k + 1, ?_, ?_, ?_, ?_, ?_, ?_⟩
      · rw [e1, a1, epow]
      · rw [e1, a2, epow]
      · intro hr
        have e : u8 (r + 1) = r + 1 := u8_of_lt (by omega)
        rw [e] at a3 ⊢
        rw [e1, a3 (by omega)]
        omega
      · rw [← epow]
        exact a4
      · rw [← epow]
        exact a5
      · intro j hj
        cases j with
        | zero =>
          rw [pow_zero, Nat.mul_one, ← hd]
          exact hgt
        | succ j =>
          rw [← epow]
          exact a6 j (by omega)
    · rename_i hle
      refine ⟨0, ?_, ?_, ?_, ?_, ?_, ?_⟩
      · simp [hd]
      · simp
      · intro _
        rfl
      · simpa [← hd] using h1
      · simpa [← hd] using hle
      · intro j hj
        omega

/-- The values `ms2_calc` computes for channel 2 from a retained PLL-B
frequency `P` and a frequency `f2` with `P / f2 >= 1`. -/
theorem ms2_calc_spec (P f2 : Nat) (hP : P < 2 ^ 32) (hf : 0 < f2) (h1 : 1 ≤ P / f2) :
    ∃ m, ms2_calc (P / f2) P f2 = some m ∧ m.rdiv < 32 ∧ m.ff = f2 * 2 ^ m.rdiv ∧
      m.ff < 2 ^ 32 ∧ 0 < m.ff ∧ m.divider = P / m.ff ∧ 1 ≤ m.divider ∧ m.divider ≤ 900 ∧
      (∀ j, j < m.rdiv → 900 < P / (f2 * 2 ^ j)) ∧
      m.num = P % m.ff * FRAC_DENOM / m.ff ∧ m.num < FRAC_DENOM := by
  obtain ⟨k, a1, a2, a3, a4, a5, a6⟩ := div_loop_ff_spec P hP (P / f2) 0 f2 hf rfl h1
  have hpos : 0 < f2 * 2 ^ k := Nat.mul_pos hf (Nat.pow_pos (by decide))
  have hle : f2 * 2 ^ k ≤ P := by
    have := Nat.div_mul_le_self P (f2 * 2 ^ k)
    have : 1 * (f2 * 2 ^ k) ≤ P / (f2 * 2 ^ k) * (f2 * 2 ^ k) := Nat.mul_le_mul_right _ a4
    omega
  have hk : k < 32 := by
    by_contra hcon
    have h2 : 2 ^ 32 ≤ 2 ^ k := Nat.pow_le_pow_right (by decide) (by omega)
    have h3 : 1 * 2 ^ k ≤ f2 * 2 ^ k := Nat.mul_le_mul_right _ hf
    omega
  have hr : (div_loop_ff (P / f2) 0 f2).2.1 = k := by
    rw [a3 (by omega)]
    omega
  have hne : f2 * 2 ^ k ≠ 0 := by omega
  have hlt32 : f2 * 2 ^ k < 2 ^ 32 := by omega
  have hmod : P % (f2 * 2 ^ k) < f2 * 2 ^ k := Nat.mod_lt _ hpos
  have hnum : P % (f2 * 2 ^ k) * FRAC_DENOM / (f2 * 2 ^ k) < FRAC_DENOM := by
    apply Nat.div_lt_of_lt_mul
    exact (Nat.mul_lt_mul_right (by decide : 0 < FRAC_DENOM)).mpr hmod
  have e64 : u64 (P % (f2 * 2 ^ k) * FRAC_DENOM) = P % (f2 * 2 ^ k) * FRAC_DENOM := by
    generalize P % (f2 * 2 ^ k) = r at *
    unfold u64 FRAC_DENOM
    omega
  have e32 : u32 (P % (f2 * 2 ^ k) * FRAC_DENOM / (f2 * 2 ^ k)) =
      P % (f2 * 2 ^ k) * FRAC_DENOM / (f2 * 2 ^ k) := by
    generalize P % (f2 * 2 ^ k) * FRAC_DENOM / (f2 * 2 ^ k) = n at *
    unfold FRAC_DENOM at hnum
    unfold u32
    omega
  refine ⟨⟨P / (f2 * 2 ^ k), k, f2 * 2 ^ k, P % (f2 * 2 ^ k) * FRAC_DENOM / (f2 * 2 ^ k)⟩,
    ?_, hk, rfl, hlt32, hpos, rfl, a4, a5, a6, rfl, hnum⟩
  simp only [ms2_calc, a1, a2, hr, umod, udiv, hne, if_false, e64, e32]

/-- The fractional multisynth encoder, called on multisynth 2 with a nonzero
denominator, performs eight single-register writes to registers 58..65. -/
theorem setup_msynth_ms2_shape (a b c rDiv : Nat) (hc : u32 c ≠ 0) :
    ∃ b0 b1 b2 b3 b4 b5 b6 b7, si5351_setup_msynth SI_SYNTH_MS_2 a b c rDiv =
      some [[58, b0], [59, b1], [60, b2], [61, b3], [62, b4], [63, b5], [64, b6], [65, b7]] := by
  simp only [si5351_setup_msynth, udiv, hc, if_false, si5351_write_reg, SI_SYNTH_MS_2]
  exact ⟨_, _, _, _, _, _, _, _, rfl⟩

theorem ms2_denominator_ne_zero (n : Nat) : u32 (if n ≠ 0 then FRAC_DENOM else 1) ≠ 0 := by
  split <;> decide

/-- The shared-PLL block for channel 2, when the quotient is at least 6. -/
theorem update_freq12_clk2_eq (s : Si5351) (hP : s.freq_pll_b < 2 ^ 32)
    (h6 : 6 ≤ s.freq_pll_b / s.freq2) :
    ∃ m wms, ms2_calc (s.freq_pll_b / s.freq2) s.freq_pll_b s.freq2 = some m ∧
      si5351_setup_msynth SI_SYNTH_MS_2 m.divider m.num
        (if m.num ≠ 0 then FRAC_DENOM else 1) (R_DIV m.rdiv) = some wms ∧
      s.update_freq12_clk2 = some ({ s with freq2_div := 1 }, wms) := by
  have hf : s.freq2 ≠ 0 := by
    intro h
    rw [h] at h6
    simp at h6
  obtain ⟨m, hm, _⟩ := ms2_calc_spec s.freq_pll_b s.freq2 hP (by omega) (by omega)
  obtain ⟨b0, b1, b2, b3, b4, b5, b6, b7, hw⟩ := setup_msynth_ms2_shape m.divider m.num
    (if m.num ≠ 0 then FRAC_DENOM else 1) (R_DIV m.rdiv) (ms2_denominator_ne_zero m.num)
  have h6' : ¬ s.freq_pll_b / s.freq2 < 6 := by omega
  refine ⟨m, _, hm, hw, ?_⟩
  simp only [Si5351.update_freq12_clk2, udiv, hf, if_false, h6', hm, hw]

theorem update_freq12_clk2_total (s : Si5351) (hP : s.freq_pll_b < 2 ^ 32)
    (hf : s.freq2 ≠ 0) :
    ∃ s' w, s.update_freq12_clk2 = some (s', w) ∧ s.sameRequest s' ∧
      s'.freq_pll_b = s.freq_pll_b ∧ s'.freq0_div = s.freq0_div ∧
      s'.freq0_rdiv = s.freq0_rdiv := by
  by_cases h6 : s.freq_pll_b / s.freq2 < 6
  · simp only [Si5351.update_freq12_clk2, udiv, hf, if_false, h6, if_true]
    obtain ⟨a1, a2, a3, _, _, a6, _, _⟩ := disable_out_frame s 2
    exact ⟨_, _, rfl, a1, a2, a6 (by decide), a3⟩
  · obtain ⟨m, wms, _, _, h⟩ := update_freq12_clk2_eq s hP (by omega)
    exact ⟨_, _, h, ⟨rfl, rfl, rfl, rfl, rfl, rfl, rfl⟩, rfl, rfl, rfl⟩

theorem update_freq12_clk1_total (s : Si5351) (nr : Nat) (hx : 0 < s.xtal_freq)
    (hP : s.freq_pll_b < 2 ^ 32) (hf : s.freq1 ≠ 0) :
    ∃ b s' nr' w, s.update_freq12_clk1 nr = some (b, s', nr', w) ∧ s.sameRequest s' ∧
      s'.freq_pll_b < 2 ^ 32 ∧ s'.freq0_div = s.freq0_div ∧
      s'.freq0_rdiv = s.freq0_rdiv := by
  by_cases h6 : 900000000 / s.freq1 < 6
  · simp only [Si5351.update_freq12_clk1, udiv, hf, if_false, h6, if_true]
    obtain ⟨a1, a2, a3, _, _, a6, _, _⟩ := disable_out_frame s 1
    exact ⟨_, _, _, _, rfl, a1, by rw [a2]; exact hP, a6 (by decide), a3⟩
  · obtain ⟨p, hp, _, _, hpll, _⟩ := pll_calc_eq (900000000 / s.freq1) s.freq1 s.xtal_freq hx
    obtain ⟨b0, b1, b2, b3, b4, b5, b6, b7, hw⟩ := setup_pll_frac SI_SYNTH_PLL_B p.mult p.num
    have hlt : p.pll_freq < 2 ^ 32 := by
      rw [hpll]
      exact Nat.mod_lt _ (by decide)
    rw [update_freq12_clk1_eq s nr p _ (by omega) hp hw]
    split
    · exact ⟨_, _, _, _, rfl, ⟨rfl, rfl, rfl, rfl, rfl, rfl, rfl⟩, hlt, rfl, rfl⟩
    · exact ⟨_, _, _, _, rfl, ⟨rfl, rfl, rfl, rfl, rfl, rfl, rfl⟩, hlt, rfl, rfl⟩

theorem update_freq12_direct_total (s : Si5351) (nr : Nat) (hx : 0 < s.xtal_freq)
    (hf : s.freq2 ≠ 0) :
    ∃ s' nr' w, s.update_freq12_direct nr = some (s', nr', w) ∧ s.sameRequest s' ∧
      s'.freq_pll_b = s.freq_pll_b ∧ s'.freq0_div = s.freq0_div ∧
      s'.freq0_rdiv = s.freq0_rdiv := by
  by_cases h6 : 900000000 / s.freq2 < 6
  · simp only [Si5351.update_freq12_direct, udiv, hf, if_false, h6, if_true]
    obtain ⟨a1, a2, a3, _, _, a6, _, _⟩ := disable_out_frame s 2
    exact ⟨_, _, _, rfl, a1, a2, a6 (by decide), a3⟩
  · obtain ⟨p, hp, _⟩ := pll_calc_eq (900000000 / s.freq2) s.freq2 s.xtal_freq hx
    obtain ⟨b0, b1, b2, b3, b4, b5, b6, b7, hw⟩ := setup_pll_frac SI_SYNTH_PLL_B p.mult p.num
    rw [update_freq12_direct_eq s nr p _ (by omega) hp hw]
    split
    · exact ⟨_, _, _, rfl, ⟨rfl, rfl, rfl, rfl, rfl, rfl, rfl⟩, rfl, rfl, rfl⟩
    · exact ⟨_, _, _, rfl, sameRequest_refl s, rfl, rfl, rfl⟩

/-- The two calls of `disable_out` that open `update_freq12`. -/
theorem update_freq12_off_frame (s : Si5351) :
    s.sameRequest s.update_freq12_off.1 ∧
    s.update_freq12_off.1.freq_pll_b = s.freq_pll_b ∧
    s.update_freq12_off.1.freq0_div = s.freq0_div ∧
    s.update_freq12_off.1.freq0_rdiv = s.freq0_rdiv := by
  unfold Si5351.update_freq12_off
  simp only
  by_cases h1 : s.freq1 = 0
  · obtain ⟨a1, a2, a3, _, _, a6, _, _⟩ := disable_out_frame s 1
    rw [if_pos h1]
    by_cases h2 : (s.disable_out 1).1.freq2 = 0
    · obtain ⟨b1, b2, b3, _, _, b6, _, _⟩ := disable_out_frame (s.disable_out 1).1 2
      rw [if_pos h2]
      exact ⟨sameRequest_trans a1 b1, b2.trans a2, (b6 (by decide)).trans (a6 (by decide)),
        b3.trans a3⟩
    · rw [if_neg h2]
      exact ⟨a1, a2, a6 (by decide), a3⟩
  · rw [if_neg h1]
    by_cases h2 : s.freq2 = 0
    · obtain ⟨b1, b2, b3, _, _, b6, _, _⟩ := disable_out_frame s 2
      rw [if_pos h2]
      exact ⟨b1, b2, b6 (by decide), b3⟩
    · rw [if_neg h2]
      exact ⟨sameRequest_refl s, rfl, rfl, rfl⟩

/-- `update_freq12` returns whenever the crystal value is nonzero and the
retained PLL-B frequency fits in 32 bits; it keeps the request and the cache
of channel 0. -/
theorem update_freq12_total (s : Si5351) (fc nr : Nat) (hx : 0 < s.xtal_freq)
    (hP : s.freq_pll_b < 2 ^ 32) :
    ∃ s' nr' w, s.update_freq12 fc nr = some (s', nr', w) ∧ s.sameRequest s' ∧
      s'.freq_pll_b < 2 ^ 32 ∧ s'.freq0_div = s.freq0_div ∧
      s'.freq0_rdiv = s.freq0_rdiv := by
  obtain ⟨hsr, hpb, hd0, hr0⟩ := update_freq12_off_frame s
  unfold Si5351.update_freq12
  simp only
  generalize s.update_freq12_off = d2 at *
  have hx2 : 0 < d2.1.xtal_freq := by
    rw [hsr.1]
    exact hx
  have hP2 : d2.1.freq_pll_b < 2 ^ 32 := by
    rw [hpb]
    exact hP
  by_cases h1 : d2.1.freq1 ≠ 0
  · rw [if_pos h1]
    by_cases hfc : u8 fc ≠ 0
    · rw [if_pos hfc]
      obtain ⟨b, s3, nr3, w3, h3, hsr3, hP3, hd3, hr3⟩ :=
        update_freq12_clk1_total d2.1 nr hx2 hP2 (by simpa using h1)
      rw [h3]
      cases b with
      | true =>
        exact ⟨_, _, _, rfl, sameRequest_trans hsr hsr3, hP3, hd3.trans hd0, hr3.trans hr0⟩
      | false =>
        simp only
        by_cases h2 : s3.freq2 ≠ 0
        · rw [if_pos h2]
          obtain ⟨s4, w4, h4, hsr4, hP4, hd4, hr4⟩ :=
            update_freq12_clk2_total s3 hP3 (by simpa using h2)
          rw [h4]
          exact ⟨_, _, _, rfl, sameRequest_trans hsr (sameRequest_trans hsr3 hsr4),
            by rw [hP4]; exact hP3, hd4.trans (hd3.trans hd0), hr4.trans (hr3.trans hr0)⟩
        · rw [if_neg h2]
          exact ⟨_, _, _, rfl, sameRequest_trans hsr hsr3, hP3, hd3.trans hd0,
            hr3.trans hr0⟩
    · rw [if_neg hfc]
      simp only
      by_cases h2 : d2.1.freq2 ≠ 0
      · rw [if_pos h2]
        obtain ⟨s4, w4, h4, hsr4, hP4, hd4, hr4⟩ :=
          update_freq12_clk2_total d2.1 hP2 (by simpa using h2)
        rw [h4]
        exact ⟨_, _, _, rfl, sameRequest_trans hsr hsr4, by rw [hP4]; exact hP2,
          hd4.trans hd0, hr4.trans hr0⟩
      · rw [if_neg h2]
        exact ⟨_, _, _, rfl, hsr, hP2, hd0, hr0⟩
  · rw [if_neg h1]
    by_cases h2 : d2.1.freq2 ≠ 0
    · rw [if_pos h2]
      obtain ⟨s3, nr3, w3, h3, hsr3, hP3, hd3, hr3⟩ :=
        update_freq12_direct_total d2.1 nr hx2 (by simpa using h2)
      rw [h3]
      exact ⟨_, _, _, rfl, sameRequest_trans hsr hsr3, by rw [hP3]; exact hP2,
        hd3.trans hd0, hr3.trans hr0⟩
    · rw [if_neg h2]
      exact ⟨_, _, _, rfl, hsr, hP2, hd0, hr0⟩

/-- `set_freq` returns whenever the crystal value is nonzero and the retained
PLL-B frequency fits in 32 bits; afterwards the stored frequencies are the
requested ones. -/
theorem set_freq_total (s : Si5351) (f0 f1 f2 : Nat) (hx : 0 < s.xtal_freq)
    (hP : s.freq_pll_b < 2 ^ 32) :
    ∃ s' w, s.set_freq f0 f1 f2 = some (s', w) ∧ s'.xtal_freq = s.xtal_freq ∧
      s'.freq0 = u32 f0 ∧ s'.freq1 = u32 f1 ∧ s'.freq2 = u32 f2 ∧
      s'.power0 = s.power0 ∧ s'.power1 = s.power1 ∧ s'.power2 = s.power2 ∧
      s'.freq_pll_b < 2 ^ 32 := by
  unfold Si5351.set_freq
  simp only
  -- channel 0
  have step0 : ∃ s1 nr w0,
      (if u32 f0 ≠ s.freq0 then ({ s with freq0 := u32 f0 }).update_freq0 0
        else some (s, 0, [])) = some (s1, nr, w0) ∧
      s1.xtal_freq = s.xtal_freq ∧ s1.freq0 = u32 f0 ∧ s1.freq1 = s.freq1 ∧
      s1.freq2 = s.freq2 ∧ s1.power0 = s.power0 ∧ s1.power1 = s.power1 ∧
      s1.power2 = s.power2 ∧ s1.freq_pll_b = s.freq_pll_b := by
    by_cases h0 : u32 f0 ≠ s.freq0
    · rw [if_pos h0]
      obtain ⟨s1, nr, w0, h, ⟨a1, a2, a3, a4, a5, a6, a7⟩, hpb, _⟩ :=
        update_freq0_total { s with freq0 := u32 f0 } 0 hx
      exact ⟨s1, nr, w0, h, a1, a2, a3, a4, a5, a6, a7, hpb⟩
    · rw [if_neg h0]
      have e : s.freq0 = u32 f0 := by
        by_contra hne
        exact h0 (fun h => hne h.symm)
      exact ⟨s, 0, [], rfl, rfl, e, rfl, rfl, rfl, rfl, rfl, rfl⟩
  obtain ⟨s1, nr, w0, h0, b1, b2, b3, b4, b5, b6, b7, b8⟩ := step0
  rw [h0]
  simp only
  -- channels 1 and 2
  have step12 : ∃ s2 nr2 w12,
      (if (if u32 f1 ≠ s.freq1 then 1 else 0) ≠ 0 ∨ u32 f2 ≠ s1.freq2 then
          ({ s1 with freq1 := u32 f1, freq2 := u32 f2 }).update_freq12
            (if u32 f1 ≠ s.freq1 then 1 else 0) nr
        else some (s1, nr, [])) = some (s2, nr2, w12) ∧
      s2.xtal_freq = s.xtal_freq ∧ s2.freq0 = u32 f0 ∧ s2.freq1 = u32 f1 ∧
      s2.freq2 = u32 f2 ∧ s2.power0 = s.power0 ∧ s2.power1 = s.power1 ∧
      s2.power2 = s.power2 ∧ s2.freq_pll_b < 2 ^ 32 := by
    by_cases h12 : (if u32 f1 ≠ s.freq1 then 1 else 0) ≠ 0 ∨ u32 f2 ≠ s1.freq2
    · rw [if_pos h12]
      obtain ⟨s2, nr2, w12, h, ⟨a1, a2, a3, a4, a5, a6, a7⟩, hpb, _⟩ :=
        update_freq12_total { s1 with freq1 := u32 f1, freq2 := u32 f2 }
          (if u32 f1 ≠ s.freq1 then 1 else 0) nr (by rw [← b1] at hx; exact hx)
          (by rw [← b8] at hP; exact hP)
      exact ⟨s2, nr2, w12, h, a1.trans b1, a2.trans b2, a3, a4, a5.trans b5, a6.trans b6,
        a7.trans b7, hpb⟩
    · rw [if_neg h12]
      have e1 : s1.freq1 = u32 f1 := by
        rw [b3]
        by_contra hne
        apply h12
        left
        rw [if_pos (fun h => hne h.symm)]
        decide
      have e2 : s1.freq2 = u32 f2 := by
        by_contra hne
        exact h12 (Or.inr (fun h => hne h.symm))
      exact ⟨s1, nr, [], rfl, b1, b2, e1, e2, b5, b6, b7, by rw [b8]; exact hP⟩
  obtain ⟨s2, nr2, w12, h12, c1, c2, c3, c4, c5, c6, c7, c8⟩ := step12
  rw [h12]
  exact ⟨_, _, rfl, c1, c2, c3, c4, c5, c6, c7, c8⟩

/-- A call of `set_freq` with the three stored frequencies does nothing. -/
theorem set_freq_same (s : Si5351) (f0 f1 f2 : Nat) (h0 : s.freq0 = u32 f0)
    (h1 : s.freq1 = u32 f1) (h2 : s.freq2 = u32 f2) : s.set_freq f0 f1 f2 = some (s, []) := by
  simp [Si5351.set_freq, h0, h1, h2]

/-! ## Register writes of a trace -/

theorem regWrites_append (w1 w2 : List Txn) :
    regWrites (w1 ++ w2) = regWrites w1 ++ regWrites w2 := by
  induction w1 with
  | nil => rfl
  | cons t w ih => simp [regWrites, ih]

theorem writesTo_append (base : Nat) (w1 w2 : List Txn) :
    writesTo base (w1 ++ w2) = writesTo base w1 ++ writesTo base w2 := by
  simp [writesTo, regWrites_append]

/-- The writes of `update_freq0` reach neither the PLL B registers nor the
registers of multisynth 2. -/
theorem update_freq0_shape_writes (w : List Txn)
    (h : w = [] ∨ w = [[16, 0x80]] ∨
      (∃ b0 b1 b2 b3 b4 b5 b6 b7, w = [[26, b0, b1, b2, b3, b4, b5, b6, b7]]) ∨
      (∃ b0 b1 b2 b3 b4 b5 b6 b7 c0 c1 c2 c3 c4 c5 c6 c7 v,
        w = [[26, b0, b1, b2, b3, b4, b5, b6, b7], [42, c0, c1, c2, c3, c4, c5, c6, c7],
          [16, v]])) :
    writesTo SI_SYNTH_PLL_B w = [] ∧ writesTo SI_SYNTH_MS_2 w = [] := by
  rcases h with h | h | ⟨b0, b1, b2, b3, b4, b5, b6, b7, h⟩ |
    ⟨b0, b1, b2, b3, b4, b5, b6, b7, c0, c1, c2, c3, c4, c5, c6, c7, v, h⟩ <;>
  · subst h
    simp [writesTo, regWrites, Txn.regWrites, regWritesFrom, SI_SYNTH_PLL_B, SI_SYNTH_MS_2]

/-- A call of `set_freq` that keeps a nonzero `freq1` and changes `freq2` to a
nonzero value: after the part for channel 0, only the shared-PLL block for
channel 2 runs. -/
theorem set_freq_shared (s : Si5351) (f0 f2 : Nat) (hx : 0 < s.xtal_freq)
    (h1 : s.freq1 ≠ 0) (h1b : s.freq1 < 2 ^ 32) (h2 : f2 ≠ s.freq2) (h2a : f2 ≠ 0)
    (h2b : f2 < 2 ^ 32) :
    ∃ (s1 : Si5351) (nr : Nat) (w0 : List Txn), s1.freq_pll_b = s.freq_pll_b ∧
      writesTo SI_SYNTH_PLL_B w0 = [] ∧ writesTo SI_SYNTH_MS_2 w0 = [] ∧
      s.set_freq f0 s.freq1 f2 =
        match ({ s1 with freq1 := s.freq1, freq2 := f2 } : Si5351).update_freq12_clk2 with
        | none => none
        | some (s4, w4) =>
          some (s4, w0 ++ w4 ++ (if nr ≠ 0 then si5351_write_reg SI_PLL_RESET 0xA0 else [])) := by
  have e1 : u32 s.freq1 = s.freq1 := Nat.mod_eq_of_lt h1b
  have e2 : u32 f2 = f2 := Nat.mod_eq_of_lt h2b
  have step0 : ∃ s1 nr w0,
      (if u32 f0 ≠ s.freq0 then ({ s with freq0 := u32 f0 }).update_freq0 0
        else some (s, 0, [])) = some (s1, nr, w0) ∧
      s1.freq1 = s.freq1 ∧ s1.freq2 = s.freq2 ∧ s1.freq_pll_b = s.freq_pll_b ∧
      writesTo SI_SYNTH_PLL_B w0 = [] ∧ writesTo SI_SYNTH_MS_2 w0 = [] := by
    by_cases h0 : u32 f0 ≠ s.freq0
    · rw [if_pos h0]
      obtain ⟨s1, nr, w0, h, ⟨_, _, a3, a4, _⟩, hpb, _, _, _, _, hshape⟩ :=
        update_freq0_total { s with freq0 := u32 f0 } 0 hx
      exact ⟨s1, nr, w0, h, a3, a4, hpb, (update_freq0_shape_writes w0 hshape).1,
        (update_freq0_shape_writes w0 hshape).2⟩
    · rw [if_neg h0]
      exact ⟨s, 0, [], rfl, rfl, rfl, rfl, rfl, rfl⟩
  obtain ⟨s1, nr, w0, h0, b1, b2, b3, b4, b5⟩ := step0
  refine ⟨s1, nr, w0, b3, b4, b5, ?_⟩
  have hc : (if s.freq1 ≠ s.freq1 then 1 else 0) ≠ 0 ∨ f2 ≠ s1.freq2 := by
    right
    rw [b2]
    exact h2
  have hoff : ({ s1 with freq1 := s.freq1, freq2 := f2 } : Si5351).update_freq12_off =
      ({ s1 with freq1 := s.freq1, freq2 := f2 }, []) := by
    simp [Si5351.update_freq12_off, h1, h2a]
  have h12 : ({ s1 with freq1 := s.freq1, freq2 := f2 } : Si5351).update_freq12 0 nr =
      match ({ s1 with freq1 := s.freq1, freq2 := f2 } : Si5351).update_freq12_clk2 with
      | none => none
      | some (s4, w4) => some (s4, nr, w4) := by
    have e0 : ¬ (u8 0 ≠ 0) := by decide
    simp only [Si5351.update_freq12, hoff, e0, if_false]
    simp only [ne_eq, h1, not_false_eq_true, if_true, h2a, List.nil_append]
  simp only [Si5351.set_freq, e1, e2, h0]
  rw [if_pos hc]
  have efc : (if s.freq1 ≠ s.freq1 then 1 else 0) = 0 := by simp
  rw [efc, h12]
  cases ({ s1 with freq1 := s.freq1, freq2 := f2 } : Si5351).update_freq12_clk2 with
  | none => rfl
  | some r => rfl

theorem div_loop_ff_le (d r ff : Nat) (h : d ≤ 900) : div_loop_ff d r ff = (d, r, ff) := by
  rw [div_loop_ff]
  simp [Nat.not_lt.mpr h]

theorem setup_msynth_u8_rdiv (synth a b c rDiv : Nat) :
    si5351_setup_msynth synth a b c rDiv = si5351_setup_msynth synth a b c (u8 rDiv) := by
  simp only [si5351_setup_msynth, u8_u8]

/-- The shared-PLL block for channel 2: it returns, keeps the retained PLL-B
frequency, writes no PLL B register, and, when the quotient is at least 6 and
the divider below 256, writes to registers 58..65 the parameter bytes of that
divider. -/
theorem update_freq12_clk2_result (t : Si5351) (hP : t.freq_pll_b < 2 ^ 32)
    (hf2 : t.freq2 ≠ 0) :
    ∃ s4 w4, t.update_freq12_clk2 = some (s4, w4) ∧ s4.freq_pll_b = t.freq_pll_b ∧
      writesTo SI_SYNTH_PLL_B w4 = [] ∧
      (6 ≤ t.freq_pll_b / t.freq2 →
        ∃ m, ms2_calc (t.freq_pll_b / t.freq2) t.freq_pll_b t.freq2 = some m ∧
          m.divider = t.freq_pll_b / (t.freq2 * 2 ^ m.rdiv) ∧ 6 ≤ m.divider ∧
          m.divider ≤ 900 ∧
          (m.divider < 256 →
            writesTo SI_SYNTH_MS_2 w4 = regWritesFrom 58
              (param_bytes
                (128 * m.divider + 128 * m.num / (if m.num ≠ 0 then FRAC_DENOM else 1) - 512)
                (128 * m.num % (if m.num ≠ 0 then FRAC_DENOM else 1))
                (if m.num ≠ 0 then FRAC_DENOM else 1) (u8 (R_DIV m.rdiv))))) := by
  by_cases h6 : 6 ≤ t.freq_pll_b / t.freq2
  · obtain ⟨m, wms, hm, hwms, hclk2⟩ := update_freq12_clk2_eq t hP h6
    obtain ⟨m', hm', hr32, hff, _, _, hdiv, _, h900, hmin, _, hnum⟩ :=
      ms2_calc_spec t.freq_pll_b t.freq2 hP (by omega) (by omega)
    have hmm : m' = m := Option.some.inj (hm'.symm.trans hm)
    subst hmm
    obtain ⟨b0, b1, b2, b3, b4, b5, b6, b7, hshape⟩ := setup_msynth_ms2_shape m'.divider m'.num
      (if m'.num ≠ 0 then FRAC_DENOM else 1) (R_DIV m'.rdiv) (ms2_denominator_ne_zero m'.num)
    have hw : wms = [[58, b0], [59, b1], [60, b2], [61, b3], [62, b4], [63, b5], [64, b6],
        [65, b7]] := Option.some.inj (hwms.symm.trans hshape)
    have hd6 : 6 ≤ m'.divider := by
      rw [hdiv, hff]
      rcases Nat.eq_zero_or_pos m'.rdiv with hz | hpos
      · rw [hz, pow_zero, Nat.mul_one]
        exact h6
      · have h := hmin (m'.rdiv - 1) (by omega)
        have e : t.freq2 * 2 ^ m'.rdiv = t.freq2 * 2 ^ (m'.rdiv - 1) * 2 := by
          have e2 : m'.rdiv = m'.rdiv - 1 + 1 := by omega
          conv_lhs => rw [e2, pow_succ]
          ring
        rw [e, ← Nat.div_div_eq_div_mul]
        omega
    refine ⟨_, _, hclk2, rfl, ?_, ?_⟩
    · rw [hw]
      simp [writesTo, regWrites, Txn.regWrites, regWritesFrom, SI_SYNTH_PLL_B]
    · intro _
      refine ⟨m', hm, by rw [hdiv, hff], hd6, h900, ?_⟩
      intro h256
      have hc : 0 < (if m'.num ≠ 0 then FRAC_DENOM else 1) ∧
          (if m'.num ≠ 0 then FRAC_DENOM else 1) < 2 ^ 32 := by
        split <;> decide
      have hn : m'.num < 1048575 := hnum
      have hq : 128 * m'.num / (if m'.num ≠ 0 then FRAC_DENOM else 1) ≤ 128 * m'.num :=
        Nat.div_le_self _ _
      obtain ⟨w, hw1, hw2⟩ := setup_msynth_writes 58 m'.divider m'.num
        (if m'.num ≠ 0 then FRAC_DENOM else 1) (u8 (R_DIV m'.rdiv)) (by decide) (by omega)
        h256 hc.1 hc.2 (by omega) (by omega) (Nat.mod_lt _ (by decide))
      have hww : wms = w := by
        rw [setup_msynth_u8_rdiv] at hwms
        exact Option.some.inj (hwms.symm.trans hw1)
      rw [hww]
      unfold writesTo
      rw [hw2]
      simp [param_bytes, regWritesFrom, SI_SYNTH_MS_2]
  · have hlt : t.freq_pll_b / t.freq2 < 6 := by omega
    have hclk2 : t.update_freq12_clk2 = some (t.disable_out 2) := by
      simp only [Si5351.update_freq12_clk2, udiv, hf2, if_false, hlt, if_true]
    have hwr : writesTo SI_SYNTH_PLL_B (t.disable_out 2).2 = [] := by
      rw [(disable_out_writes t 2 (by decide)).1]
      split <;> simp [writesTo, regWrites, Txn.regWrites, regWritesFrom, SI_SYNTH_PLL_B]
    exact ⟨(t.disable_out 2).1, (t.disable_out 2).2, hclk2, (disable_out_frame t 2).2.1, hwr,
      fun h => absurd h h6⟩

/-! ## What each block writes -/

theorem touches_append (k : Nat) (w1 w2 : List Txn) :
    touches k (w1 ++ w2) = (touches k w1 || touches k w2) := by
  simp [touches, regWrites_append]

theorem resets_append (w1 w2 : List Txn) :
    resets (w1 ++ w2) = (resets w1 || resets w2) := by
  simp [resets, regWrites_append]

theorem intProgrammed_append (w1 w2 : List Txn) :
    intProgrammed (w1 ++ w2) = (intProgrammed w1 || intProgrammed w2) := by
  simp [intProgrammed]

/-- The writes of `disable_out k` stay with channel `k` and program nothing. -/
theorem disable_out_quiet (s : Si5351) (k : Nat) (hk : k ≤ 2) :
    intProgrammed (s.disable_out k).2 = false ∧ resets (s.disable_out k).2 = false ∧
    (∀ j, j ≤ 2 → j ≠ k → touches j (s.disable_out k).2 = false) ∧
    (s.freq_div k = 0 → (s.disable_out k).2 = []) := by
  rw [(disable_out_writes s k hk).1]
  have hk3 : k = 0 ∨ k = 1 ∨ k = 2 := by omega
  refine ⟨?_, ?_, ?_, ?_⟩
  · split <;> rfl
  · rcases hk3 with h | h | h <;> subst h <;> split <;> rfl
  · intro j hj hjk
    have hj3 : j = 0 ∨ j = 1 ∨ j = 2 := by omega
    rcases hk3 with h | h | h <;> subst h <;> rcases hj3 with h | h | h <;> subst h <;>
      first | (exact absurd rfl hjk) | (split <;> rfl)
  · intro h0
    simp [h0]

/-- Summary of `update_freq0`: it returns; it keeps the request, the retained
PLL-B frequency and the caches of channels 1 and 2; it writes nothing for
channels 1 and 2 and never the reset register; and it reports a reset as owed
exactly when it programmed multisynth 0. -/
theorem update_freq0_summary (s : Si5351) (nr : Nat) (hx : 0 < s.xtal_freq) :
    ∃ s' nr' w, s.update_freq0 nr = some (s', nr', w) ∧ s.sameRequest s' ∧
      s'.freq_pll_b = s.freq_pll_b ∧ s'.freq1_div = s.freq1_div ∧
      s'.freq2_div = s.freq2_div ∧ s'.freq1_rdiv = s.freq1_rdiv ∧
      s'.freq2_rdiv = s.freq2_rdiv ∧
      touches 1 w = false ∧ touches 2 w = false ∧ resets w = false ∧
      ((nr' = nr ∧ intProgrammed w = false) ∨ (nr' = 1 ∧ intProgrammed w = true)) := by
  have hdis : ∃ s' nr' w,
      some ((s.disable_out 0).1, nr, (s.disable_out 0).2) = some (s', nr', w) ∧
      s.sameRequest s' ∧ s'.freq_pll_b = s.freq_pll_b ∧ s'.freq1_div = s.freq1_div ∧
      s'.freq2_div = s.freq2_div ∧ s'.freq1_rdiv = s.freq1_rdiv ∧
      s'.freq2_rdiv = s.freq2_rdiv ∧
      touches 1 w = false ∧ touches 2 w = false ∧ resets w = false ∧
      ((nr' = nr ∧ intProgrammed w = false) ∨ (nr' = 1 ∧ intProgrammed w = true)) := by
    obtain ⟨a1, a2, _, a4, a5, _, a7, a8⟩ := disable_out_frame s 0
    obtain ⟨q1, q2, q3, _⟩ := disable_out_quiet s 0 (by decide)
    exact ⟨_, _, _, rfl, a1, a2, a7 (by decide), a8 (by decide), a4, a5,
      q3 1 (by decide) (by decide), q3 2 (by decide) (by decide), q2, Or.inl ⟨rfl, q1⟩⟩
  by_cases hf : s.freq0 = 0
  · simp only [Si5351.update_freq0, hf, if_true]
    simpa only [hf] using hdis
  · by_cases h6 : 900000000 / s.freq0 < 6
    · simp only [Si5351.update_freq0, hf, if_false, udiv, h6, if_true]
      exact hdis
    · obtain ⟨p, hp, _⟩ := pll_calc_eq (900000000 / s.freq0) s.freq0 s.xtal_freq hx
      obtain ⟨b0, b1, b2, b3, b4, b5, b6, b7, hw⟩ := setup_pll_frac SI_SYNTH_PLL_A p.mult p.num
      obtain ⟨c0, c1, c2, c3, c4, c5, c6, c7, hm⟩ :=
        setup_msynth_int_shape SI_SYNTH_MS_0 p.divider (R_DIV p.rdiv)
      rw [update_freq0_eq s nr p _ (by omega) hp hw]
      split
      · refine ⟨_, _, _, rfl, ⟨rfl, rfl, rfl, rfl, rfl, rfl, rfl⟩, rfl, rfl, rfl, rfl, rfl,
          ?_, ?_, ?_, Or.inr ⟨rfl, ?_⟩⟩ <;>
        · rw [hm]
          simp [touches, resets, intProgrammed, isIntTxn, regWrites, Txn.regWrites,
            regWritesFrom, si5351_write_reg, SI_SYNTH_PLL_A, SI_SYNTH_MS_0, SI_CLK0_CONTROL, u8]
      · refine ⟨_, _, _, rfl, sameRequest_refl s, rfl, rfl, rfl, rfl, rfl,
          ?_, ?_, ?_, Or.inl ⟨rfl, ?_⟩⟩ <;>
        simp [touches, resets, intProgrammed, isIntTxn, regWrites, Txn.regWrites,
          regWritesFrom, SI_SYNTH_PLL_A, u8]

/-- Summary of the channel-1 block of `update_freq12`. -/
theorem update_freq12_clk1_summary (s : Si5351) (nr : Nat) (hx : 0 < s.xtal_freq)
    (hP : s.freq_pll_b < 2 ^ 32) (hf : s.freq1 ≠ 0) :
    ∃ b s' nr' w, s.update_freq12_clk1 nr = some (b, s', nr', w) ∧ s.sameRequest s' ∧
      s'.freq_pll_b < 2 ^ 32 ∧ s'.freq0_div = s.freq0_div ∧ s'.freq0_rdiv = s.freq0_rdiv ∧
      s'.freq2_div = s.freq2_div ∧ s'.freq2_rdiv = s.freq2_rdiv ∧
      (b = true → s'.freq_pll_b = s.freq_pll_b) ∧
      touches 0 w = false ∧ resets w = false ∧
      ((nr' = nr ∧ intProgrammed w = false) ∨ (nr' = 1 ∧ intProgrammed w = true)) := by
  by_cases h6 : 900000000 / s.freq1 < 6
  · simp only [Si5351.update_freq12_clk1, udiv, hf, if_false, h6, if_true]
    obtain ⟨a1, a2, a3, _, a5, a6, _, a8⟩ := disable_out_frame s 1
    obtain ⟨q1, q2, q3, _⟩ := disable_out_quiet s 1 (by decide)
    exact ⟨_, _, _, _, rfl, a1, by rw [a2]; exact hP, a6 (by decide), a3, a8 (by decide), a5,
      fun _ => a2, q3 0 (by decide) (by decide), q2, Or.inl ⟨rfl, q1⟩⟩
  · obtain ⟨p, hp, _, _, hpll, _⟩ := pll_calc_eq (900000000 / s.freq1) s.freq1 s.xtal_freq hx
    obtain ⟨b0, b1, b2, b3, b4, b5, b6, b7, hw⟩ := setup_pll_frac SI_SYNTH_PLL_B p.mult p.num
    obtain ⟨c0, c1, c2, c3, c4, c5, c6, c7, hm⟩ :=
      setup_msynth_int_shape SI_SYNTH_MS_1 p.divider (R_DIV p.rdiv)
    have hlt : p.pll_freq < 2 ^ 32 := by
      rw [hpll]
      exact Nat.mod_lt _ (by decide)
    rw [update_freq12_clk1_eq s nr p _ (by omega) hp hw]
    split
    · refine ⟨_, _, _, _, rfl, ⟨rfl, rfl, rfl, rfl, rfl, rfl, rfl⟩, hlt, rfl, rfl, rfl, rfl,
        fun h => absurd h (by decide), ?_, ?_, Or.inr ⟨rfl, ?_⟩⟩ <;>
      · rw [hm]
        simp [touches, resets, intProgrammed, isIntTxn, regWrites, Txn.regWrites,
          regWritesFrom, si5351_write_reg, SI_SYNTH_PLL_B, SI_SYNTH_MS_1, SI_CLK1_CONTROL,
          SI_CLK2_CONTROL, u8]
    · refine ⟨_, _, _, _, rfl, ⟨rfl, rfl, rfl, rfl, rfl, rfl, rfl⟩, hlt, rfl, rfl, rfl, rfl,
        fun h => absurd h (by decide), ?_, ?_, Or.inl ⟨rfl, ?_⟩⟩ <;>
      simp [touches, resets, intProgrammed, isIntTxn, regWrites, Txn.regWrites,
        regWritesFrom, SI_SYNTH_PLL_B, u8]

/-- Summary of the shared-PLL block for channel 2. -/
theorem update_freq12_clk2_summary (s : Si5351) (hP : s.freq_pll_b < 2 ^ 32)
    (hf : s.freq2 ≠ 0) :
    ∃ s' w, s.update_freq12_clk2 = some (s', w) ∧ s.sameRequest s' ∧
      s'.freq_pll_b = s.freq_pll_b ∧ s'.freq0_div = s.freq0_div ∧
      s'.freq0_rdiv = s.freq0_rdiv ∧ s'.freq1_div = s.freq1_div ∧
      s'.freq1_rdiv = s.freq1_rdiv ∧
      touches 0 w = false ∧ touches 1 w = false ∧ resets w = false ∧
      intProgrammed w = false := by
  by_cases h6 : s.freq_pll_b / s.freq2 < 6
  · simp only [Si5351.update_freq12_clk2, udiv, hf, if_false, h6, if_true]
    obtain ⟨a1, a2, a3, a4, _, a6, a7, _⟩ := disable_out_frame s 2
    obtain ⟨q1, q2, q3, _⟩ := disable_out_quiet s 2 (by decide)
    exact ⟨(s.disable_out 2).1, (s.disable_out 2).2, rfl, a1, a2, a6 (by decide), a3,
      a7 (by decide), a4, q3 0 (by decide) (by decide), q3 1 (by decide) (by decide), q2, q1⟩
  · obtain ⟨m, wms, _, hwms, h⟩ := update_freq12_clk2_eq s hP (by omega)
    obtain ⟨b0, b1, b2, b3, b4, b5, b6, b7, hshape⟩ := setup_msynth_ms2_shape m.divider m.num
      (if m.num ≠ 0 then FRAC_DENOM else 1) (R_DIV m.rdiv) (ms2_denominator_ne_zero m.num)
    have hw : wms = [[58, b0], [59, b1], [60, b2], [61, b3], [62, b4], [63, b5], [64, b6],
        [65, b7]] := Option.some.inj (hwms.symm.trans hshape)
    refine ⟨_, _, h, ⟨rfl, rfl, rfl, rfl, rfl, rfl, rfl⟩, rfl, rfl, rfl, rfl, rfl,
      ?_, ?_, ?_, ?_⟩ <;>
    · rw [hw]
      simp [touches, resets, intProgrammed, isIntTxn, regWrites, Txn.regWrites, regWritesFrom]

/-- Summary of the direct PLL-B path for channel 2. -/
theorem update_freq12_direct_summary (s : Si5351) (nr : Nat) (hx : 0 < s.xtal_freq)
    (hf : s.freq2 ≠ 0) :
    ∃ s' nr' w, s.update_freq12_direct nr = some (s', nr', w) ∧ s.sameRequest s' ∧
      s'.freq_pll_b = s.freq_pll_b ∧ s'.freq0_div = s.freq0_div ∧
      s'.freq0_rdiv = s.freq0_rdiv ∧ s'.freq1_div = s.freq1_div ∧
      s'.freq1_rdiv = s.freq1_rdiv ∧
      touches 0 w = false ∧ touches 1 w = false ∧
      ((nr' = nr ∧ intProgrammed w = false ∧ resets w = false) ∨
        (nr' = 1 ∧ intProgrammed w = true)) := by
  by_cases h6 : 900000000 / s.freq2 < 6
  · simp only [Si5351.update_freq12_direct, udiv, hf, if_false, h6, if_true]
    obtain ⟨a1, a2, a3, a4, _, a6, a7, _⟩ := disable_out_frame s 2
    obtain ⟨q1, q2, q3, _⟩ := disable_out_quiet s 2 (by decide)
    exact ⟨_, _, _, rfl, a1, a2, a6 (by decide), a3, a7 (by decide), a4,
      q3 0 (by decide) (by decide), q3 1 (by decide) (by decide), Or.inl ⟨rfl, q1, q2⟩⟩
  · obtain ⟨p, hp, _⟩ := pll_calc_eq (900000000 / s.freq2) s.freq2 s.xtal_freq hx
    obtain ⟨b0, b1, b2, b3, b4, b5, b6, b7, hw⟩ := setup_pll_frac SI_SYNTH_PLL_B p.mult p.num
    obtain ⟨c0, c1, c2, c3, c4, c5, c6, c7, hm⟩ :=
      setup_msynth_int_shape SI_SYNTH_MS_2 p.divider (R_DIV p.rdiv)
    rw [update_freq12_direct_eq s nr p _ (by omega) hp hw]
    split
    · refine ⟨_, _, _, rfl, ⟨rfl, rfl, rfl, rfl, rfl, rfl, rfl⟩, rfl, rfl, rfl, rfl, rfl,
        ?_, ?_, Or.inr ⟨rfl, ?_⟩⟩ <;>
      · rw [hm]
        simp [touches, resets, intProgrammed, isIntTxn, regWrites, Txn.regWrites,
          regWritesFrom, si5351_write_reg, SI_SYNTH_PLL_B, SI_SYNTH_MS_2, SI_CLK2_CONTROL,
          SI_PLL_RESET, u8]
    · refine ⟨_, _, _, rfl, sameRequest_refl s, rfl, rfl, rfl, rfl, rfl, ?_, ?_,
        Or.inl ⟨rfl, ?_, ?_⟩⟩ <;>
      simp [touches, resets, intProgrammed, isIntTxn, regWrites, Txn.regWrites,
        regWritesFrom, SI_SYNTH_PLL_B, u8]

/-- Summary of the two opening tests of `update_freq12`. -/
theorem update_freq12_off_summary (s : Si5351) :
    s.sameRequest s.update_freq12_off.1 ∧
    s.update_freq12_off.1.freq_pll_b = s.freq_pll_b ∧
    s.update_freq12_off.1.freq0_div = s.freq0_div ∧
    s.update_freq12_off.1.freq0_rdiv = s.freq0_rdiv ∧
    s.update_freq12_off.1.freq1_rdiv = s.freq1_rdiv ∧
    touches 0 s.update_freq12_off.2 = false ∧ resets s.update_freq12_off.2 = false ∧
    intProgrammed s.update_freq12_off.2 = false ∧
    ((s.freq1 = 0 → s.freq1_div = 0) →
      touches 1 s.update_freq12_off.2 = false ∧
      s.update_freq12_off.1.freq1_div = s.freq1_div) := by
  unfold Si5351.update_freq12_off
  simp only
  by_cases h1 : s.freq1 = 0
  · obtain ⟨a1, a2, a3, a4, _, a6, _, _⟩ := disable_out_frame s 1
    obtain ⟨q1, q2, q3, q4⟩ := disable_out_quiet s 1 (by decide)
    rw [if_pos h1]
    by_cases h2 : (s.disable_out 1).1.freq2 = 0
    · obtain ⟨b1, b2, b3, b4, _, b6, b7, _⟩ := disable_out_frame (s.disable_out 1).1 2
      obtain ⟨r1, r2, r3, _⟩ := disable_out_quiet (s.disable_out 1).1 2 (by decide)
      rw [if_pos h2]
      refine ⟨sameRequest_trans a1 b1, b2.trans a2, (b6 (by decide)).trans (a6 (by decide)),
        b3.trans a3, b4.trans a4, ?_, ?_, ?_, ?_⟩
      · rw [touches_append, q3 0 (by decide) (by decide), r3 0 (by decide) (by decide)]
        rfl
      · rw [resets_append, q2, r2]
        rfl
      · rw [intProgrammed_append, q1, r1]
        rfl
      · intro hinv
        have hd : s.freq_div 1 = 0 := hinv h1
        have hnil := q4 hd
        have hsame : (s.disable_out 1).1.freq1_div = s.freq1_div := by
          have := (disable_out_writes s 1 (by decide)).2
          simp only [Si5351.freq_div] at this hd
          rw [this, hd]
        refine ⟨?_, (b7 (by decide)).trans hsame⟩
        rw [touches_append, hnil, r3 1 (by decide) (by decide)]
        rfl
    · rw [if_neg h2]
      refine ⟨a1, a2, a6 (by decide), a3, a4, ?_, ?_, ?_, ?_⟩
      · rw [touches_append, q3 0 (by decide) (by decide)]
        rfl
      · rw [resets_append, q2]
        rfl
      · rw [intProgrammed_append, q1]
        rfl
      · intro hinv
        have hd : s.freq_div 1 = 0 := hinv h1
        have hnil := q4 hd
        have hsame : (s.disable_out 1).1.freq1_div = s.freq1_div := by
          have := (disable_out_writes s 1 (by decide)).2
          simp only [Si5351.freq_div] at this hd
          rw [this, hd]
        refine ⟨?_, hsame⟩
        rw [touches_append, hnil]
        rfl
  · rw [if_neg h1]
    by_cases h2 : s.freq2 = 0
    · obtain ⟨b1, b2, b3, b4, _, b6, b7, _⟩ := disable_out_frame s 2
      obtain ⟨r1, r2, r3, _⟩ := disable_out_quiet s 2 (by decide)
      rw [if_pos h2]
      refine ⟨b1, b2, b6 (by decide), b3, b4, ?_, ?_, ?_, ?_⟩
      · rw [List.nil_append]
        exact r3 0 (by decide) (by decide)
      · rw [List.nil_append]
        exact r2
      · rw [List.nil_append]
        exact r1
      · intro _
        rw [List.nil_append]
        exact ⟨r3 1 (by decide) (by decide), b7 (by decide)⟩
    · rw [if_neg h2]
      exact ⟨sameRequest_refl s, rfl, rfl, rfl, rfl, rfl, rfl, rfl, fun _ => ⟨rfl, rfl⟩⟩

/-- Summary of `update_freq12`: it returns; it keeps the request and the cache
of channel 0 and writes nothing for channel 0; it reports a reset as owed
exactly when it programmed a multisynth in integer mode, and writes the reset
register only then; and when `freq1_changed` is 0 it leaves channel 1 alone,
provided a zero request for channel 1 comes with a zero cached divider. -/
theorem update_freq12_summary (s : Si5351) (fc nr : Nat) (hx : 0 < s.xtal_freq)
    (hP : s.freq_pll_b < 2 ^ 32) :
    ∃ s' nr' w, s.update_freq12 fc nr = some (s', nr', w) ∧ s.sameRequest s' ∧
      s'.freq_pll_b < 2 ^ 32 ∧ s'.freq0_div = s.freq0_div ∧
      s'.freq0_rdiv = s.freq0_rdiv ∧ touches 0 w = false ∧
      ((nr' = nr ∧ intProgrammed w = false ∧ resets w = false) ∨
        (nr' = 1 ∧ intProgrammed w = true)) ∧
      (u8 fc = 0 → (s.freq1 = 0 → s.freq1_div = 0) →
        touches 1 w = false ∧ s'.freq1_div = s.freq1_div ∧
        s'.freq1_rdiv = s.freq1_rdiv) := by
  obtain ⟨hsr, hpb, hd0, hr0, hr1, ht0, hrs, hint, hinv⟩ := update_freq12_off_summary s
  unfold Si5351.update_freq12
  simp only
  generalize s.update_freq12_off = d2 at *
  have hx2 : 0 < d2.1.xtal_freq := by
    rw [hsr.1]
    exact hx
  have hP2 : d2.1.freq_pll_b < 2 ^ 32 := by
    rw [hpb]
    exact hP
  by_cases h1 : d2.1.freq1 ≠ 0
  · rw [if_pos h1]
    by_cases hfc : u8 fc ≠ 0
    · rw [if_pos hfc]
      obtain ⟨b, s3, nr3, w3, h3, hsr3, hP3, hd3, hr3, _, _, _, ht3, hrs3, hnr3⟩ :=
        update_freq12_clk1_summary d2.1 nr hx2 hP2 (by simpa using h1)
      rw [h3]
      cases b with
      | true =>
        refine ⟨_, _, _, rfl, sameRequest_trans hsr hsr3, hP3, hd3.trans hd0, hr3.trans hr0,
          by rw [touches_append, ht0, ht3]; rfl, ?_, fun h => absurd h hfc⟩
        rcases hnr3 with ⟨e1, e2⟩ | ⟨e1, e2⟩
        · exact Or.inl ⟨e1, by rw [intProgrammed_append, hint, e2]; rfl,
            by rw [resets_append, hrs, hrs3]; rfl⟩
        · exact Or.inr ⟨e1, by rw [intProgrammed_append, hint, e2]; rfl⟩
      | false =>
        simp only
        by_cases h2 : s3.freq2 ≠ 0
        · rw [if_pos h2]
          obtain ⟨s4, w4, h4, hsr4, hP4, hd4, hr4, _, _, ht4, _, hrs4, hint4⟩ :=
            update_freq12_clk2_summary s3 hP3 (by simpa using h2)
          rw [h4]
          refine ⟨_, _, _, rfl, sameRequest_trans hsr (sameRequest_trans hsr3 hsr4),
            by rw [hP4]; exact hP3, hd4.trans (hd3.trans hd0), hr4.trans (hr3.trans hr0),
            by rw [touches_append, touches_append, ht0, ht3, ht4]; rfl, ?_,
            fun h => absurd h hfc⟩
          rcases hnr3 with ⟨e1, e2⟩ | ⟨e1, e2⟩
          · exact Or.inl ⟨e1,
              by rw [intProgrammed_append, intProgrammed_append, hint, e2, hint4]; rfl,
              by rw [resets_append, resets_append, hrs, hrs3, hrs4]; rfl⟩
          · exact Or.inr ⟨e1,
              by rw [intProgrammed_append, intProgrammed_append, hint, e2, hint4]; rfl⟩
        · rw [if_neg h2]
          refine ⟨_, _, _, rfl, sameRequest_trans hsr hsr3, hP3, hd3.trans hd0,
            hr3.trans hr0, by rw [touches_append, ht0, ht3]; rfl, ?_,
            fun h => absurd h hfc⟩
          rcases hnr3 with ⟨e1, e2⟩ | ⟨e1, e2⟩
          · exact Or.inl ⟨e1, by rw [intProgrammed_append, hint, e2]; rfl,
              by rw [resets_append, hrs, hrs3]; rfl⟩
          · exact Or.inr ⟨e1, by rw [intProgrammed_append, hint, e2]; rfl⟩
    · rw [if_neg hfc]
      simp only
      by_cases h2 : d2.1.freq2 ≠ 0
      · rw [if_pos h2]
        obtain ⟨s4, w4, h4, hsr4, hP4, hd4, hr4, hd41, hr41, ht4, ht41, hrs4, hint4⟩ :=
          update_freq12_clk2_summary d2.1 hP2 (by simpa using h2)
        rw [h4]
        refine ⟨_, _, _, rfl, sameRequest_trans hsr hsr4, by rw [hP4]; exact hP2,
          hd4.trans hd0, hr4.trans hr0,
          by rw [List.append_nil, touches_append, ht0, ht4]; rfl,
          Or.inl ⟨rfl, by rw [List.append_nil, intProgrammed_append, hint, hint4]; rfl,
            by rw [List.append_nil, resets_append, hrs, hrs4]; rfl⟩, ?_⟩
        intro _ hi
        obtain ⟨i1, i2⟩ := hinv hi
        exact ⟨by rw [List.append_nil, touches_append, i1, ht41]; rfl, hd41.trans i2,
          hr41.trans hr1⟩
      · rw [if_neg h2]
        refine ⟨_, _, _, rfl, hsr, hP2, hd0, hr0, by rw [List.append_nil]; exact ht0,
          Or.inl ⟨rfl, by rw [List.append_nil]; exact hint,
            by rw [List.append_nil]; exact hrs⟩, ?_⟩
        intro _ hi
        obtain ⟨i1, i2⟩ := hinv hi
        exact ⟨by rw [List.append_nil]; exact i1, i2, hr1⟩
  · rw [if_neg h1]
    by_cases h2 : d2.1.freq2 ≠ 0
    · rw [if_pos h2]
      obtain ⟨s3, nr3, w3, h3, hsr3, hP3, hd3, hr3, hd31, hr31, ht3, ht31, hnr3⟩ :=
        update_freq12_direct_summary d2.1 nr hx2 (by simpa using h2)
      rw [h3]
      refine ⟨_, _, _, rfl, sameRequest_trans hsr hsr3, by rw [hP3]; exact hP2,
        hd3.trans hd0, hr3.trans hr0, by rw [touches_append, ht0, ht3]; rfl, ?_, ?_⟩
      · rcases hnr3 with ⟨e1, e2, e3⟩ | ⟨e1, e2⟩
        · exact Or.inl ⟨e1, by rw [intProgrammed_append, hint, e2]; rfl,
            by rw [resets_append, hrs, e3]; rfl⟩
        · exact Or.inr ⟨e1, by rw [intProgrammed_append, hint, e2]; rfl⟩
      · intro _ hi
        obtain ⟨i1, i2⟩ := hinv hi
        exact ⟨by rw [touches_append, i1, ht31]; rfl, hd31.trans i2, hr31.trans hr1⟩
    · rw [if_neg h2]
      refine ⟨_, _, _, rfl, hsr, hP2, hd0, hr0, ht0, Or.inl ⟨rfl, hint, hrs⟩, ?_⟩
      intro _ hi
      obtain ⟨i1, i2⟩ := hinv hi
      exact ⟨i1, i2, hr1⟩

/-- Summary of `set_freq`: the trace is the part for channel 0, the part for
channels 1 and 2, and the reset strobe when one is owed. -/
theorem set_freq_summary (s : Si5351) (f0 f1 f2 : Nat) (hx : 0 < s.xtal_freq)
    (hP : s.freq_pll_b < 2 ^ 32) :
    ∃ (s1 s2 : Si5351) (nr1 nr2 : Nat) (w0 w12 : List Txn),
      s.set_freq f0 f1 f2 = some (s2, w0 ++ w12 ++
        (if nr2 ≠ 0 then si5351_write_reg SI_PLL_RESET 0xA0 else [])) ∧
      (u32 f0 = s.freq0 → s1 = s ∧ w0 = [] ∧ nr1 = 0) ∧
      s1.freq1_div = s.freq1_div ∧ s1.freq2_div = s.freq2_div ∧
      s1.freq1_rdiv = s.freq1_rdiv ∧ s1.freq2_rdiv = s.freq2_rdiv ∧
      touches 1 w0 = false ∧ touches 2 w0 = false ∧ resets w0 = false ∧
      ((nr1 = 0 ∧ intProgrammed w0 = false) ∨ (nr1 = 1 ∧ intProgrammed w0 = true)) ∧
      (u32 f1 = s.freq1 → u32 f2 = s.freq2 → s2 = s1 ∧ w12 = [] ∧ nr2 = nr1) ∧
      s2.freq0_div = s1.freq0_div ∧ s2.freq0_rdiv = s1.freq0_rdiv ∧
      touches 0 w12 = false ∧
      ((nr2 = nr1 ∧ intProgrammed w12 = false ∧ resets w12 = false) ∨
        (nr2 = 1 ∧ intProgrammed w12 = true)) ∧
      (u32 f1 = s.freq1 → (s.freq1 = 0 → s.freq1_div = 0) →
        touches 1 w12 = false ∧ s2.freq1_div = s1.freq1_div ∧
        s2.freq1_rdiv = s1.freq1_rdiv) := by
  unfold Si5351.set_freq
  simp only
  have step0 : ∃ s1 nr1 w0,
      (if u32 f0 ≠ s.freq0 then ({ s with freq0 := u32 f0 }).update_freq0 0
        else some (s, 0, [])) = some (s1, nr1, w0) ∧
      s1.xtal_freq = s.xtal_freq ∧ s1.freq1 = s.freq1 ∧ s1.freq2 = s.freq2 ∧
      s1.freq_pll_b = s.freq_pll_b ∧
      (u32 f0 = s.freq0 → s1 = s ∧ w0 = [] ∧ nr1 = 0) ∧
      s1.freq1_div = s.freq1_div ∧ s1.freq2_div = s.freq2_div ∧
      s1.freq1_rdiv = s.freq1_rdiv ∧ s1.freq2_rdiv = s.freq2_rdiv ∧
      touches 1 w0 = false ∧ touches 2 w0 = false ∧ resets w0 = false ∧
      ((nr1 = 0 ∧ intProgrammed w0 = false) ∨ (nr1 = 1 ∧ intProgrammed w0 = true)) := by
    by_cases h0 : u32 f0 ≠ s.freq0
    · rw [if_pos h0]
      obtain ⟨s1, nr1, w0, h, ⟨a1, _, a3, a4, _⟩, hpb, c1, c2, c3, c4, t1, t2, t3, t4⟩ :=
        update_freq0_summary { s with freq0 := u32 f0 } 0 hx
      exact ⟨s1, nr1, w0, h, a1, a3, a4, hpb, fun e => absurd e h0, c1, c2, c3, c4, t1, t2,
        t3, t4⟩
    · rw [if_neg h0]
      exact ⟨s, 0, [], rfl, rfl, rfl, rfl, rfl, fun _ => ⟨rfl, rfl, rfl⟩, rfl, rfl, rfl, rfl,
        rfl, rfl, rfl, Or.inl ⟨rfl, rfl⟩⟩
  obtain ⟨s1, nr1, w0, h0, b1, b3, b4, b8, e0, c1, c2, c3, c4, t1, t2, t3, t4⟩ := step0
  rw [h0]
  simp only
  have step12 : ∃ s2 nr2 w12,
      (if (if u32 f1 ≠ s.freq1 then 1 else 0) ≠ 0 ∨ u32 f2 ≠ s1.freq2 then
          ({ s1 with freq1 := u32 f1, freq2 := u32 f2 }).update_freq12
            (if u32 f1 ≠ s.freq1 then 1 else 0) nr1
        else some (s1, nr1, [])) = some (s2, nr2, w12) ∧
      (u32 f1 = s.freq1 → u32 f2 = s.freq2 → s2 = s1 ∧ w12 = [] ∧ nr2 = nr1) ∧
      s2.freq0_div = s1.freq0_div ∧ s2.freq0_rdiv = s1.freq0_rdiv ∧
      touches 0 w12 = false ∧
      ((nr2 = nr1 ∧ intProgrammed w12 = false ∧ resets w12 = false) ∨
        (nr2 = 1 ∧ intProgrammed w12 = true)) ∧
      (u32 f1 = s.freq1 → (s.freq1 = 0 → s.freq1_div = 0) →
        touches 1 w12 = false ∧ s2.freq1_div = s1.freq1_div ∧
        s2.freq1_rdiv = s1.freq1_rdiv) := by
    by_cases h12 : (if u32 f1 ≠ s.freq1 then 1 else 0) ≠ 0 ∨ u32 f2 ≠ s1.freq2
    · rw [if_pos h12]
      obtain ⟨s2, nr2, w12, h, _, _, d1, d2, d3, d4, d5⟩ :=
        update_freq12_summary { s1 with freq1 := u32 f1, freq2 := u32 f2 }
          (if u32 f1 ≠ s.freq1 then 1 else 0) nr1 (by rw [← b1] at hx; exact hx)
          (by rw [← b8] at hP; exact hP)
      refine ⟨s2, nr2, w12, h, ?_, d1, d2, d3, d4, ?_⟩
      · intro e1 e2
        exfalso
        rcases h12 with h | h
        · rw [if_neg (fun hne => hne e1)] at h
          exact h rfl
        · rw [b4] at h
          exact h e2
      · intro e1 hinv
        have efc : u8 (if u32 f1 ≠ s.freq1 then 1 else 0) = 0 := by
          rw [if_neg (fun hne => hne e1)]
          rfl
        have hinv2 : ({ s1 with freq1 := u32 f1, freq2 := u32 f2 } : Si5351).freq1 = 0 →
            ({ s1 with freq1 := u32 f1, freq2 := u32 f2 } : Si5351).freq1_div = 0 := by
          intro hz
          show s1.freq1_div = 0
          rw [c1]
          apply hinv
          rw [← e1]
          exact hz
        exact d5 efc hinv2
    · rw [if_neg h12]
      exact ⟨s1, nr1, [], rfl, fun _ _ => ⟨rfl, rfl, rfl⟩, rfl, rfl, rfl,
        Or.inl ⟨rfl, rfl, rfl⟩, fun _ _ => ⟨rfl, rfl, rfl⟩⟩
  obtain ⟨s2, nr2, w12, h12, g1, g2, g3, g4, g5, g6⟩ := step12
  rw [h12]
  exact ⟨s1, s2, nr1, nr2, w0, w12, rfl, e0, c1, c2, c3, c4, t1, t2, t3, t4, g1, g2, g3, g4,
    g5, g6⟩

/-- The reset strobe is no write for any channel and programs no multisynth. -/
theorem reset_strobe_facts (nr : Nat) :
    touches 0 (if nr ≠ 0 then si5351_write_reg SI_PLL_RESET 0xA0 else []) = false ∧
    touches 1 (if nr ≠ 0 then si5351_write_reg SI_PLL_RESET 0xA0 else []) = false ∧
    touches 2 (if nr ≠ 0 then si5351_write_reg SI_PLL_RESET 0xA0 else []) = false ∧
    intProgrammed (if nr ≠ 0 then si5351_write_reg SI_PLL_RESET 0xA0 else []) = false := by
  split <;> exact ⟨rfl, rfl, rfl, rfl⟩

/-- A trace that never writes register 177 does not end with a write to it. -/
theorem getLast_ne_reset (w : List Txn) (h : resets w = false) (v : Nat) :
    (regWrites w).getLast? ≠ some (177, v) := by
  intro hl
  have hm : (177, v) ∈ regWrites w := List.mem_of_getLast?_eq_some hl
  have : resets w = true := by
    unfold resets
    rw [List.any_eq_true]
    exact ⟨(177, v), hm, by simp⟩
  rw [h] at this
  exact absurd this (by decide)

/-- A trace that ends with the reset strobe ends with the write of 0xA0 to
register 177. -/
theorem getLast_reset (w : List Txn) :
    (regWrites (w ++ si5351_write_reg SI_PLL_RESET 0xA0)).getLast? = some (177, 0xA0) := by
  rw [regWrites_append]
  have e : regWrites (si5351_write_reg SI_PLL_RESET 0xA0) = [(177, 0xA0)] := rfl
  rw [e]
  simp

/-- The eight data bytes of `si5351_setup_msynth`, whatever the base register. -/
theorem setup_msynth_values (synth a b c rDiv : Nat) (ha : 4 ≤ a) (ha2 : a < 256)
    (hc : 0 < c) (hc2 : c < 2 ^ 32) (hb : 128 * b < 2 ^ 32)
    (hP1 : 128 * a + 128 * b / c < 2 ^ 32) (hr : rDiv < 256) :
    ∃ w, si5351_setup_msynth synth a b c rDiv = some w ∧ w.length = 8 ∧
      w.map (fun t => t.getD 1 0) =
        param_bytes (128 * a + 128 * b / c - 512) (128 * b % c) c rDiv := by
  have hb2 : b < 2 ^ 32 := by omega
  have hw := codec_words a b c hb ha hP1
  have e1 : u8 a = a := u8_of_lt ha2
  have e2 : u32 b = b := by unfold u32; omega
  have e3 : u32 c = c := by unfold u32; omega
  have e4 : u32 (128 * b) = 128 * b := by unfold u32; omega
  have e5 : c ≠ 0 := by omega
  have e6 : u8 rDiv = rDiv := u8_of_lt hr
  simp only [si5351_setup_msynth, e1, e2, e3, e6, udiv, e5, if_false]
  rw [e4] at hw ⊢
  rw [hw.1, hw.2]
  refine ⟨_, rfl, rfl, ?_⟩
  generalize 128 * a + 128 * b / c - 512 = P1
  generalize 128 * b % c = P2
  have b0 : u8 (byte_of c 1) = c / 256 % 256 := by
    rw [byte_of_one]
    exact u8_of_lt (Nat.mod_lt _ (by decide))
  have b3 : u8 (byte_of P1 1) = P1 / 256 % 256 := by
    rw [byte_of_one]
    exact u8_of_lt (Nat.mod_lt _ (by decide))
  have b6 : u8 (byte_of P2 1) = P2 / 256 % 256 := by
    rw [byte_of_one]
    exact u8_of_lt (Nat.mod_lt _ (by decide))
  have b2 : u8 ((byte_of P1 2 &&& 0x3) ||| rDiv) = (P1 / 65536 % 4) ||| rDiv := by
    rw [byte2_and_three]
    exact u8_of_lt (or_lt_256 _ _ (Nat.mod_lt _ (by decide)) hr)
  simp only [si5351_write_reg, List.cons_append, List.nil_append, List.map_cons, List.map_nil,
    List.getD_cons_succ, List.getD_cons_zero, param_bytes, b0, b2, b3, b6, nibble_byte, u8_u8]
  rfl

/-- A shift count of at most `k` is what the search gives exactly when `k`
halvings bring the quotient to 900 or less. -/
theorem search_rdiv_le (f x k : Nat) (hx : 0 < x) (h6 : 6 ≤ 900000000 / f) :
    ∃ p, pll_calc (900000000 / f) f x = some p ∧
      (p.rdiv ≤ k ↔ 900000000 / f / 2 ^ k ≤ 900) := by
  obtain ⟨p, hp, _, h2, h3, _⟩ := search_facts f x hx h6
  refine ⟨p, hp, ?_, ?_⟩
  · intro hr
    exact Nat.le_trans
      (Nat.div_le_div_left (Nat.pow_le_pow_right (by decide) hr) (Nat.pow_pos (by decide))) h2
  · intro hk
    by_contra hcon
    have := h3 k (by omega)
    omega

/-! ## Channel 2 on the shared PLL: the quotient below 6 -/

/-- A trace with no write for channel 2 writes neither control register 18 nor
the multisynth-2 registers 58..65. -/
theorem touches_two_false (w : List Txn) (h : touches 2 w = false) :
    (regWrites w).filter (fun p => p.1 == 18) = [] ∧ writesTo SI_SYNTH_MS_2 w = [] := by
  unfold touches at h
  rw [List.any_eq_false] at h
  constructor
  · rw [List.filter_eq_nil_iff]
    intro p hp hq
    have h3 := h p hp
    simp at h3 hq
    omega
  · unfold writesTo
    rw [List.filter_eq_nil_iff]
    intro p hp hq
    have h3 := h p hp
    simp [SI_SYNTH_MS_2] at h3 hq
    omega

/-- The shared-PLL block for channel 2 when the quotient is below 6: the block
is the call `disable_out(2)`. -/
theorem update_freq12_clk2_low (t : Si5351) (hf2 : t.freq2 ≠ 0)
    (hlt : t.freq_pll_b / t.freq2 < 6) :
    t.update_freq12_clk2 = some (t.disable_out 2) := by
  simp only [Si5351.update_freq12_clk2, udiv, hf2, if_false, hlt, if_true]

/-- A call of `set_freq` that keeps a nonzero `freq1` and changes `freq2` to a
nonzero value: the part for channel 0 keeps the retained PLL-B frequency and
the cached divider of channel 2 and writes nothing for channel 2 or PLL B;
after it only the shared-PLL block for channel 2 runs. -/
theorem set_freq_shared_state (s : Si5351) (f0 f2 : Nat) (hx : 0 < s.xtal_freq)
    (h1 : s.freq1 ≠ 0) (h1b : s.freq1 < 2 ^ 32) (h2 : f2 ≠ s.freq2) (h2a : f2 ≠ 0)
    (h2b : f2 < 2 ^ 32) :
    ∃ (s1 : Si5351) (nr : Nat) (w0 : List Txn), s1.freq_pll_b = s.freq_pll_b ∧
      s1.freq2_div = s.freq2_div ∧
      writesTo SI_SYNTH_PLL_B w0 = [] ∧ touches 2 w0 = false ∧
      s.set_freq f0 s.freq1 f2 =
        match ({ s1 with freq1 := s.freq1, freq2 := f2 } : Si5351).update_freq12_clk2 with
        | none => none
        | some (s4, w4) =>
          some (s4, w0 ++ w4 ++ (if nr ≠ 0 then si5351_write_reg SI_PLL_RESET 0xA0 else [])) := by
  have e1 : u32 s.freq1 = s.freq1 := Nat.mod_eq_of_lt h1b
  have e2 : u32 f2 = f2 := Nat.mod_eq_of_lt h2b
  have step0 : ∃ s1 nr w0,
      (if u32 f0 ≠ s.freq0 then ({ s with freq0 := u32 f0 }).update_freq0 0
        else some (s, 0, [])) = some (s1, nr, w0) ∧
      s1.freq1 = s.freq1 ∧ s1.freq2 = s.freq2 ∧ s1.freq_pll_b = s.freq_pll_b ∧
      s1.freq2_div = s.freq2_div ∧
      writesTo SI_SYNTH_PLL_B w0 = [] ∧ touches 2 w0 = false := by
    by_cases h0 : u32 f0 ≠ s.freq0
    · rw [if_pos h0]
      obtain ⟨s1, nr, w0, h, ⟨_, _, a3, a4, _⟩, hpb, _, hd2, _, _, hshape⟩ :=
        update_freq0_total { s with freq0 := u32 f0 } 0 hx
      obtain ⟨s1', nr', w0', h', _, _, _, _, _, _, _, ht2, _⟩ :=
        update_freq0_summary { s with freq0 := u32 f0 } 0 hx
      have e : (s1', nr', w0') = (s1, nr, w0) := Option.some.inj (h'.symm.trans h)
      have ew : w0' = w0 := congrArg (fun r => r.2.2) e
      rw [ew] at ht2
      exact ⟨s1, nr, w0, h, a3, a4, hpb, hd2, (update_freq0_shape_writes w0 hshape).1, ht2⟩
    · rw [if_neg h0]
      exact ⟨s, 0, [], rfl, rfl, rfl, rfl, rfl, rfl, rfl⟩
  obtain ⟨s1, nr, w0, h0, b1, b2, b3, b4, b5, b6⟩ := step0
  refine ⟨s1, nr, w0, b3, b4, b5, b6, ?_⟩
  have hc : (if s.freq1 ≠ s.freq1 then 1 else 0) ≠ 0 ∨ f2 ≠ s1.freq2 := by
    right
    rw [b2]
    exact h2
  have hoff : ({ s1 with freq1 := s.freq1, freq2 := f2 } : Si5351).update_freq12_off =
      ({ s1 with freq1 := s.freq1, freq2 := f2 }, []) := by
    simp [Si5351.update_freq12_off, h1, h2a]
  have h12 : ({ s1 with freq1 := s.freq1, freq2 := f2 } : Si5351).update_freq12 0 nr =
      match ({ s1 with freq1 := s.freq1, freq2 := f2 } : Si5351).update_freq12_clk2 with
      | none => none
      | some (s4, w4) => some (s4, nr, w4) := by
    have e0 : ¬ (u8 0 ≠ 0) := by decide
    simp only [Si5351.update_freq12, hoff, e0, if_false]
    simp only [ne_eq, h1, not_false_eq_true, if_true, h2a, List.nil_append]
  simp only [Si5351.set_freq, e1, e2, h0]
  rw [if_pos hc]
  have efc : (if s.freq1 ≠ s.freq1 then 1 else 0) = 0 := by simp
  rw [efc, h12]
  cases ({ s1 with freq1 := s.freq1, freq2 := f2 } : Si5351).update_freq12_clk2 with
  | none => rfl
  | some r => rfl

/-- The reset strobe writes neither control register 18 nor a register of
PLL B or multisynth 2. -/
theorem reset_strobe_writes (nr : Nat) :
    (regWrites (if nr ≠ 0 then si5351_write_reg SI_PLL_RESET 0xA0 else [])).filter
      (fun p => p.1 == 18) = [] ∧
    writesTo SI_SYNTH_PLL_B (if nr ≠ 0 then si5351_write_reg SI_PLL_RESET 0xA0 else []) = [] ∧
    writesTo SI_SYNTH_MS_2 (if nr ≠ 0 then si5351_write_reg SI_PLL_RESET 0xA0 else []) = [] := by
  split <;> exact ⟨rfl, rfl, rfl⟩

/-- The writes of `disable_out 2`: nothing to the registers of multisynth 2,
and to control register 18 the value 0x80 when the cached divider is nonzero. -/
theorem disable_out_two_writes (t : Si5351) :
    writesTo SI_SYNTH_MS_2 (t.disable_out 2).2 = [] ∧
    (regWrites (t.disable_out 2).2).filter (fun p => p.1 == 18) =
      (if t.freq2_div ≠ 0 then [(18, 0x80)] else []) ∧
    (t.disable_out 2).1.freq2_div = 0 := by
  obtain ⟨hw, hd⟩ := disable_out_writes t 2 (by decide)
  rw [hw]
  refine ⟨?_, ?_, hd⟩
  · split <;> rfl
  · show (regWrites (if t.freq2_div ≠ 0 then [[16 + 2, 0x80]] else [])).filter
      (fun p => p.1 == 18) = _
    split <;> rfl

/-! ## Programming in integer mode and the cached dividers -/

theorem programmedInt_append (k : Nat) (w1 w2 : List Txn) :
    programmedInt k (w1 ++ w2) = (programmedInt k w1 || programmedInt k w2) := by
  simp [programmedInt]

/-- Some multisynth was programmed in integer mode exactly when one of the
three was. -/
theorem intProgrammed_split (w : List Txn) :
    intProgrammed w = (programmedInt 0 w || programmedInt 1 w || programmedInt 2 w) := by
  induction w with
  | nil => rfl
  | cons t w ih =>
    have e : intProgrammed (t :: w) = (isIntTxn t || intProgrammed w) := rfl
    have e0 : programmedInt 0 (t :: w) =
        ((t.length == 9 && t.headD 0 == 42) || programmedInt 0 w) := rfl
    have e1 : programmedInt 1 (t :: w) =
        ((t.length == 9 && t.headD 0 == 50) || programmedInt 1 w) := rfl
    have e2 : programmedInt 2 (t :: w) =
        ((t.length == 9 && t.headD 0 == 58) || programmedInt 2 w) := rfl
    rw [e, e0, e1, e2, ih]
    unfold isIntTxn
    cases (t.length == 9) <;> cases (t.headD 0 == 42) <;> cases (t.headD 0 == 50) <;>
      cases (t.headD 0 == 58) <;> cases programmedInt 0 w <;> cases programmedInt 1 w <;>
      cases programmedInt 2 w <;> rfl

theorem intProgrammed_false (w : List Txn) (h : intProgrammed w = false) :
    programmedInt 0 w = false ∧ programmedInt 1 w = false ∧ programmedInt 2 w = false := by
  rw [intProgrammed_split] at h
  simpa [and_assoc] using h

/-- Outside the range of the search there is no cache miss. -/
theorem cacheMiss_low (f x d r : Nat) (h : 900000000 / f < 6) : cacheMiss f x d r = false := by
  have h6 : ¬ 6 ≤ 900000000 / f := by omega
  simp [cacheMiss, h6]

/-- Inside the range, a cache miss is the test on the computed pair. -/
theorem cacheMiss_eq (f x d r : Nat) (p : PllCalc) (h6 : 6 ≤ 900000000 / f)
    (hp : pll_calc (900000000 / f) f x = some p) :
    cacheMiss f x d r = decide (p.divider ≠ d ∨ p.rdiv ≠ r) := by
  simp [cacheMiss, h6, hp]

/-- `update_freq0` programs multisynth 0 in integer mode exactly on a cache
miss, and never multisynth 1 or 2. -/
theorem update_freq0_cause (s : Si5351) (nr : Nat) (hx : 0 < s.xtal_freq) :
    ∃ s' nr' w, s.update_freq0 nr = some (s', nr', w) ∧
      programmedInt 0 w = cacheMiss s.freq0 s.xtal_freq s.freq0_div s.freq0_rdiv ∧
      programmedInt 1 w = false ∧ programmedInt 2 w = false := by
  have hdis : 900000000 / s.freq0 < 6 → ∃ s' nr' w,
      some ((s.disable_out 0).1, nr, (s.disable_out 0).2) = some (s', nr', w) ∧
      programmedInt 0 w = cacheMiss s.freq0 s.xtal_freq s.freq0_div s.freq0_rdiv ∧
      programmedInt 1 w = false ∧ programmedInt 2 w = false := by
    intro hlow
    obtain ⟨q1, _⟩ := disable_out_quiet s 0 (by decide)
    obtain ⟨i0, i1, i2⟩ := intProgrammed_false _ q1
    exact ⟨_, _, _, rfl, by rw [i0, cacheMiss_low _ _ _ _ hlow], i1, i2⟩
  by_cases h6 : 900000000 / s.freq0 < 6
  · by_cases hf : s.freq0 = 0
    · have e : s.update_freq0 nr = some ((s.disable_out 0).1, nr, (s.disable_out 0).2) := by
        simp only [Si5351.update_freq0, hf, if_true]
      rw [e]
      exact hdis h6
    · simp only [Si5351.update_freq0, hf, if_false, udiv, h6, if_true]
      exact hdis h6
  · obtain ⟨p, hp, _⟩ := pll_calc_eq (900000000 / s.freq0) s.freq0 s.xtal_freq hx
    obtain ⟨b0, b1, b2, b3, b4, b5, b6, b7, hw⟩ := setup_pll_frac SI_SYNTH_PLL_A p.mult p.num
    obtain ⟨c0, c1, c2, c3, c4, c5, c6, c7, hm⟩ :=
      setup_msynth_int_shape SI_SYNTH_MS_0 p.divider (R_DIV p.rdiv)
    rw [update_freq0_eq s nr p _ (by omega) hp hw, cacheMiss_eq _ _ _ _ p (by omega) hp]
    by_cases hc : p.divider ≠ s.freq0_div ∨ p.rdiv ≠ s.freq0_rdiv
    · rw [if_pos hc, decide_eq_true hc]
      refine ⟨_, _, _, rfl, ?_, ?_, ?_⟩ <;>
      · rw [hm]
        simp [programmedInt, si5351_write_reg, SI_SYNTH_PLL_A, SI_SYNTH_MS_0, SI_CLK0_CONTROL,
          u8]
    · rw [if_neg hc, decide_eq_false hc]
      refine ⟨_, _, _, rfl, ?_, ?_, ?_⟩ <;>
      simp [programmedInt, SI_SYNTH_PLL_A, u8]

/-- The channel-1 block programs multisynth 1 in integer mode exactly on a
cache miss, and never multisynth 0 or 2. -/
theorem update_freq12_clk1_cause (s : Si5351) (nr : Nat) (hx : 0 < s.xtal_freq)
    (hP : s.freq_pll_b < 2 ^ 32) (hf : s.freq1 ≠ 0) :
    ∃ b s' nr' w, s.update_freq12_clk1 nr = some (b, s', nr', w) ∧
      s'.freq_pll_b < 2 ^ 32 ∧ s'.freq2 = s.freq2 ∧
      programmedInt 0 w = false ∧
      programmedInt 1 w = cacheMiss s.freq1 s.xtal_freq s.freq1_div s.freq1_rdiv ∧
      programmedInt 2 w = false := by
  by_cases h6 : 900000000 / s.freq1 < 6
  · simp only [Si5351.update_freq12_clk1, udiv, hf, if_false, h6, if_true]
    obtain ⟨a1, a2, _⟩ := disable_out_frame s 1
    obtain ⟨q1, _⟩ := disable_out_quiet s 1 (by decide)
    obtain ⟨i0, i1, i2⟩ := intProgrammed_false _ q1
    exact ⟨_, _, _, _, rfl, by rw [a2]; exact hP, a1.2.2.2.1, i0,
      by rw [i1, cacheMiss_low _ _ _ _ h6], i2⟩
  · obtain ⟨p, hp, _, _, hpll, _⟩ := pll_calc_eq (900000000 / s.freq1) s.freq1 s.xtal_freq hx
    obtain ⟨b0, b1, b2, b3, b4, b5, b6, b7, hw⟩ := setup_pll_frac SI_SYNTH_PLL_B p.mult p.num
    obtain ⟨c0, c1, c2, c3, c4, c5, c6, c7, hm⟩ :=
      setup_msynth_int_shape SI_SYNTH_MS_1 p.divider (R_DIV p.rdiv)
    have hlt : p.pll_freq < 2 ^ 32 := by
      rw [hpll]
      exact Nat.mod_lt _ (by decide)
    rw [update_freq12_clk1_eq s nr p _ (by omega) hp hw, cacheMiss_eq _ _ _ _ p (by omega) hp]
    by_cases hc : p.divider ≠ s.freq1_div ∨ p.rdiv ≠ s.freq1_rdiv
    · rw [if_pos hc, decide_eq_true hc]
      refine ⟨_, _, _, _, rfl, hlt, rfl, ?_, ?_, ?_⟩ <;>
      · rw [hm]
        simp [programmedInt, si5351_write_reg, SI_SYNTH_PLL_B, SI_SYNTH_MS_1, SI_CLK1_CONTROL,
          SI_CLK2_CONTROL, u8]
    · rw [if_neg hc, decide_eq_false hc]
      refine ⟨_, _, _, _, rfl, hlt, rfl, ?_, ?_, ?_⟩ <;>
      simp [programmedInt, SI_SYNTH_PLL_B, u8]

/-- The shared-PLL block for channel 2 programs no multisynth in integer
mode. -/
theorem update_freq12_clk2_cause (s : Si5351) (hP : s.freq_pll_b < 2 ^ 32)
    (hf : s.freq2 ≠ 0) :
    ∃ s' w, s.update_freq12_clk2 = some (s', w) ∧
      programmedInt 0 w = false ∧ programmedInt 1 w = false ∧ programmedInt 2 w = false := by
  obtain ⟨s', w, h, _, _, _, _, _, _, _, _, _, hint⟩ := update_freq12_clk2_summary s hP hf
  exact ⟨s', w, h, intProgrammed_false w hint⟩

/-- The direct path for channel 2 programs multisynth 2 in integer mode exactly
on a cache miss, and never multisynth 0 or 1. -/
theorem update_freq12_direct_cause (s : Si5351) (nr : Nat) (hx : 0 < s.xtal_freq)
    (hf : s.freq2 ≠ 0) :
    ∃ s' nr' w, s.update_freq12_direct nr = some (s', nr', w) ∧
      programmedInt 0 w = false ∧ programmedInt 1 w = false ∧
      programmedInt 2 w = cacheMiss s.freq2 s.xtal_freq s.freq2_div s.freq2_rdiv := by
  by_cases h6 : 900000000 / s.freq2 < 6
  · simp only [Si5351.update_freq12_direct, udiv, hf, if_false, h6, if_true]
    obtain ⟨q1, _⟩ := disable_out_quiet s 2 (by decide)
    obtain ⟨i0, i1, i2⟩ := intProgrammed_false _ q1
    exact ⟨_, _, _, rfl, i0, i1, by rw [i2, cacheMiss_low _ _ _ _ h6]⟩
  · obtain ⟨p, hp, _⟩ := pll_calc_eq (900000000 / s.freq2) s.freq2 s.xtal_freq hx
    obtain ⟨b0, b1, b2, b3, b4, b5, b6, b7, hw⟩ := setup_pll_frac SI_SYNTH_PLL_B p.mult p.num
    obtain ⟨c0, c1, c2, c3, c4, c5, c6, c7, hm⟩ :=
      setup_msynth_int_shape SI_SYNTH_MS_2 p.divider (R_DIV p.rdiv)
    rw [update_freq12_direct_eq s nr p _ (by omega) hp hw,
      cacheMiss_eq _ _ _ _ p (by omega) hp]
    by_cases hc : p.divider ≠ s.freq2_div ∨ p.rdiv ≠ s.freq2_rdiv
    · rw [if_pos hc, decide_eq_true hc]
      refine ⟨_, _, _, rfl, ?_, ?_, ?_⟩ <;>
      · rw [hm]
        simp [programmedInt, si5351_write_reg, SI_SYNTH_PLL_B, SI_SYNTH_MS_2, SI_CLK2_CONTROL,
          SI_PLL_RESET, u8]
    · rw [if_neg hc, decide_eq_false hc]
      refine ⟨_, _, _, rfl, ?_, ?_, ?_⟩ <;>
      simp [programmedInt, SI_SYNTH_PLL_B, u8]

/-- The two opening tests of `update_freq12` program nothing in integer mode;
they keep the cached divider of a channel whose requested frequency is nonzero
and the cached shift of channel 2. -/
theorem update_freq12_off_cause (s : Si5351) :
    programmedInt 0 s.update_freq12_off.2 = false ∧
    programmedInt 1 s.update_freq12_off.2 = false ∧
    programmedInt 2 s.update_freq12_off.2 = false ∧
    (s.freq1 ≠ 0 → s.update_freq12_off.1.freq1_div = s.freq1_div) ∧
    (s.freq2 ≠ 0 → s.update_freq12_off.1.freq2_div = s.freq2_div) ∧
    s.update_freq12_off.1.freq2_rdiv = s.freq2_rdiv := by
  obtain ⟨_, _, _, _, _, _, _, hint, hinv⟩ := update_freq12_off_summary s
  obtain ⟨i0, i1, i2⟩ := intProgrammed_false _ hint
  refine ⟨i0, i1, i2, fun h1 => (hinv (fun h => absurd h h1)).2, ?_, ?_⟩
  · intro h2
    unfold Si5351.update_freq12_off
    simp only
    by_cases h1 : s.freq1 = 0
    · obtain ⟨a1, _, _, _, _, _, _, a8⟩ := disable_out_frame s 1
      have hf2 : ¬ (s.disable_out 1).1.freq2 = 0 := by
        rw [a1.2.2.2.1]
        exact h2
      rw [if_pos h1, if_neg hf2]
      exact a8 (by decide)
    · rw [if_neg h1, if_neg h2]
  · unfold Si5351.update_freq12_off
    simp only
    by_cases h1 : s.freq1 = 0
    · obtain ⟨_, _, _, _, a5, _⟩ := disable_out_frame s 1
      rw [if_pos h1]
      by_cases h2 : (s.disable_out 1).1.freq2 = 0
      · obtain ⟨_, _, _, _, b5, _⟩ := disable_out_frame (s.disable_out 1).1 2
        rw [if_pos h2]
        exact b5.trans a5
      · rw [if_neg h2]
        exact a5
    · rw [if_neg h1]
      by_cases h2 : s.freq2 = 0
      · obtain ⟨_, _, _, _, b5, _⟩ := disable_out_frame s 2
        rw [if_pos h2]
        exact b5
      · rw [if_neg h2]

/-- `update_freq12` never programs multisynth 0; it programs multisynth 1 in
integer mode exactly when `freq1_changed` is set and the search for `freq1`
misses the cache; it programs multisynth 2 in integer mode exactly when
`freq1` is 0 and the search for `freq2` misses the cache. -/
theorem update_freq12_cause (s : Si5351) (fc nr : Nat) (hx : 0 < s.xtal_freq)
    (hP : s.freq_pll_b < 2 ^ 32) :
    ∃ s' nr' w, s.update_freq12 fc nr = some (s', nr', w) ∧
      programmedInt 0 w = false ∧
      programmedInt 1 w =
        (decide (u8 fc ≠ 0) && cacheMiss s.freq1 s.xtal_freq s.freq1_div s.freq1_rdiv) ∧
      programmedInt 2 w =
        (decide (s.freq1 = 0) && cacheMiss s.freq2 s.xtal_freq s.freq2_div s.freq2_rdiv) := by
  obtain ⟨hsr, hpb, _, _, hr1, _, _, _, _⟩ := update_freq12_off_summary s
  obtain ⟨o0, o1, o2, hk1, hk2, hr2⟩ := update_freq12_off_cause s
  unfold Si5351.update_freq12
  simp only
  generalize s.update_freq12_off = d2 at *
  obtain ⟨ex, _, ef1, ef2, _⟩ := hsr
  have hx2 : 0 < d2.1.xtal_freq := by
    rw [ex]
    exact hx
  have hP2 : d2.1.freq_pll_b < 2 ^ 32 := by
    rw [hpb]
    exact hP
  by_cases h1 : d2.1.freq1 ≠ 0
  · have hs1 : s.freq1 ≠ 0 := by
      rw [← ef1]
      exact h1
    have hd1 : decide (s.freq1 = 0) = false := decide_eq_false hs1
    rw [if_pos h1, hd1, Bool.false_and]
    by_cases hfc : u8 fc ≠ 0
    · rw [if_pos hfc, decide_eq_true hfc, Bool.true_and]
      obtain ⟨b, s3, nr3, w3, h3, hP3, e32, c0, c1, c2⟩ :=
        update_freq12_clk1_cause d2.1 nr hx2 hP2 h1
      rw [ef1, ex, hk1 hs1, hr1] at c1
      rw [h3]
      cases b with
      | true =>
        refine ⟨_, _, _, rfl, ?_, ?_, ?_⟩
        · rw [programmedInt_append, o0, c0]
          rfl
        · rw [programmedInt_append, o1, c1, Bool.false_or]
        · rw [programmedInt_append, o2, c2]
          rfl
      | false =>
        simp only
        by_cases h2 : s3.freq2 ≠ 0
        · rw [if_pos h2]
          obtain ⟨s4, w4, h4, k0, k1, k2⟩ := update_freq12_clk2_cause s3 hP3 h2
          rw [h4]
          refine ⟨_, _, _, rfl, ?_, ?_, ?_⟩
          · rw [programmedInt_append, programmedInt_append, o0, c0, k0]
            rfl
          · rw [programmedInt_append, programmedInt_append, o1, c1, k1, Bool.false_or,
              Bool.or_false]
          · rw [programmedInt_append, programmedInt_append, o2, c2, k2]
            rfl
        · rw [if_neg h2]
          refine ⟨_, _, _, rfl, ?_, ?_, ?_⟩
          · rw [programmedInt_append, o0, c0]
            rfl
          · rw [programmedInt_append, o1, c1, Bool.false_or]
          · rw [programmedInt_append, o2, c2]
            rfl
    · rw [if_neg hfc, decide_eq_false hfc, Bool.false_and]
      simp only
      by_cases h2 : d2.1.freq2 ≠ 0
      · rw [if_pos h2]
        obtain ⟨s4, w4, h4, k0, k1, k2⟩ := update_freq12_clk2_cause d2.1 hP2 h2
        rw [h4]
        refine ⟨_, _, _, rfl, ?_, ?_, ?_⟩
        · rw [List.append_nil, programmedInt_append, o0, k0]
          rfl
        · rw [List.append_nil, programmedInt_append, o1, k1]
          rfl
        · rw [List.append_nil, programmedInt_append, o2, k2]
          rfl
      · rw [if_neg h2]
        refine ⟨_, _, _, rfl, ?_, ?_, ?_⟩
        · rw [List.append_nil]
          exact o0
        · rw [List.append_nil]
          exact o1
        · rw [List.append_nil]
          exact o2
  · have hs1 : s.freq1 = 0 := by
      rw [← ef1]
      simpa using h1
    have hm1 : cacheMiss s.freq1 s.xtal_freq s.freq1_div s.freq1_rdiv = false :=
      cacheMiss_low _ _ _ _ (by rw [hs1]; simp)
    rw [if_neg h1, hm1, Bool.and_false, decide_eq_true hs1, Bool.true_and]
    by_cases h2 : d2.1.freq2 ≠ 0
    · have hs2 : s.freq2 ≠ 0 := by
        rw [← ef2]
        exact h2
      rw [if_pos h2]
      obtain ⟨s3, nr3, w3, h3, c0, c1, c2⟩ := update_freq12_direct_cause d2.1 nr hx2 h2
      rw [ef2, ex, hk2 hs2, hr2] at c2
      rw [h3]
      refine ⟨_, _, _, rfl, ?_, ?_, ?_⟩
      · rw [programmedInt_append, o0, c0]
        rfl
      · rw [programmedInt_append, o1, c1]
        rfl
      · rw [programmedInt_append, o2, c2, Bool.false_or]
    · have hs2 : s.freq2 = 0 := by
        rw [← ef2]
        simpa using h2
      have hm2 : cacheMiss s.freq2 s.xtal_freq s.freq2_div s.freq2_rdiv = false :=
        cacheMiss_low _ _ _ _ (by rw [hs2]; simp)
      rw [if_neg h2, hm2]
      exact ⟨_, _, _, rfl, o0, o1, o2⟩

/-- The reset strobe programs no multisynth in integer mode. -/
theorem reset_strobe_program (nr k : Nat) :
    programmedInt k (if nr ≠ 0 then si5351_write_reg SI_PLL_RESET 0xA0 else []) = false := by
  split
  · simp [programmedInt, si5351_write_reg]
  · rfl

/-- Which multisynth `set_freq` programs in integer mode: multisynth 0 when f0
changes and the search for it misses the cache of channel 0; multisynth 1 when
f1 changes and the search misses the cache of channel 1; multisynth 2 when f1
or f2 changes, f1 is 0 and the search for f2 misses the cache of channel 2.
The caches are the ones the call starts with. -/
theorem set_freq_cause (s : Si5351) (f0 f1 f2 : Nat) (hx : 0 < s.xtal_freq)
    (hP : s.freq_pll_b < 2 ^ 32) :
    ∃ s' w, s.set_freq f0 f1 f2 = some (s', w) ∧
      programmedInt 0 w = (decide (u32 f0 ≠ s.freq0) &&
        cacheMiss (u32 f0) s.xtal_freq s.freq0_div s.freq0_rdiv) ∧
      programmedInt 1 w = (decide (u32 f1 ≠ s.freq1) &&
        cacheMiss (u32 f1) s.xtal_freq s.freq1_div s.freq1_rdiv) ∧
      programmedInt 2 w = (decide ((u32 f1 ≠ s.freq1 ∨ u32 f2 ≠ s.freq2) ∧ u32 f1 = 0) &&
        cacheMiss (u32 f2) s.xtal_freq s.freq2_div s.freq2_rdiv) := by
  unfold Si5351.set_freq
  simp only
  have step0 : ∃ s1 nr1 w0,
      (if u32 f0 ≠ s.freq0 then ({ s with freq0 := u32 f0 }).update_freq0 0
        else some (s, 0, [])) = some (s1, nr1, w0) ∧
      s1.xtal_freq = s.xtal_freq ∧ s1.freq2 = s.freq2 ∧ s1.freq_pll_b = s.freq_pll_b ∧
      s1.freq1_div = s.freq1_div ∧ s1.freq2_div = s.freq2_div ∧
      s1.freq1_rdiv = s.freq1_rdiv ∧ s1.freq2_rdiv = s.freq2_rdiv ∧
      programmedInt 0 w0 = (decide (u32 f0 ≠ s.freq0) &&
        cacheMiss (u32 f0) s.xtal_freq s.freq0_div s.freq0_rdiv) ∧
      programmedInt 1 w0 = false ∧ programmedInt 2 w0 = false := by
    by_cases h0 : u32 f0 ≠ s.freq0
    · rw [if_pos h0, decide_eq_true h0, Bool.true_and]
      obtain ⟨s1, nr1, w0, h, ⟨a1, _, _, a4, _⟩, hpb, c1, c2, c3, c4, _⟩ :=
        update_freq0_summary { s with freq0 := u32 f0 } 0 hx
      obtain ⟨s1', nr1', w0', h', k0, k1, k2⟩ :=
        update_freq0_cause { s with freq0 := u32 f0 } 0 hx
      have e : (s1', nr1', w0') = (s1, nr1, w0) := Option.some.inj (h'.symm.trans h)
      have ew : w0' = w0 := congrArg (fun r => r.2.2) e
      rw [ew] at k0 k1 k2
      exact ⟨s1, nr1, w0, h, a1, a4, hpb, c1, c2, c3, c4, k0, k1, k2⟩
    · rw [if_neg h0, decide_eq_false h0, Bool.false_and]
      exact ⟨s, 0, [], rfl, rfl, rfl, rfl, rfl, rfl, rfl, rfl, rfl, rfl, rfl⟩
  obtain ⟨s1, nr1, w0, h0, b1, b4, b8, c1, c2, c3, c4, k0, k1, k2⟩ := step0
  rw [h0]
  simp only
  have step12 : ∃ s2 nr2 w12,
      (if (if u32 f1 ≠ s.freq1 then 1 else 0) ≠ 0 ∨ u32 f2 ≠ s1.freq2 then
          ({ s1 with freq1 := u32 f1, freq2 := u32 f2 }).update_freq12
            (if u32 f1 ≠ s.freq1 then 1 else 0) nr1
        else some (s1, nr1, [])) = some (s2, nr2, w12) ∧
      programmedInt 0 w12 = false ∧
      programmedInt 1 w12 = (decide (u32 f1 ≠ s.freq1) &&
        cacheMiss (u32 f1) s.xtal_freq s.freq1_div s.freq1_rdiv) ∧
      programmedInt 2 w12 = (decide ((u32 f1 ≠ s.freq1 ∨ u32 f2 ≠ s.freq2) ∧ u32 f1 = 0) &&
        cacheMiss (u32 f2) s.xtal_freq s.freq2_div s.freq2_rdiv) := by
    by_cases h12 : (if u32 f1 ≠ s.freq1 then 1 else 0) ≠ 0 ∨ u32 f2 ≠ s1.freq2
    · rw [if_pos h12]
      obtain ⟨s2, nr2, w12, h, j0, j1, j2⟩ :=
        update_freq12_cause { s1 with freq1 := u32 f1, freq2 := u32 f2 }
          (if u32 f1 ≠ s.freq1 then 1 else 0) nr1 (by rw [← b1] at hx; exact hx)
          (by rw [← b8] at hP; exact hP)
      have j1' : programmedInt 1 w12 = (decide (u8 (if u32 f1 ≠ s.freq1 then 1 else 0) ≠ 0) &&
          cacheMiss (u32 f1) s1.xtal_freq s1.freq1_div s1.freq1_rdiv) := j1
      have j2' : programmedInt 2 w12 = (decide (u32 f1 = 0) &&
          cacheMiss (u32 f2) s1.xtal_freq s1.freq2_div s1.freq2_rdiv) := j2
      rw [b1, c1, c3] at j1'
      rw [b1, c2, c4] at j2'
      have hch : u32 f1 ≠ s.freq1 ∨ u32 f2 ≠ s.freq2 := by
        rcases h12 with h | h
        · left
          intro e
          rw [if_neg (fun hne => hne e)] at h
          exact h rfl
        · right
          rw [b4] at h
          exact h
      refine ⟨s2, nr2, w12, h, j0, ?_, ?_⟩
      · rw [j1']
        by_cases e : u32 f1 ≠ s.freq1
        · rw [if_pos e, decide_eq_true e]
          rfl
        · rw [if_neg e, decide_eq_false e]
          rfl
      · rw [j2']
        by_cases e : u32 f1 = 0
        · rw [decide_eq_true e, decide_eq_true (⟨hch, e⟩ : _ ∧ _)]
        · rw [decide_eq_false e, decide_eq_false (fun h : _ ∧ _ => e h.2)]
    · rw [if_neg h12]
      have hn1 : ¬ u32 f1 ≠ s.freq1 := by
        intro e
        apply h12
        left
        rw [if_pos e]
        decide
      have hn2 : ¬ u32 f2 ≠ s.freq2 := by
        intro e
        apply h12
        right
        rw [b4]
        exact e
      refine ⟨s1, nr1, [], rfl, rfl, ?_, ?_⟩
      · rw [decide_eq_false hn1]
        rfl
      · rw [decide_eq_false (fun h : (u32 f1 ≠ s.freq1 ∨ u32 f2 ≠ s.freq2) ∧ u32 f1 = 0 =>
          h.1.elim hn1 hn2)]
        rfl
  obtain ⟨s2, nr2, w12, h12, j0, j1, j2⟩ := step12
  rw [h12]
  refine ⟨s2, _, rfl, ?_, ?_, ?_⟩
  · rw [programmedInt_append, programmedInt_append, k0, j0, reset_strobe_program,
      Bool.or_false, Bool.or_false]
  · rw [programmedInt_append, programmedInt_append, k1, j1, reset_strobe_program,
      Bool.false_or, Bool.or_false]
  · rw [programmedInt_append, programmedInt_append, k2, j2, reset_strobe_program,
      Bool.false_or, Bool.or_false]

/-- A cache miss, spelled out: the quotient is at least 6 and the divider or
the shift count computed by `pll_calc` differs from the cached one. -/
theorem cacheMiss_iff (f x d r : Nat) :
    cacheMiss f x d r = true ↔
      6 ≤ 900000000 / f ∧
      ∃ p, pll_calc (900000000 / f) f x = some p ∧ (p.divider ≠ d ∨ p.rdiv ≠ r) := by
  unfold cacheMiss
  cases h : pll_calc (900000000 / f) f x with
  | none => simp
  | some p => simp


/-! ## Register codec: claims -/

/-- C1 (as amended): for every a in [15,90], every c in [1,0xFFFFF] and every
b with 0 <= b < c, `si5351_setup_pll` emits the register address followed by
8 parameter bytes from which `decode_abc` recovers (a, b, c) exactly; hence
two triples of this domain that produce the same bytes are equal. -/
theorem C1_pll_round_trip (pll a b c : Nat) (ha : 15 ≤ a) (ha2 : a ≤ 90) (hc : 1 ≤ c)
    (hc2 : c ≤ 0xFFFFF) (hb : b < c) :
    (∃ bytes, si5351_setup_pll pll a b c = some [u8 pll :: bytes] ∧ bytes.length = 8 ∧
      decode_abc bytes = (a, b, c)) ∧
    ∀ a' b' c', 15 ≤ a' → a' ≤ 90 → 1 ≤ c' → c' ≤ 0xFFFFF → b' < c' →
      si5351_setup_pll pll a' b' c' = si5351_setup_pll pll a b c → (a', b', c') = (a, b, c) := by
  have key : ∀ x y z, 15 ≤ x → x ≤ 90 → 1 ≤ z → z ≤ 0xFFFFF → y < z →
      si5351_setup_pll pll x y z =
        some [u8 pll :: param_bytes (128 * x + 128 * y / z - 512) (128 * y % z) z (0 * 16)] ∧
      decode_abc (param_bytes (128 * x + 128 * y / z - 512) (128 * y % z) z (0 * 16))
        = (x, y, z) := by
    intro x y z hx hx2 hz hz2 hy
    have ht : 128 * y / z < 128 := Nat.div_lt_of_lt_mul (by omega)
    exact ⟨setup_pll_bytes pll x y z (by omega) (by omega) (by omega) (by omega) (by omega)
      (by omega), decode_param_bytes x y z 0 (by omega) (by omega) (by omega) (by omega) hy⟩
  refine ⟨⟨_, (key a b c ha ha2 hc hc2 hb).1, rfl, (key a b c ha ha2 hc hc2 hb).2⟩, ?_⟩
  intro a' b' c' ha' ha2' hc' hc2' hb' heq
  rw [(key a b c ha ha2 hc hc2 hb).1, (key a' b' c' ha' ha2' hc' hc2' hb').1] at heq
  have hbytes := List.tail_eq_of_cons_eq (List.head_eq_of_cons_eq (Option.some.inj heq))
  rw [← (key a b c ha ha2 hc hc2 hb).2, ← (key a' b' c' ha' ha2' hc' hc2' hb').2, hbytes]

/-- C1, witness: the triple (32, 1, 2) written to PLL A. -/
theorem C1_pll_round_trip_witness :
    (∃ bytes, si5351_setup_pll 26 32 1 2 = some [u8 26 :: bytes] ∧ bytes.length = 8 ∧
      decode_abc bytes = (32, 1, 2)) ∧
    ∀ a' b' c', 15 ≤ a' → a' ≤ 90 → 1 ≤ c' → c' ≤ 0xFFFFF → b' < c' →
      si5351_setup_pll 26 a' b' c' = si5351_setup_pll 26 32 1 2 → (a', b', c') = (32, 1, 2) :=
  C1_pll_round_trip 26 32 1 2 (by decide) (by decide) (by decide) (by decide) (by decide)

/-- C1, counterexample: no decoder inverts `si5351_setup_pll` on the whole
domain a in [15,90], b in [0,0xFFFFF], c in [1,0xFFFFF]: the triples (15, 1, 1)
and (16, 0, 1) produce the same bytes. -/
theorem C1_counterexample :
    ¬ ∃ dec : List Txn → Nat × Nat × Nat, ∀ a b c w, 15 ≤ a → a ≤ 90 → b ≤ 0xFFFFF →
      1 ≤ c → c ≤ 0xFFFFF → si5351_setup_pll SI_SYNTH_PLL_A a b c = some w →
      dec w = (a, b, c) := by
  rintro ⟨dec, h⟩
  have h1 := h 15 1 1 [[26, 0, 1, 0, 6, 0, 0, 0, 0]] (by decide) (by decide) (by decide)
    (by decide) (by decide) (by decide)
  have h2 := h 16 0 1 [[26, 0, 1, 0, 6, 0, 0, 0, 0]] (by decide) (by decide) (by decide)
    (by decide) (by decide) (by decide)
  rw [h1] at h2
  exact absurd h2 (by decide)

/-- C9: for every even divider in [6,900], every synth base register and every
R-divider code, `si5351_setup_msynth_int` emits one transaction: the register
address, then bytes 0x00, 0x01 (P3 = 1), the bits 16-17 of P1 = 128*divider - 512
OR-ed with `rDiv`, the middle and low bytes of P1, then 0x00 (high nibbles of
P3 and P2), 0x00, 0x00 (P2 = 0). -/
theorem C9_msynth_int_bytes (synth divider rDiv : Nat) (hs : synth < 256) (hr : rDiv < 256)
    (h6 : 6 ≤ divider) (h900 : divider ≤ 900) (hev : divider % 2 = 0) :
    si5351_setup_msynth_int synth divider rDiv =
      [[synth, 0x00, 0x01, ((128 * divider - 512) / 65536 % 4) ||| rDiv,
        (128 * divider - 512) / 256 % 256, (128 * divider - 512) % 256, 0x00, 0x00, 0x00]] ∧
    (128 * divider - 512) / 65536 % 4 * 65536 + (128 * divider - 512) / 256 % 256 * 256 +
      (128 * divider - 512) % 256 = 128 * divider - 512 ∧
    field_P2 (((si5351_setup_msynth_int synth divider rDiv).headD []).tail) = 0 ∧
    field_P3 (((si5351_setup_msynth_int synth divider rDiv).headD []).tail) = 1 := by
  have hP1 : sub32 (u32 (128 * u32 divider)) 512 = 128 * divider - 512 := by
    unfold sub32 u32
    omega
  have e : si5351_setup_msynth_int synth divider rDiv =
      [[synth, 0x00, 0x01, ((128 * divider - 512) / 65536 % 4) ||| rDiv,
        (128 * divider - 512) / 256 % 256, (128 * divider - 512) % 256, 0x00, 0x00, 0x00]] := by
    simp only [si5351_setup_msynth_int, hP1, u8_of_lt hs, u8_of_lt hr, byte2_and_three,
      byte_of_one, nibble_byte]
    rw [u8_of_lt (or_lt_256 _ _ (Nat.mod_lt _ (by decide)) hr)]
    simp [u8]
  refine ⟨e, by omega, ?_, ?_⟩
  · rw [e]
    simp [field_P2]
  · rw [e]
    simp [field_P3]

/-- C9, witness: divider 8 on multisynth 0 with R-divider code 0x10. -/
theorem C9_msynth_int_bytes_witness :
    si5351_setup_msynth_int 42 8 0x10 =
      [[42, 0x00, 0x01, ((128 * 8 - 512) / 65536 % 4) ||| 0x10,
        (128 * 8 - 512) / 256 % 256, (128 * 8 - 512) % 256, 0x00, 0x00, 0x00]] ∧
    (128 * 8 - 512) / 65536 % 4 * 65536 + (128 * 8 - 512) / 256 % 256 * 256 +
      (128 * 8 - 512) % 256 = 128 * 8 - 512 ∧
    field_P2 (((si5351_setup_msynth_int 42 8 0x10).headD []).tail) = 0 ∧
    field_P3 (((si5351_setup_msynth_int 42 8 0x10).headD []).tail) = 1 :=
  C9_msynth_int_bytes 42 8 0x10 (by decide) (by decide) (by decide) (by decide) (by decide)

/-! ## Divider search and PLL programming: claims -/

/-- C2: for every target frequency f > 0 with 6 <= floor(900000000 / f), the
search block yields the smallest shift count R with
(floor(900000000 / f) >> R) <= 900 and the divider equal to that shifted value
with its low bit cleared, hence even; `update_freq0` (for f = freq0), and the
same block of `update_freq12` on channel 1 (f = freq1) and on the direct
channel-2 path (f = freq2), return with these two values in the cache. -/
theorem C2_divider_search (f x : Nat) (hf : 0 < f) (hx : 0 < x) (h6 : 6 ≤ 900000000 / f) :
    ∃ p, pll_calc (900000000 / f) f x = some p ∧
      (900000000 / f) >>> p.rdiv ≤ 900 ∧
      (∀ R, R < p.rdiv → 900 < (900000000 / f) >>> R) ∧
      p.divider = 2 * (((900000000 / f) >>> p.rdiv) / 2) ∧
      p.divider % 2 = 0 ∧
      (∀ (s : Si5351) (nr : Nat), s.freq0 = f → s.xtal_freq = x → ∃ s' nr' w,
        s.update_freq0 nr = some (s', nr', w) ∧
        s'.freq0_div = p.divider ∧ s'.freq0_rdiv = p.rdiv) ∧
      (∀ (s : Si5351) (nr : Nat), s.freq1 = f → s.xtal_freq = x → ∃ s' nr' w,
        s.update_freq12_clk1 nr = some (false, s', nr', w) ∧
        s'.freq1_div = p.divider ∧ s'.freq1_rdiv = p.rdiv) ∧
      (∀ (s : Si5351) (nr : Nat), s.freq2 = f → s.xtal_freq = x → ∃ s' nr' w,
        s.update_freq12_direct nr = some (s', nr', w) ∧
        s'.freq2_div = p.divider ∧ s'.freq2_rdiv = p.rdiv) := by
  have _ := hf
  obtain ⟨p, hp, _, h2, h3, h4, _⟩ := search_facts f x hx h6
  refine ⟨p, hp, ?_, ?_, ?_, ?_, ?_, ?_, ?_⟩
  · rw [Nat.shiftRight_eq_div_pow]
    exact h2
  · intro R hR
    rw [Nat.shiftRight_eq_div_pow]
    exact h3 R hR
  · rw [Nat.shiftRight_eq_div_pow]
    exact h4
  · omega
  · intro s nr hs hxs
    subst hs hxs
    obtain ⟨s', nr', wpll, rest, h, _, hd, hr⟩ := update_freq0_search s nr p h6 hp
    exact ⟨s', nr', _, h, hd, hr⟩
  · intro s nr hs hxs
    subst hs hxs
    obtain ⟨s', nr', wpll, rest, h, _, hd, hr, _⟩ := update_freq12_clk1_search s nr p h6 hp
    exact ⟨s', nr', _, h, hd, hr⟩
  · intro s nr hs hxs
    subst hs hxs
    obtain ⟨s', nr', wpll, rest, h, _, hd, hr⟩ := update_freq12_direct_search s nr p h6 hp
    exact ⟨s', nr', _, h, hd, hr⟩

/-- C2, witness: f = 1000 Hz, where the quotient 900000 needs ten halvings. -/
theorem C2_divider_search_witness :
    ∃ p, pll_calc (900000000 / 1000) 1000 250000000 = some p ∧
      (900000000 / 1000) >>> p.rdiv ≤ 900 ∧
      (∀ R, R < p.rdiv → 900 < (900000000 / 1000) >>> R) ∧
      p.divider = 2 * (((900000000 / 1000) >>> p.rdiv) / 2) ∧
      p.divider % 2 = 0 ∧
      (∀ (s : Si5351) (nr : Nat), s.freq0 = 1000 → s.xtal_freq = 250000000 → ∃ s' nr' w,
        s.update_freq0 nr = some (s', nr', w) ∧
        s'.freq0_div = p.divider ∧ s'.freq0_rdiv = p.rdiv) ∧
      (∀ (s : Si5351) (nr : Nat), s.freq1 = 1000 → s.xtal_freq = 250000000 → ∃ s' nr' w,
        s.update_freq12_clk1 nr = some (false, s', nr', w) ∧
        s'.freq1_div = p.divider ∧ s'.freq1_rdiv = p.rdiv) ∧
      (∀ (s : Si5351) (nr : Nat), s.freq2 = 1000 → s.xtal_freq = 250000000 → ∃ s' nr' w,
        s.update_freq12_direct nr = some (s', nr', w) ∧
        s'.freq2_div = p.divider ∧ s'.freq2_rdiv = p.rdiv) :=
  C2_divider_search 1000 250000000 (by decide) (by decide) (by decide)

/-- C6 (as amended): for every target frequency f with 6 <= floor(900000000 / f)
the divider chosen by the search lies in [6,900] and the shift count lies in
[0,20]; the shift count lies in [0,7] exactly when f >= 7804. -/
theorem C6_search_range (f x : Nat) (hx : 0 < x) (h6 : 6 ≤ 900000000 / f) :
    ∃ p, pll_calc (900000000 / f) f x = some p ∧
      6 ≤ p.divider ∧ p.divider ≤ 900 ∧ p.rdiv ≤ 20 ∧ (p.rdiv ≤ 7 ↔ 7804 ≤ f) ∧
      (∀ (s : Si5351) (nr : Nat), s.freq0 = f → s.xtal_freq = x → ∃ s' nr' w,
        s.update_freq0 nr = some (s', nr', w) ∧
        s'.freq0_div = p.divider ∧ s'.freq0_rdiv = p.rdiv) := by
  obtain ⟨p, hp, h1, h2, h3, _, h5, h6', _⟩ := search_facts f x hx h6
  have hf : 0 < f := by
    rcases Nat.eq_zero_or_pos f with h | h
    · rw [h] at h6
      simp at h6
    · exact h
  refine ⟨p, hp, h5, h6', h1, ?_, ?_⟩
  · have e7 : (2 : Nat) ^ 7 = 128 := by norm_num
    have m1 : 900000000 / f * f ≤ 900000000 := Nat.div_mul_le_self _ _
    have m3 : 900000000 < 900000000 / f * f + f := Nat.lt_div_mul_add hf
    constructor
    · intro hr
      have hle : 900000000 / f / 2 ^ 7 ≤ 900000000 / f / 2 ^ p.rdiv :=
        Nat.div_le_div_left (Nat.pow_le_pow_right (by decide) hr) (Nat.pow_pos (by decide))
      rw [e7] at hle
      generalize 900000000 / f / 2 ^ p.rdiv = d1 at *
      generalize 900000000 / f = d0 at *
      have hd0 : d0 < 115328 := by omega
      by_contra hcon
      have : d0 * f ≤ 115327 * 7803 :=
        Nat.mul_le_mul (by omega) (by omega)
      omega
    · intro hfge
      by_contra hcon
      have h := h3 7 (by omega)
      rw [e7] at h
      generalize 900000000 / f = d0 at *
      have hd0 : 115328 ≤ d0 := by omega
      have : 115328 * 7804 ≤ d0 * f := Nat.mul_le_mul hd0 hfge
      omega
  · intro s nr hs hxs
    subst hs hxs
    obtain ⟨s', nr', wpll, rest, h, _, hd, hr⟩ := update_freq0_search s nr p h6 hp
    exact ⟨s', nr', _, h, hd, hr⟩

/-- C6, witness: f = 7,000,000 Hz. -/
theorem C6_search_range_witness :
    ∃ p, pll_calc (900000000 / 7000000) 7000000 250000000 = some p ∧
      6 ≤ p.divider ∧ p.divider ≤ 900 ∧ p.rdiv ≤ 20 ∧ (p.rdiv ≤ 7 ↔ 7804 ≤ 7000000) ∧
      (∀ (s : Si5351) (nr : Nat), s.freq0 = 7000000 → s.xtal_freq = 250000000 → ∃ s' nr' w,
        s.update_freq0 nr = some (s', nr', w) ∧
        s'.freq0_div = p.divider ∧ s'.freq0_rdiv = p.rdiv) :=
  C6_search_range 7000000 250000000 (by decide) (by decide)

/-- C6, counterexample: for f = 1 Hz (quotient 900000000 >= 6) the search ends
with shift count 20, outside [0,7]. -/
theorem C6_counterexample :
    0 < 1 ∧ 6 ≤ 900000000 / 1 ∧
    pll_calc (900000000 / 1) 1 250000000 = some ⟨858, 20, 899678208, 35, 1035078⟩ ∧
    ¬ ((⟨858, 20, 899678208, 35, 1035078⟩ : PllCalc).rdiv ≤ 7) := by
  refine ⟨by decide, by decide, ?_, by decide⟩
  have h : div_loop (900000000 / 1) 0 = (858, 20) := by
    simp [div_loop, u8]
  unfold pll_calc
  rw [h]
  decide

theorem pll_calc_scenario :
    pll_calc (900000000 / 100000000) 100000000 250000000 = some ⟨8, 0, 800000000, 32, 0⟩ := by
  unfold pll_calc
  rw [div_loop_le _ _ (by decide)]
  decide

/-- C3 (as amended): with the crystal value 250,000,000 stored by
`set_xtal_freq` (a 25 MHz crystal, in the tenths of a hertz `update_freq0`
works in) and f0 = 100,000,000 requested, `update_freq0` chooses divider 8 and
R = 0 and first calls the PLL encoder for PLL A with multiplier 32, numerator 0
and denominator 0xFFFFF, which denote 800,000,000 = 8 * 100,000,000 over a
25,000,000 Hz reference. -/
theorem C3_pll_a_scenario (s : Si5351) (nr : Nat) (hx : s.xtal_freq = 250000000)
    (hf : s.freq0 = 100000000) :
    (({ Si5351.zero with freq0 := 100000000 } : Si5351).set_xtal_freq 250000000 0).map
        (fun r => r.1.xtal_freq) = some 250000000 ∧
    pll_calc (900000000 / s.freq0) s.freq0 s.xtal_freq = some ⟨8, 0, 800000000, 32, 0⟩ ∧
    (∃ s' nr' wpll rest, s.update_freq0 nr = some (s', nr', wpll ++ rest) ∧
      si5351_setup_pll SI_SYNTH_PLL_A 32 0 FRAC_DENOM = some wpll ∧
      s'.freq0_div = 8 ∧ s'.freq0_rdiv = 0) ∧
    25000000 * (32 * 0xFFFFF + 0) ≤ 800000000 * 0xFFFFF ∧
    800000000 * 0xFFFFF < 25000000 * (32 * 0xFFFFF + 0 + 1) := by
  have hp : pll_calc (900000000 / s.freq0) s.freq0 s.xtal_freq
      = some ⟨8, 0, 800000000, 32, 0⟩ := by
    rw [hf, hx]
    exact pll_calc_scenario
  refine ⟨?_, hp, ?_, by norm_num, by norm_num⟩
  · simp [Si5351.set_xtal_freq, Si5351.zero, Si5351.update_freq0, Si5351.update_freq12,
      Si5351.update_freq12_off, Si5351.disable_out, udiv, pll_calc, div_loop_le, u8, u32, u64,
      sub64, FRAC_DENOM, si5351_setup_pll, and_clear_low]
  · have h6 : 6 ≤ 900000000 / s.freq0 := by
      rw [hf]
      decide
    obtain ⟨s', nr', wpll, rest, h, hw, hd, hr⟩ :=
      update_freq0_search s nr ⟨8, 0, 800000000, 32, 0⟩ h6 hp
    exact ⟨s', nr', wpll, rest, h, hw, hd, hr⟩

/-- C3, witness: the state reached from `Si5351.start` by storing
f0 = 100,000,000. -/
theorem C3_pll_a_scenario_witness :
    (({ Si5351.zero with freq0 := 100000000 } : Si5351).set_xtal_freq 250000000 0).map
        (fun r => r.1.xtal_freq) = some 250000000 ∧
    pll_calc (900000000 / ({ Si5351.start with freq0 := 100000000 } : Si5351).freq0)
      ({ Si5351.start with freq0 := 100000000 } : Si5351).freq0
      ({ Si5351.start with freq0 := 100000000 } : Si5351).xtal_freq
        = some ⟨8, 0, 800000000, 32, 0⟩ ∧
    (∃ s' nr' wpll rest, ({ Si5351.start with freq0 := 100000000 } : Si5351).update_freq0 0
        = some (s', nr', wpll ++ rest) ∧
      si5351_setup_pll SI_SYNTH_PLL_A 32 0 FRAC_DENOM = some wpll ∧
      s'.freq0_div = 8 ∧ s'.freq0_rdiv = 0) ∧
    25000000 * (32 * 0xFFFFF + 0) ≤ 800000000 * 0xFFFFF ∧
    800000000 * 0xFFFFF < 25000000 * (32 * 0xFFFFF + 0 + 1) :=
  C3_pll_a_scenario { Si5351.start with freq0 := 100000000 } 0 rfl rfl

/-- C3, counterexample: with 25,000,000 stored as the crystal value and
f0 = 100,000,000, `update_freq0` chooses divider 8 and R = 0 but calls the PLL
encoder with multiplier 64 and numerator 268,435,200, which do not denote
800,000,000 over a 25,000,000 Hz reference. -/
theorem C3_counterexample :
    pll_calc (900000000 / 100000000) 100000000 25000000
      = some ⟨8, 0, 800000000, 64, 268435200⟩ ∧
    (∃ s' nr' wpll rest,
      ({ Si5351.zero with xtal_freq := 25000000, freq0 := 100000000 } : Si5351).update_freq0 0
        = some (s', nr', wpll ++ rest) ∧
      si5351_setup_pll SI_SYNTH_PLL_A 64 268435200 FRAC_DENOM = some wpll) ∧
    ¬ (25000000 * (64 * 0xFFFFF + 268435200) ≤ 800000000 * 0xFFFFF ∧
       800000000 * 0xFFFFF < 25000000 * (64 * 0xFFFFF + 268435200 + 1)) := by
  have hp : pll_calc (900000000 / 100000000) 100000000 25000000
      = some ⟨8, 0, 800000000, 64, 268435200⟩ := by
    unfold pll_calc
    rw [div_loop_le _ _ (by decide)]
    decide
  refine ⟨hp, ?_, by norm_num⟩
  obtain ⟨s', nr', wpll, rest, h, hw, _⟩ := update_freq0_search
    ({ Si5351.zero with xtal_freq := 25000000, freq0 := 100000000 } : Si5351) 0
    ⟨8, 0, 800000000, 64, 268435200⟩ (by decide) hp
  exact ⟨s', nr', wpll, rest, h, hw⟩

/-- C4 (as amended): for every stored crystal value between 250,000,000 and
270,000,000 (25 MHz to 27 MHz in tenths of a hertz) and every target
frequency f with 6 <= floor(900000000 / f), the multiplier and numerator the
search block computes satisfy a in [15,90] and b in [0,0xFFFFF], and each of
the three call sites (`update_freq0`, channel 1 and the direct channel-2 path
of `update_freq12`) calls `si5351_setup_pll` with exactly these two values and
denominator 0xFFFFF. -/
theorem C4_pll_call_domain (f x : Nat) (hx1 : 250000000 ≤ x) (hx2 : x ≤ 270000000)
    (h6 : 6 ≤ 900000000 / f) :
    ∃ p, pll_calc (900000000 / f) f x = some p ∧
      15 ≤ p.mult ∧ p.mult ≤ 90 ∧ p.num ≤ 0xFFFFF ∧ FRAC_DENOM = 0xFFFFF ∧
      (∀ (s : Si5351) (nr : Nat), s.freq0 = f → s.xtal_freq = x → ∃ s' nr' wpll rest,
        s.update_freq0 nr = some (s', nr', wpll ++ rest) ∧
        si5351_setup_pll SI_SYNTH_PLL_A p.mult p.num FRAC_DENOM = some wpll) ∧
      (∀ (s : Si5351) (nr : Nat), s.freq1 = f → s.xtal_freq = x → ∃ s' nr' wpll rest,
        s.update_freq12_clk1 nr = some (false, s', nr', wpll ++ rest) ∧
        si5351_setup_pll SI_SYNTH_PLL_B p.mult p.num FRAC_DENOM = some wpll) ∧
      (∀ (s : Si5351) (nr : Nat), s.freq2 = f → s.xtal_freq = x → ∃ s' nr' wpll rest,
        s.update_freq12_direct nr = some (s', nr', wpll ++ rest) ∧
        si5351_setup_pll SI_SYNTH_PLL_B p.mult p.num FRAC_DENOM = some wpll) := by
  obtain ⟨p, hp, _, _, _, _, _, _, _, hlo, hhi, hmult, hnum⟩ :=
    search_facts f x (by omega) h6
  obtain ⟨r1, r2, r3, r4, r5⟩ := pll_args_range p.pll_freq x hlo hhi (by omega) (by omega)
  have em : p.mult = p.pll_freq * 10 / x := by rw [hmult, r1]
  have en : p.num = (p.pll_freq - p.pll_freq * 10 / x * x / 10) * FRAC_DENOM * 10 / x := by
    rw [hnum, em, r4]
  refine ⟨p, hp, by omega, by omega, by rw [en]; exact r5, rfl, ?_, ?_, ?_⟩
  · intro s nr hs hxs
    subst hs hxs
    obtain ⟨s', nr', wpll, rest, h, hw, _⟩ := update_freq0_search s nr p h6 hp
    exact ⟨s', nr', wpll, rest, h, hw⟩
  · intro s nr hs hxs
    subst hs hxs
    obtain ⟨s', nr', wpll, rest, h, hw, _⟩ := update_freq12_clk1_search s nr p h6 hp
    exact ⟨s', nr', wpll, rest, h, hw⟩
  · intro s nr hs hxs
    subst hs hxs
    obtain ⟨s', nr', wpll, rest, h, hw, _⟩ := update_freq12_direct_search s nr p h6 hp
    exact ⟨s', nr', wpll, rest, h, hw⟩

/-- C4, witness: a 27 MHz crystal (270,000,000) and f = 10 MHz. -/
theorem C4_pll_call_domain_witness :
    ∃ p, pll_calc (900000000 / 10000000) 10000000 270000000 = some p ∧
      15 ≤ p.mult ∧ p.mult ≤ 90 ∧ p.num ≤ 0xFFFFF ∧ FRAC_DENOM = 0xFFFFF ∧
      (∀ (s : Si5351) (nr : Nat), s.freq0 = 10000000 → s.xtal_freq = 270000000 →
        ∃ s' nr' wpll rest, s.update_freq0 nr = some (s', nr', wpll ++ rest) ∧
        si5351_setup_pll SI_SYNTH_PLL_A p.mult p.num FRAC_DENOM = some wpll) ∧
      (∀ (s : Si5351) (nr : Nat), s.freq1 = 10000000 → s.xtal_freq = 270000000 →
        ∃ s' nr' wpll rest, s.update_freq12_clk1 nr = some (false, s', nr', wpll ++ rest) ∧
        si5351_setup_pll SI_SYNTH_PLL_B p.mult p.num FRAC_DENOM = some wpll) ∧
      (∀ (s : Si5351) (nr : Nat), s.freq2 = 10000000 → s.xtal_freq = 270000000 →
        ∃ s' nr' wpll rest, s.update_freq12_direct nr = some (s', nr', wpll ++ rest) ∧
        si5351_setup_pll SI_SYNTH_PLL_B p.mult p.num FRAC_DENOM = some wpll) :=
  C4_pll_call_domain 10000000 270000000 (by decide) (by decide) (by decide)

/-- C4, counterexample: with 27,000,000 stored as the crystal value and
f = 10,000,000 (quotient 90), channel 1's block calls `si5351_setup_pll` with
numerator 268,784,725, far above 0xFFFFF. -/
theorem C4_counterexample :
    25000000 ≤ 27000000 ∧ 27000000 ≤ 27000000 ∧ 6 ≤ 900000000 / 10000000 ∧
    pll_calc (900000000 / 10000000) 10000000 27000000
      = some ⟨90, 0, 900000000, 77, 268784725⟩ ∧
    (∃ s' nr' wpll rest,
      ({ Si5351.zero with xtal_freq := 27000000, freq1 := 10000000 } : Si5351).update_freq12_clk1 0
        = some (false, s', nr', wpll ++ rest) ∧
      si5351_setup_pll SI_SYNTH_PLL_B 77 268784725 FRAC_DENOM = some wpll) ∧
    ¬ (268784725 ≤ 0xFFFFF) := by
  have hp : pll_calc (900000000 / 10000000) 10000000 27000000
      = some ⟨90, 0, 900000000, 77, 268784725⟩ := by
    unfold pll_calc
    rw [div_loop_le _ _ (by decide)]
    decide
  refine ⟨by decide, by decide, by decide, hp, ?_, by decide⟩
  obtain ⟨s', nr', wpll, rest, h, hw, _⟩ := update_freq12_clk1_search
    ({ Si5351.zero with xtal_freq := 27000000, freq1 := 10000000 } : Si5351) 0
    ⟨90, 0, 900000000, 77, 268784725⟩ (by decide) hp
  exact ⟨s', nr', wpll, rest, h, hw⟩

/-! ## The controller: claims -/

/-- C7: for every controller state with a positive crystal frequency (and a
retained PLL-B frequency that fits its 32-bit member) and every (f0, f1, f2),
`set_freq` returns, and a second call with the same three arguments emits no
register write at all and leaves the controller state unchanged. -/
theorem C7_set_freq_idempotent (s : Si5351) (f0 f1 f2 : Nat) (hx : 0 < s.xtal_freq)
    (hP : s.freq_pll_b < 2 ^ 32) :
    ∃ s1 w1, s.set_freq f0 f1 f2 = some (s1, w1) ∧
      s1.set_freq f0 f1 f2 = some (s1, []) := by
  obtain ⟨s1, w1, h, _, a0, a1, a2, _⟩ := set_freq_total s f0 f1 f2 hx hP
  exact ⟨s1, w1, h, set_freq_same s1 f0 f1 f2 a0 a1 a2⟩

/-- C7, witness: from the all-zero state with a 25 MHz crystal (stored in
tenths of a hertz), requesting 100 MHz, 14 MHz and 7 MHz. -/
theorem C7_set_freq_idempotent_witness :
    ∃ s1 w1, Si5351.start.set_freq 100000000 14000000 7000000 = some (s1, w1) ∧
      s1.set_freq 100000000 14000000 7000000 = some (s1, []) :=
  C7_set_freq_idempotent Si5351.start
    100000000 14000000 7000000 (by decide) (by decide)

/-- C8 (as amended): for every controller state and every channel k in
{0,1,2}, `disable_out k` emits exactly one register write, 0x80 to control
register 16 + k, when channel k's cached divider is nonzero, and no write at
all when it is already 0; afterwards the cached divider of channel k is 0.
The same holds for `set_freq` with f0 = 0 when the stored f0 is nonzero and
f1, f2 are unchanged. -/
theorem C8_disable_channel (s : Si5351) (k : Nat) (hk : k ≤ 2) :
    (s.disable_out k).2 = (if s.freq_div k ≠ 0 then [[16 + k, 0x80]] else []) ∧
    (s.disable_out k).1.freq_div k = 0 ∧
    (s.freq0 ≠ 0 → s.freq1 < 2 ^ 32 → s.freq2 < 2 ^ 32 →
      ∃ s', s.set_freq 0 s.freq1 s.freq2 =
          some (s', if s.freq0_div ≠ 0 then [[16, 0x80]] else []) ∧
        s'.freq0_div = 0 ∧ s'.freq0 = 0) := by
  refine ⟨(disable_out_writes s k hk).1, (disable_out_writes s k hk).2, ?_⟩
  intro h0 h1 h2
  have e1 : u32 s.freq1 = s.freq1 := Nat.mod_eq_of_lt h1
  have e2 : u32 s.freq2 = s.freq2 := Nat.mod_eq_of_lt h2
  have e0 : u32 0 = 0 := by decide
  have e3 : u8 0 = 0 := by decide
  have hne : (0 : Nat) ≠ s.freq0 := fun h => h0 h.symm
  by_cases hd : s.freq0_div ≠ 0
  · refine ⟨{ s with freq0 := 0, freq0_div := 0 }, ?_, rfl, rfl⟩
    simp [Si5351.set_freq, e0, e1, e2, e3, hne, Si5351.update_freq0, Si5351.disable_out, hd,
      si5351_write_reg, SI_CLK0_CONTROL, u8]
  · refine ⟨{ s with freq0 := 0 }, ?_, by simpa using hd, rfl⟩
    simp [Si5351.set_freq, e0, e1, e2, e3, hne, Si5351.update_freq0, Si5351.disable_out, hd]

/-- C8, witness: channel 0 running at 100 MHz with divider 8 is switched off. -/
theorem C8_disable_channel_witness :
    (Si5351.ch0_on.disable_out 0).2 =
      (if Si5351.ch0_on.freq_div 0 ≠ 0 then [[16 + 0, 0x80]] else []) ∧
    (Si5351.ch0_on.disable_out 0).1.freq_div 0 = 0 ∧
    (Si5351.ch0_on.freq0 ≠ 0 → Si5351.ch0_on.freq1 < 2 ^ 32 → Si5351.ch0_on.freq2 < 2 ^ 32 →
      ∃ s', Si5351.ch0_on.set_freq 0 Si5351.ch0_on.freq1 Si5351.ch0_on.freq2 =
          some (s', if Si5351.ch0_on.freq0_div ≠ 0 then [[16, 0x80]] else []) ∧
        s'.freq0_div = 0 ∧ s'.freq0 = 0) :=
  C8_disable_channel Si5351.ch0_on 0 (by decide)

/-- C8, counterexample: a request of 200 MHz on channel 0 is stored but leaves
the channel disabled (cached divider 0); the following request of frequency 0
emits no register write instead of exactly one. -/
theorem C8_counterexample :
    ∃ s1 s2, Si5351.start.set_freq 200000000 0 0 = some (s1, []) ∧
      s1.freq0 = 200000000 ∧ s1.freq0 ≠ 0 ∧
      s1.set_freq 0 s1.freq1 s1.freq2 = some (s2, []) ∧
      regWrites ([] : List Txn) ≠ [(16, 0x80)] ∧
      s1.disable_out 0 = (s1, []) := by
  refine ⟨{ Si5351.start with freq0 := 200000000 }, Si5351.start, ?_, rfl, by decide, ?_,
    by decide, by decide⟩
  · decide
  · decide

/-- C10 (as amended): for every state whose stored channel-1 frequency is
nonzero, a `set_freq` call that leaves f1 unchanged and changes f2 to a nonzero
value emits no write to the PLL B registers 34..41 and keeps the retained
PLL-B frequency; when floor(freq_pll_b / f2) >= 6 the divider is
d = floor(freq_pll_b / (f2 * 2^R)), in [6,900], and when d < 256 the writes to
registers 58..65 are the parameter bytes of multisynth 2 for that divider;
when floor(freq_pll_b / f2) < 6 multisynth 2 is not programmed (no write to
registers 58..65) and channel 2 is disabled: the call writes 0x80 to control
register 18, once, when the cached divider of channel 2 is nonzero and
writes nothing to it otherwise, and the cached divider is 0 afterwards.  In
the scenario f1 = 14,000,000 followed by f2 = 7,000,000 the retained PLL-B
frequency is 896,000,000 and the divider is 128 with numerator 0,
denominator 1 and R = 0; with channel 2 running at 7 MHz on the shared PLL, a
request of 200 MHz for it (quotient 4) yields the single write of 0x80 to
register 18. -/
theorem C10_channel2_shared_pll (s : Si5351) (f0 f2 : Nat) (hx : 0 < s.xtal_freq)
    (hP : s.freq_pll_b < 2 ^ 32) (h1 : s.freq1 ≠ 0) (h1b : s.freq1 < 2 ^ 32)
    (h2 : f2 ≠ s.freq2) (h2a : f2 ≠ 0) (h2b : f2 < 2 ^ 32) :
    (∃ s' w, s.set_freq f0 s.freq1 f2 = some (s', w) ∧
      writesTo SI_SYNTH_PLL_B w = [] ∧ s'.freq_pll_b = s.freq_pll_b ∧
      (6 ≤ s.freq_pll_b / f2 →
        ∃ m, ms2_calc (s.freq_pll_b / f2) s.freq_pll_b f2 = some m ∧
          m.divider = s.freq_pll_b / (f2 * 2 ^ m.rdiv) ∧ 6 ≤ m.divider ∧
          m.divider ≤ 900 ∧
          (m.divider < 256 →
            writesTo SI_SYNTH_MS_2 w = regWritesFrom 58
              (param_bytes
                (128 * m.divider + 128 * m.num / (if m.num ≠ 0 then FRAC_DENOM else 1) - 512)
                (128 * m.num % (if m.num ≠ 0 then FRAC_DENOM else 1))
                (if m.num ≠ 0 then FRAC_DENOM else 1) (u8 (R_DIV m.rdiv))))) ∧
      (s.freq_pll_b / f2 < 6 →
        writesTo SI_SYNTH_MS_2 w = [] ∧
        (regWrites w).filter (fun p => p.1 == 18) =
          (if s.freq2_div ≠ 0 then [(18, 0x80)] else []) ∧
        s'.freq2_div = 0)) ∧
    (Si5351.start.set_freq 0 14000000 0).map (fun r => r.1) = some Si5351.ch1_14MHz ∧
    Si5351.ch1_14MHz.freq_pll_b = 896000000 ∧
    ms2_calc (896000000 / 7000000) 896000000 7000000 = some ⟨128, 0, 7000000, 0⟩ ∧
    Si5351.ch1_14MHz.set_freq 0 14000000 7000000 =
      some ({ Si5351.ch1_14MHz with freq2 := 7000000, freq2_div := 1 },
        [[58, 0], [59, 1], [60, 0], [61, 62], [62, 0], [63, 0], [64, 0], [65, 0]]) ∧
    si5351_setup_msynth SI_SYNTH_MS_2 128 0 1 (R_DIV 0) =
      some [[58, 0], [59, 1], [60, 0], [61, 62], [62, 0], [63, 0], [64, 0], [65, 0]] ∧
    Si5351.ch12_on.freq_pll_b / 200000000 = 4 ∧
    Si5351.ch12_on.set_freq 0 14000000 200000000 =
      some ({ Si5351.ch12_on with freq2 := 200000000, freq2_div := 0 }, [[18, 0x80]]) := by
  refine ⟨?_, ?_, rfl, ?_, ?_, by decide, by decide, by decide⟩
  · obtain ⟨s1, nr, w0, hpb, hd2, hw34, ht2, hset⟩ :=
      set_freq_shared_state s f0 f2 hx h1 h1b h2 h2a h2b
    obtain ⟨hw18, hw58⟩ := touches_two_false w0 ht2
    obtain ⟨hr18, _, hr58⟩ := reset_strobe_writes nr
    obtain ⟨s4, w4, hclk2, hpb4, hw4, hms⟩ := update_freq12_clk2_result
      ({ s1 with freq1 := s.freq1, freq2 := f2 } : Si5351) (by rw [← hpb] at hP; exact hP) h2a
    rw [hclk2] at hset
    have hreset : ∀ base, base = SI_SYNTH_PLL_B ∨ base = SI_SYNTH_MS_2 →
        writesTo base (if nr ≠ 0 then si5351_write_reg SI_PLL_RESET 0xA0 else []) = [] := by
      intro base hb
      rcases hb with hb | hb <;> subst hb <;> split <;>
        simp [writesTo, regWrites, Txn.regWrites, regWritesFrom, si5351_write_reg,
          SI_SYNTH_PLL_B, SI_SYNTH_MS_2, SI_PLL_RESET, u8]
    refine ⟨s4, _, hset, ?_, hpb4.trans hpb, ?_, ?_⟩
    · rw [writesTo_append, writesTo_append, hw34, hw4, hreset _ (Or.inl rfl)]
      rfl
    · intro h6
      have h6' : 6 ≤ ({ s1 with freq1 := s.freq1, freq2 := f2 } : Si5351).freq_pll_b /
          ({ s1 with freq1 := s.freq1, freq2 := f2 } : Si5351).freq2 := by
        show 6 ≤ s1.freq_pll_b / f2
        rw [hpb]
        exact h6
      obtain ⟨m, hm, hd, hd6, hd900, hbytes⟩ := hms h6'
      have hm' : ms2_calc (s.freq_pll_b / f2) s.freq_pll_b f2 = some m := by
        rw [← hpb]
        exact hm
      have hd' : m.divider = s.freq_pll_b / (f2 * 2 ^ m.rdiv) := by
        rw [← hpb]
        exact hd
      refine ⟨m, hm', hd', hd6, hd900, ?_⟩
      intro h256
      rw [writesTo_append, writesTo_append, hw58, hbytes h256, hreset _ (Or.inr rfl)]
      simp
    · intro hlt
      have hlow := update_freq12_clk2_low ({ s1 with freq1 := s.freq1, freq2 := f2 } : Si5351)
        h2a (by show s1.freq_pll_b / f2 < 6; rw [hpb]; exact hlt)
      have e : (s4, w4) = ({ s1 with freq1 := s.freq1, freq2 := f2 } : Si5351).disable_out 2 :=
        Option.some.inj (hclk2.symm.trans hlow)
      have es : s4 = (({ s1 with freq1 := s.freq1, freq2 := f2 } : Si5351).disable_out 2).1 :=
        congrArg Prod.fst e
      have ew : w4 = (({ s1 with freq1 := s.freq1, freq2 := f2 } : Si5351).disable_out 2).2 :=
        congrArg Prod.snd e
      obtain ⟨d58, d18, dd⟩ :=
        disable_out_two_writes ({ s1 with freq1 := s.freq1, freq2 := f2 } : Si5351)
      have hd2' : ({ s1 with freq1 := s.freq1, freq2 := f2 } : Si5351).freq2_div =
          s.freq2_div := hd2
      refine ⟨?_, ?_, ?_⟩
      · rw [writesTo_append, writesTo_append, hw58, ew, d58, hr58]
        rfl
      · rw [regWrites_append, regWrites_append, List.filter_append, List.filter_append, hw18,
          ew, d18, hr18, hd2']
        simp
      · rw [es]
        exact dd
  · simp [Si5351.start, Si5351.ch1_14MHz, Si5351.set_freq, Si5351.zero, Si5351.update_freq12,
      Si5351.update_freq12_off, Si5351.disable_out, Si5351.update_freq12_clk1,
      Si5351.update_freq12_clk2, pll_calc, udiv, div_loop_le, u8, u32, u64, sub64, FRAC_DENOM,
      si5351_setup_pll, si5351_setup_msynth_int, si5351_write_reg, sub32, byte_of,
      SI_SYNTH_PLL_B, SI_SYNTH_MS_1, R_DIV, SI_CLK1_CONTROL, SI_CLK2_CONTROL,
      SI_CLK_SRC_PLL_B, SI_PLL_RESET, and_clear_low, and_three, and_nibble4_shr12,
      and_nibble4_shr16]
  · unfold ms2_calc
    rw [div_loop_ff_le _ _ _ (by decide)]
    decide
  · simp [Si5351.start, Si5351.ch1_14MHz, Si5351.set_freq, Si5351.zero, Si5351.update_freq12,
      Si5351.update_freq12_off, Si5351.disable_out, Si5351.update_freq12_clk1,
      Si5351.update_freq12_clk2, ms2_calc, umod, div_loop_ff_le, pll_calc, udiv, div_loop_le, u8,
      u32, u64, sub64, FRAC_DENOM, si5351_setup_msynth, si5351_write_reg, sub32, byte_of,
      SI_SYNTH_MS_2, R_DIV, SI_PLL_RESET, and_three, and_nibble4_shr12, and_nibble4_shr16]

/-- C10, witness: channel 1 at 14 MHz retained, channel 2 changed to 7 MHz. -/
theorem C10_channel2_shared_pll_witness :
    (∃ s' w, Si5351.ch1_14MHz.set_freq 0 Si5351.ch1_14MHz.freq1 7000000 = some (s', w) ∧
      writesTo SI_SYNTH_PLL_B w = [] ∧ s'.freq_pll_b = Si5351.ch1_14MHz.freq_pll_b ∧
      (6 ≤ Si5351.ch1_14MHz.freq_pll_b / 7000000 →
        ∃ m, ms2_calc (Si5351.ch1_14MHz.freq_pll_b / 7000000) Si5351.ch1_14MHz.freq_pll_b
            7000000 = some m ∧
          m.divider = Si5351.ch1_14MHz.freq_pll_b / (7000000 * 2 ^ m.rdiv) ∧ 6 ≤ m.divider ∧
          m.divider ≤ 900 ∧
          (m.divider < 256 →
            writesTo SI_SYNTH_MS_2 w = regWritesFrom 58
              (param_bytes
                (128 * m.divider + 128 * m.num / (if m.num ≠ 0 then FRAC_DENOM else 1) - 512)
                (128 * m.num % (if m.num ≠ 0 then FRAC_DENOM else 1))
                (if m.num ≠ 0 then FRAC_DENOM else 1) (u8 (R_DIV m.rdiv))))) ∧
      (Si5351.ch1_14MHz.freq_pll_b / 7000000 < 6 →
        writesTo SI_SYNTH_MS_2 w = [] ∧
        (regWrites w).filter (fun p => p.1 == 18) =
          (if Si5351.ch1_14MHz.freq2_div ≠ 0 then [(18, 0x80)] else []) ∧
        s'.freq2_div = 0)) ∧
    (Si5351.start.set_freq 0 14000000 0).map (fun r => r.1) = some Si5351.ch1_14MHz ∧
    Si5351.ch1_14MHz.freq_pll_b = 896000000 ∧
    ms2_calc (896000000 / 7000000) 896000000 7000000 = some ⟨128, 0, 7000000, 0⟩ ∧
    Si5351.ch1_14MHz.set_freq 0 14000000 7000000 =
      some ({ Si5351.ch1_14MHz with freq2 := 7000000, freq2_div := 1 },
        [[58, 0], [59, 1], [60, 0], [61, 62], [62, 0], [63, 0], [64, 0], [65, 0]]) ∧
    si5351_setup_msynth SI_SYNTH_MS_2 128 0 1 (R_DIV 0) =
      some [[58, 0], [59, 1], [60, 0], [61, 62], [62, 0], [63, 0], [64, 0], [65, 0]] ∧
    Si5351.ch12_on.freq_pll_b / 200000000 = 4 ∧
    Si5351.ch12_on.set_freq 0 14000000 200000000 =
      some ({ Si5351.ch12_on with freq2 := 200000000, freq2_div := 0 }, [[18, 0x80]]) :=
  C10_channel2_shared_pll Si5351.ch1_14MHz 0 7000000 (by decide) (by decide) (by decide)
    (by decide) (by decide) (by decide) (by decide)

/-- C10, counterexample: with channel 1 retained at 14 MHz (PLL B at 896 MHz),
changing f2 to 200 MHz gives the quotient 4 < 6; the call writes nothing to
the multisynth-2 registers 58..65, so multisynth 2 is not programmed. -/
theorem C10_counterexample :
    Si5351.ch1_14MHz.freq1 ≠ 0 ∧ 200000000 ≠ Si5351.ch1_14MHz.freq2 ∧
    Si5351.ch1_14MHz.freq_pll_b / 200000000 = 4 ∧
    Si5351.ch1_14MHz.set_freq 0 14000000 200000000 =
      some ({ Si5351.ch1_14MHz with freq2 := 200000000 }, []) ∧
    writesTo SI_SYNTH_MS_2 ([] : List Txn) = [] := by
  refine ⟨by decide, by decide, by decide, ?_, rfl⟩
  decide

/-- C5, the failing input evaluated: with channel 1 retained at 9 MHz (PLL B at
900 MHz) and f2 = 3,000,000 the computed divider is 300 with numerator 0 and
R = 0, but the bytes written to registers 58..65 carry P1 = 5120, the value
for divider 300 mod 256 = 44, and not 128 * 300 - 512 = 37888. -/
theorem C5_divider_truncated :
    (Si5351.start.set_freq 0 9000000 0).map (fun r => r.1) = some Si5351.ch1_9MHz ∧
    ms2_calc (900000000 / 3000000) 900000000 3000000 = some ⟨300, 0, 3000000, 0⟩ ∧
    6 ≤ 300 ∧ 300 ≤ 900 ∧
    Si5351.ch1_9MHz.set_freq 0 9000000 3000000 =
      some ({ Si5351.ch1_9MHz with freq2 := 3000000, freq2_div := 1 },
        [[58, 0], [59, 1], [60, 0], [61, 20], [62, 0], [63, 0], [64, 0], [65, 0]]) ∧
    field_P1 [0, 1, 0, 20, 0, 0, 0, 0] = 5120 ∧
    128 * 300 + 128 * 0 / 1 - 512 = 37888 ∧
    128 * (300 % 256) + 128 * 0 / 1 - 512 = 5120 := by
  refine ⟨?_, ?_, by decide, by decide, ?_, by decide, by decide, by decide⟩
  · simp [Si5351.start, Si5351.ch1_9MHz, Si5351.set_freq, Si5351.zero, Si5351.update_freq12,
      Si5351.update_freq12_off, Si5351.disable_out, Si5351.update_freq12_clk1,
      Si5351.update_freq12_clk2, pll_calc, udiv, div_loop_le, u8, u32, u64, sub64, FRAC_DENOM,
      si5351_setup_pll, si5351_setup_msynth_int, si5351_write_reg, sub32, byte_of,
      SI_SYNTH_PLL_B, SI_SYNTH_MS_1, R_DIV, SI_CLK1_CONTROL, SI_CLK2_CONTROL,
      SI_CLK_SRC_PLL_B, SI_PLL_RESET, and_clear_low, and_three, and_nibble4_shr12,
      and_nibble4_shr16]
  · unfold ms2_calc
    rw [div_loop_ff_le _ _ _ (by decide)]
    decide
  · simp [Si5351.start, Si5351.ch1_9MHz, Si5351.set_freq, Si5351.zero, Si5351.update_freq12,
      Si5351.update_freq12_off, Si5351.disable_out, Si5351.update_freq12_clk1,
      Si5351.update_freq12_clk2, ms2_calc, umod, div_loop_ff_le, pll_calc, udiv, div_loop_le, u8,
      u32, u64, sub64, FRAC_DENOM, si5351_setup_msynth, si5351_write_reg, sub32, byte_of,
      SI_SYNTH_MS_2, R_DIV, SI_PLL_RESET, and_three, and_nibble4_shr12, and_nibble4_shr16]

/-! ## Frame and reset: claims -/

/-- C11 (as amended): for every controller state from which `set_freq`
returns, (channel 0) if the frequency requested for channel 0 equals the stored
one, `set_freq` writes neither control register 16 nor multisynth registers
42..49 and keeps the cached divider and shift of channel 0; (channel 1) the
same for channel 1, registers 17 and 50..57, in states where a zero request for
channel 1 comes with a zero cached divider; (channel 2) the same for channel 2,
registers 18 and 58..65, when the frequency of channel 1 is unchanged too. -/
theorem C11_unchanged_channels (s : Si5351) (f0 f1 f2 : Nat) (hx : 0 < s.xtal_freq)
    (hP : s.freq_pll_b < 2 ^ 32) :
    ∃ s' w, s.set_freq f0 f1 f2 = some (s', w) ∧
      (u32 f0 = s.freq0 →
        touches 0 w = false ∧ s'.freq0_div = s.freq0_div ∧ s'.freq0_rdiv = s.freq0_rdiv) ∧
      (u32 f1 = s.freq1 → (s.freq1 = 0 → s.freq1_div = 0) →
        touches 1 w = false ∧ s'.freq1_div = s.freq1_div ∧ s'.freq1_rdiv = s.freq1_rdiv) ∧
      (u32 f2 = s.freq2 → u32 f1 = s.freq1 →
        touches 2 w = false ∧ s'.freq2_div = s.freq2_div ∧ s'.freq2_rdiv = s.freq2_rdiv) := by
  obtain ⟨s1, s2, nr1, nr2, w0, w12, h, e0, c1, c2, c3, c4, t1, t2, _, _, g1, g2, g3, g4, _,
    g6⟩ := set_freq_summary s f0 f1 f2 hx hP
  obtain ⟨r0, r1, r2, _⟩ := reset_strobe_facts nr2
  refine ⟨s2, _, h, ?_, ?_, ?_⟩
  · intro h0
    obtain ⟨es, ew, _⟩ := e0 h0
    subst es
    rw [ew, touches_append, touches_append, g4, r0]
    exact ⟨rfl, g2, g3⟩
  · intro h1 hinv
    obtain ⟨k1, k2, k3⟩ := g6 h1 hinv
    rw [touches_append, touches_append, t1, k1, r1]
    exact ⟨rfl, k2.trans c1, k3.trans c3⟩
  · intro h2 h1
    obtain ⟨es, ew, _⟩ := g1 h1 h2
    subst es
    rw [ew, touches_append, touches_append, t2, r2]
    exact ⟨rfl, c2, c4⟩

/-- C11, witness: channels 1 and 2 running, channel 0 changed to 100 MHz. -/
theorem C11_unchanged_channels_witness :
    ∃ s' w, Si5351.ch12_on.set_freq 100000000 14000000 7000000 = some (s', w) ∧
      (u32 100000000 = Si5351.ch12_on.freq0 →
        touches 0 w = false ∧ s'.freq0_div = Si5351.ch12_on.freq0_div ∧
        s'.freq0_rdiv = Si5351.ch12_on.freq0_rdiv) ∧
      (u32 14000000 = Si5351.ch12_on.freq1 →
        (Si5351.ch12_on.freq1 = 0 → Si5351.ch12_on.freq1_div = 0) →
        touches 1 w = false ∧ s'.freq1_div = Si5351.ch12_on.freq1_div ∧
        s'.freq1_rdiv = Si5351.ch12_on.freq1_rdiv) ∧
      (u32 7000000 = Si5351.ch12_on.freq2 → u32 14000000 = Si5351.ch12_on.freq1 →
        touches 2 w = false ∧ s'.freq2_div = Si5351.ch12_on.freq2_div ∧
        s'.freq2_rdiv = Si5351.ch12_on.freq2_rdiv) :=
  C11_unchanged_channels Si5351.ch12_on 100000000 14000000 7000000 (by decide) (by decide)

/-- C11, counterexample: with channel 1 at 14 MHz and channel 2 at 7 MHz on the
shared PLL, a call that moves channel 1 to 14,000,001 Hz and repeats the
stored frequency of channel 2 rewrites the multisynth registers 58..65 of
channel 2. -/
theorem C11_counterexample :
    u32 7000000 = Si5351.ch12_on.freq2 ∧
    Si5351.ch12_on.set_freq 0 14000001 7000000 =
      some ({ Si5351.ch12_on with freq1 := 14000001, freq_pll_b := 896000064 },
        [[34, 255, 255, 0, 15, 235, 248, 82, 235], [58, 255], [59, 255], [60, 0], [61, 62],
         [62, 0], [63, 240], [64, 4], [65, 128]]) ∧
    touches 2 [[34, 255, 255, 0, 15, 235, 248, 82, 235], [58, 255], [59, 255], [60, 0],
      [61, 62], [62, 0], [63, 240], [64, 4], [65, 128]] = true := by
  refine ⟨by decide, ?_, by decide⟩
  simp [Si5351.start, Si5351.ch12_on, Si5351.set_freq, Si5351.zero, Si5351.update_freq12,
    Si5351.update_freq12_off, Si5351.disable_out, Si5351.update_freq12_clk1,
    Si5351.update_freq12_clk2, ms2_calc, umod, div_loop_ff_le, pll_calc, udiv, div_loop_le, u8,
    u32, u64, sub64, FRAC_DENOM, si5351_setup_pll, si5351_setup_msynth, si5351_write_reg,
    sub32, byte_of, SI_SYNTH_PLL_B, SI_SYNTH_MS_2, R_DIV, SI_PLL_RESET, and_clear_low,
    and_three, and_nibble4_shr12, and_nibble4_shr16]

/-- C14: for every controller state and every f0 above 150,000,000 (so that
floor(900000000 / f0) < 6) that differs from the stored f0, `set_freq` with f1
and f2 unchanged emits no write to the PLL A registers 26..33, the multisynth-0
registers 42..49 or the reset register 177; its whole trace is the single write
of 0x80 to control register 16 when the cached divider of channel 0 is
nonzero, and empty otherwise; afterwards the cached divider of channel 0 is 0. -/
theorem C14_silent_disable (s : Si5351) (f0 : Nat) (hf0 : 150000000 < f0) (hf32 : f0 < 2 ^ 32)
    (hne : f0 ≠ s.freq0) (h1 : s.freq1 < 2 ^ 32) (h2 : s.freq2 < 2 ^ 32) :
    900000000 / f0 < 6 ∧
    ∃ s' w, s.set_freq f0 s.freq1 s.freq2 = some (s', w) ∧
      w = (if s.freq0_div ≠ 0 then [[16, 0x80]] else []) ∧
      writesTo SI_SYNTH_PLL_A w = [] ∧ writesTo SI_SYNTH_MS_0 w = [] ∧ resets w = false ∧
      s'.freq0_div = 0 ∧ s'.freq0 = f0 := by
  have h6 : 900000000 / f0 < 6 := (Nat.div_lt_iff_lt_mul (by omega)).mpr (by omega)
  refine ⟨h6, ?_⟩
  have e0 : u32 f0 = f0 := Nat.mod_eq_of_lt hf32
  have e1 : u32 s.freq1 = s.freq1 := Nat.mod_eq_of_lt h1
  have e2 : u32 s.freq2 = s.freq2 := Nat.mod_eq_of_lt h2
  have e3 : u8 0 = 0 := by decide
  have hz : f0 ≠ 0 := by omega
  by_cases hd : s.freq0_div ≠ 0
  · refine ⟨{ s with freq0 := f0, freq0_div := 0 }, [[16, 0x80]], ?_, by rw [if_pos hd],
      rfl, rfl, rfl, rfl, rfl⟩
    simp [Si5351.set_freq, e0, e1, e2, e3, hne, hz, h6, udiv, Si5351.update_freq0,
      Si5351.disable_out, hd, si5351_write_reg, SI_CLK0_CONTROL, u8]
  · refine ⟨{ s with freq0 := f0 }, [], ?_, by rw [if_neg hd], rfl, rfl, rfl,
      by simpa using hd, rfl⟩
    simp [Si5351.set_freq, e0, e1, e2, e3, hne, hz, h6, udiv, Si5351.update_freq0,
      Si5351.disable_out, hd]

/-- C14, witness: channel 0 running at 100 MHz is asked for 200 MHz. -/
theorem C14_silent_disable_witness :
    900000000 / 200000000 < 6 ∧
    ∃ s' w, Si5351.ch0_on.set_freq 200000000 Si5351.ch0_on.freq1 Si5351.ch0_on.freq2
        = some (s', w) ∧
      w = (if Si5351.ch0_on.freq0_div ≠ 0 then [[16, 0x80]] else []) ∧
      writesTo SI_SYNTH_PLL_A w = [] ∧ writesTo SI_SYNTH_MS_0 w = [] ∧ resets w = false ∧
      s'.freq0_div = 0 ∧ s'.freq0 = 200000000 :=
  C14_silent_disable Si5351.ch0_on 200000000 (by decide) (by decide) (by decide) (by decide)
    (by decide)

/-- C15: for every controller state with positive crystal frequency and every
(f0, f1, f2), `set_freq` returns and its final register write is the reset
strobe (register 177, value 0xA0) if and only if the call programmed a
multisynth in integer mode, and a call without such programming writes
register 177 not at all.  The programming is tied to its cause: multisynth 0
is programmed in integer mode exactly when f0 changes, the quotient
900000000 / f0 is at least 6 and the divider or shift computed by the search
differs from the cached `freq0_div`, `freq0_rdiv`; multisynth 1 exactly when
f1 changes and the same holds for f1 and `freq1_div`, `freq1_rdiv`;
multisynth 2 exactly when f1 or f2 changes, f1 is 0 (the direct PLL-B path)
and the same holds for f2 and `freq2_div`, `freq2_rdiv`; the caches are those
at the start of the call.  So the strobe is the final write exactly when one
of the three comparisons differs (`Si5351.reprograms`), and when none does,
a cache hit included, register 177 is not written.  Two runs from the state
with channel 0 at 100 MHz (cached divider 8): 100,000,001 Hz gives divider 8
again, the call writes the PLL A registers only; 50 MHz gives divider 18, the
call ends with the strobe. -/
theorem C15_batched_reset (s : Si5351) (f0 f1 f2 : Nat) (hx : 0 < s.xtal_freq)
    (hP : s.freq_pll_b < 2 ^ 32) :
    (∃ s' w, s.set_freq f0 f1 f2 = some (s', w) ∧
      ((regWrites w).getLast? = some (177, 0xA0) ↔ intProgrammed w = true) ∧
      (intProgrammed w = false → resets w = false) ∧
      (programmedInt 0 w = true ↔
        u32 f0 ≠ s.freq0 ∧ 6 ≤ 900000000 / u32 f0 ∧
        ∃ p, pll_calc (900000000 / u32 f0) (u32 f0) s.xtal_freq = some p ∧
          (p.divider ≠ s.freq0_div ∨ p.rdiv ≠ s.freq0_rdiv)) ∧
      (programmedInt 1 w = true ↔
        u32 f1 ≠ s.freq1 ∧ 6 ≤ 900000000 / u32 f1 ∧
        ∃ p, pll_calc (900000000 / u32 f1) (u32 f1) s.xtal_freq = some p ∧
          (p.divider ≠ s.freq1_div ∨ p.rdiv ≠ s.freq1_rdiv)) ∧
      (programmedInt 2 w = true ↔
        ((u32 f1 ≠ s.freq1 ∨ u32 f2 ≠ s.freq2) ∧ u32 f1 = 0) ∧ 6 ≤ 900000000 / u32 f2 ∧
        ∃ p, pll_calc (900000000 / u32 f2) (u32 f2) s.xtal_freq = some p ∧
          (p.divider ≠ s.freq2_div ∨ p.rdiv ≠ s.freq2_rdiv)) ∧
      (intProgrammed w = true ↔
        programmedInt 0 w = true ∨ programmedInt 1 w = true ∨ programmedInt 2 w = true) ∧
      (intProgrammed w = true ↔ s.reprograms f0 f1 f2 = true) ∧
      ((regWrites w).getLast? = some (177, 0xA0) ↔ s.reprograms f0 f1 f2 = true) ∧
      (s.reprograms f0 f1 f2 = false → resets w = false)) ∧
    Si5351.ch0_on.reprograms 100000001 0 0 = false ∧
    Si5351.ch0_on.set_freq 100000001 0 0 =
      some ({ Si5351.ch0_on with freq0 := 100000001 }, [[26, 255, 255, 0, 14, 0, 240, 0, 0]]) ∧
    Si5351.ch0_on.reprograms 50000000 0 0 = true ∧
    Si5351.ch0_on.set_freq 50000000 0 0 =
      some ({ Si5351.ch0_on with freq0 := 50000000, freq0_div := 18 },
        [[26, 255, 255, 0, 16, 0, 240, 0, 0], [42, 0, 1, 0, 7, 0, 0, 0, 0], [16, 76],
         [177, 160]]) := by
  have base : ∃ s' w, s.set_freq f0 f1 f2 = some (s', w) ∧
      ((regWrites w).getLast? = some (177, 0xA0) ↔ intProgrammed w = true) ∧
      (intProgrammed w = false → resets w = false) := by
    obtain ⟨s1, s2, nr1, nr2, w0, w12, h, _, _, _, _, _, _, _, t3, t4, _, _, _, _, g5, _⟩ :=
      set_freq_summary s f0 f1 f2 hx hP
    refine ⟨s2, _, h, ?_⟩
    have hquiet : nr2 = 0 →
        intProgrammed (w0 ++ w12) = false ∧ resets (w0 ++ w12) = false := by
      intro hz
      rcases t4 with ⟨a1, a2⟩ | ⟨a1, a2⟩ <;> rcases g5 with ⟨b1, b2, b3⟩ | ⟨b1, b2⟩
      · exact ⟨by rw [intProgrammed_append, a2, b2]; rfl, by rw [resets_append, t3, b3]; rfl⟩
      · omega
      · omega
      · omega
    have hloud : nr2 ≠ 0 → intProgrammed (w0 ++ w12) = true := by
      intro hz
      rcases t4 with ⟨a1, a2⟩ | ⟨a1, a2⟩ <;> rcases g5 with ⟨b1, b2, b3⟩ | ⟨b1, b2⟩
      · omega
      · rw [intProgrammed_append, b2]
        simp
      · rw [intProgrammed_append, a2]
        simp
      · rw [intProgrammed_append, b2]
        simp
    by_cases hz : nr2 = 0
    · obtain ⟨q1, q2⟩ := hquiet hz
      have hif : (if nr2 ≠ 0 then si5351_write_reg SI_PLL_RESET 0xA0 else []) = [] := by
        rw [if_neg (fun h => h hz)]
      rw [hif, List.append_nil]
      refine ⟨⟨fun hl => absurd hl (getLast_ne_reset _ q2 _), fun hi => ?_⟩, fun _ => q2⟩
      rw [q1] at hi
      exact absurd hi (by decide)
    · have hi := hloud hz
      rw [if_pos hz]
      have hint : intProgrammed (w0 ++ w12 ++ si5351_write_reg SI_PLL_RESET 0xA0) = true := by
        rw [intProgrammed_append, hi]
        rfl
      refine ⟨⟨fun _ => hint, fun _ => getLast_reset _⟩, fun hf => ?_⟩
      rw [hint] at hf
      exact absurd hf (by decide)
  refine ⟨?_, ?_, ?_, ?_, ?_⟩
  · obtain ⟨s', w, h, hA, hB⟩ := base
    obtain ⟨sc, wc, hc, k0, k1, k2⟩ := set_freq_cause s f0 f1 f2 hx hP
    have e : (sc, wc) = (s', w) := Option.some.inj (hc.symm.trans h)
    have ew : wc = w := congrArg Prod.snd e
    rw [ew] at k0 k1 k2
    have hre : s.reprograms f0 f1 f2 = intProgrammed w := by
      rw [intProgrammed_split, k0, k1, k2]
      rfl
    refine ⟨s', w, h, hA, hB, ?_, ?_, ?_, ?_, ?_, ?_, ?_⟩
    · rw [k0, Bool.and_eq_true, decide_eq_true_iff, cacheMiss_iff]
    · rw [k1, Bool.and_eq_true, decide_eq_true_iff, cacheMiss_iff]
    · rw [k2, Bool.and_eq_true, decide_eq_true_iff, cacheMiss_iff]
    · rw [intProgrammed_split, Bool.or_eq_true, Bool.or_eq_true, or_assoc]
    · rw [hre]
    · rw [hre]
      exact hA
    · rw [hre]
      exact hB
  · simp [Si5351.reprograms, cacheMiss, Si5351.ch0_on, Si5351.zero, pll_calc, udiv, div_loop_le,
      u8, u32, u64, sub64, FRAC_DENOM, and_clear_low]
  · simp [Si5351.ch0_on, Si5351.set_freq, Si5351.zero, Si5351.update_freq0, pll_calc, udiv,
      div_loop_le, u8, u32, u64, sub64, FRAC_DENOM, si5351_setup_pll, si5351_write_reg, sub32,
      byte_of, SI_SYNTH_PLL_A, and_clear_low, and_three, and_nibble4_shr12, and_nibble4_shr16]
  · simp [Si5351.reprograms, cacheMiss, Si5351.ch0_on, Si5351.zero, pll_calc, udiv, div_loop_le,
      u8, u32, u64, sub64, FRAC_DENOM, and_clear_low]
  · simp [Si5351.ch0_on, Si5351.set_freq, Si5351.zero, Si5351.update_freq0, pll_calc, udiv,
      div_loop_le, u8, u32, u64, sub64, FRAC_DENOM, si5351_setup_pll, si5351_setup_msynth_int,
      si5351_write_reg, sub32, byte_of, SI_SYNTH_PLL_A, SI_SYNTH_MS_0, R_DIV, SI_CLK0_CONTROL,
      SI_CLK_SRC_PLL_A, SI_PLL_RESET, and_clear_low, and_three, and_nibble4_shr12,
      and_nibble4_shr16]

/-- C15, witness: from the start state, requesting 100 MHz, 14 MHz and 7 MHz. -/
theorem C15_batched_reset_witness :
    (∃ s' w, Si5351.start.set_freq 100000000 14000000 7000000 = some (s', w) ∧
      ((regWrites w).getLast? = some (177, 0xA0) ↔ intProgrammed w = true) ∧
      (intProgrammed w = false → resets w = false) ∧
      (programmedInt 0 w = true ↔
        u32 100000000 ≠ Si5351.start.freq0 ∧ 6 ≤ 900000000 / u32 100000000 ∧
        ∃ p, pll_calc (900000000 / u32 100000000) (u32 100000000) Si5351.start.xtal_freq
            = some p ∧
          (p.divider ≠ Si5351.start.freq0_div ∨ p.rdiv ≠ Si5351.start.freq0_rdiv)) ∧
      (programmedInt 1 w = true ↔
        u32 14000000 ≠ Si5351.start.freq1 ∧ 6 ≤ 900000000 / u32 14000000 ∧
        ∃ p, pll_calc (900000000 / u32 14000000) (u32 14000000) Si5351.start.xtal_freq
            = some p ∧
          (p.divider ≠ Si5351.start.freq1_div ∨ p.rdiv ≠ Si5351.start.freq1_rdiv)) ∧
      (programmedInt 2 w = true ↔
        ((u32 14000000 ≠ Si5351.start.freq1 ∨ u32 7000000 ≠ Si5351.start.freq2) ∧
          u32 14000000 = 0) ∧ 6 ≤ 900000000 / u32 7000000 ∧
        ∃ p, pll_calc (900000000 / u32 7000000) (u32 7000000) Si5351.start.xtal_freq
            = some p ∧
          (p.divider ≠ Si5351.start.freq2_div ∨ p.rdiv ≠ Si5351.start.freq2_rdiv)) ∧
      (intProgrammed w = true ↔
        programmedInt 0 w = true ∨ programmedInt 1 w = true ∨ programmedInt 2 w = true) ∧
      (intProgrammed w = true ↔ Si5351.start.reprograms 100000000 14000000 7000000 = true) ∧
      ((regWrites w).getLast? = some (177, 0xA0) ↔
        Si5351.start.reprograms 100000000 14000000 7000000 = true) ∧
      (Si5351.start.reprograms 100000000 14000000 7000000 = false → resets w = false)) ∧
    Si5351.ch0_on.reprograms 100000001 0 0 = false ∧
    Si5351.ch0_on.set_freq 100000001 0 0 =
      some ({ Si5351.ch0_on with freq0 := 100000001 }, [[26, 255, 255, 0, 14, 0, 240, 0, 0]]) ∧
    Si5351.ch0_on.reprograms 50000000 0 0 = true ∧
    Si5351.ch0_on.set_freq 50000000 0 0 =
      some ({ Si5351.ch0_on with freq0 := 50000000, freq0_div := 18 },
        [[26, 255, 255, 0, 16, 0, 240, 0, 0], [42, 0, 1, 0, 7, 0, 0, 0, 0], [16, 76],
         [177, 160]]) :=
  C15_batched_reset Si5351.start 100000000 14000000 7000000 (by decide) (by decide)

/-! ## Channel enable state: the failing inputs evaluated -/

/-- C12, the failing input evaluated: after `setup` (all three control
registers 0x80), one call `set_freq 0 14000000 0` leaves the requested
frequency of channel 2 at 0 and its cached divider at 0, yet the value most
recently written to control register 18 is the enabled value 0x6C, written by
the channel-1 block. -/
theorem C12_channel2_left_enabled :
    Si5351.start.setup 0 0 0 = (Si5351.start, [[16, 0x80], [17, 0x80], [18, 0x80]]) ∧
    Si5351.start.run [(0, 14000000, 0)] =
      some (Si5351.ch1_14MHz,
        [[34, 255, 255, 0, 15, 235, 248, 81, 235], [50, 0, 1, 0, 30, 0, 0, 0, 0],
         [17, 0x6C], [18, 0x6C], [177, 0xA0]]) ∧
    Si5351.ch1_14MHz.freq2 = 0 ∧ Si5351.ch1_14MHz.freq2_div = 0 ∧
    lastWrite 18 ([[16, 0x80], [17, 0x80], [18, 0x80]] ++
      [[34, 255, 255, 0, 15, 235, 248, 81, 235], [50, 0, 1, 0, 30, 0, 0, 0, 0],
       [17, 0x6C], [18, 0x6C], [177, 0xA0]]) = some 0x6C ∧
    (0x6C : Nat) ≠ 0x80 := by
  refine ⟨by decide, ?_, rfl, rfl, by decide, by decide⟩
  simp [Si5351.run, Si5351.start, Si5351.ch1_14MHz, Si5351.set_freq, Si5351.zero,
    Si5351.update_freq12, Si5351.update_freq12_off, Si5351.disable_out,
    Si5351.update_freq12_clk1, Si5351.update_freq12_clk2, pll_calc, udiv, div_loop_le, u8, u32,
    u64, sub64, FRAC_DENOM, si5351_setup_pll, si5351_setup_msynth_int, si5351_write_reg, sub32,
    byte_of, SI_SYNTH_PLL_B, SI_SYNTH_MS_1, R_DIV, SI_CLK1_CONTROL, SI_CLK2_CONTROL,
    SI_CLK_SRC_PLL_B, SI_PLL_RESET, and_clear_low, and_three, and_nibble4_shr12,
    and_nibble4_shr16]

/-- C13, the failing input evaluated: after `setup`, the calls
`set_freq 0 14000000 7000000`, `set_freq 0 14000000 0` and
`set_freq 0 14000000 7000000`.  The last call changes the requested frequency
of channel 2 from 0 to 7 MHz, whose divider 128 is at least 6, and programs
multisynth 2, but writes nothing to control register 18: the value most
recently written there is still the 0x80 of the second call, not the enabled
value 0x4C | power2 | 0x20 = 0x6C. -/
theorem C13_channel2_not_reenabled :
    Si5351.start.run [(0, 14000000, 7000000), (0, 14000000, 0)] =
      some (Si5351.ch1_14MHz,
        [[34, 255, 255, 0, 15, 235, 248, 81, 235], [50, 0, 1, 0, 30, 0, 0, 0, 0],
         [17, 0x6C], [18, 0x6C], [58, 0], [59, 1], [60, 0], [61, 62], [62, 0], [63, 0],
         [64, 0], [65, 0], [177, 0xA0], [18, 0x80]]) ∧
    Si5351.ch1_14MHz.freq2 = 0 ∧
    Si5351.ch1_14MHz.set_freq 0 14000000 7000000 =
      some (Si5351.ch12_on,
        [[58, 0], [59, 1], [60, 0], [61, 62], [62, 0], [63, 0], [64, 0], [65, 0]]) ∧
    ms2_calc (896000000 / 7000000) 896000000 7000000 = some ⟨128, 0, 7000000, 0⟩ ∧
    lastWrite 18 ([[16, 0x80], [17, 0x80], [18, 0x80]] ++
      ([[34, 255, 255, 0, 15, 235, 248, 81, 235], [50, 0, 1, 0, 30, 0, 0, 0, 0],
        [17, 0x6C], [18, 0x6C], [58, 0], [59, 1], [60, 0], [61, 62], [62, 0], [63, 0],
        [64, 0], [65, 0], [177, 0xA0], [18, 0x80]] ++
       [[58, 0], [59, 1], [60, 0], [61, 62], [62, 0], [63, 0], [64, 0], [65, 0]]))
      = some 0x80 ∧
    0x4C ||| Si5351.ch12_on.power2 ||| SI_CLK_SRC_PLL_B = 0x6C := by
  refine ⟨?_, rfl, ?_, ?_, by decide, by decide⟩
  · simp [Si5351.run, Si5351.start, Si5351.ch1_14MHz, Si5351.set_freq, Si5351.zero,
      Si5351.update_freq12, Si5351.update_freq12_off, Si5351.disable_out,
      Si5351.update_freq12_clk1, Si5351.update_freq12_clk2, ms2_calc, umod, div_loop_ff_le,
      pll_calc, udiv, div_loop_le, u8, u32, u64, sub64, FRAC_DENOM, si5351_setup_pll,
      si5351_setup_msynth_int, si5351_setup_msynth, si5351_write_reg, sub32, byte_of,
      SI_SYNTH_PLL_B, SI_SYNTH_MS_1, SI_SYNTH_MS_2, R_DIV, SI_CLK1_CONTROL, SI_CLK2_CONTROL,
      SI_CLK_SRC_PLL_B, SI_PLL_RESET, and_clear_low, and_three, and_nibble4_shr12,
      and_nibble4_shr16]
  · simp [Si5351.start, Si5351.ch1_14MHz, Si5351.ch12_on, Si5351.set_freq, Si5351.zero,
      Si5351.update_freq12, Si5351.update_freq12_off, Si5351.disable_out,
      Si5351.update_freq12_clk1, Si5351.update_freq12_clk2, ms2_calc, umod, div_loop_ff_le,
      pll_calc, udiv, div_loop_le, u8, u32, u64, sub64, FRAC_DENOM, si5351_setup_msynth,
      si5351_write_reg, sub32, byte_of, SI_SYNTH_MS_2, R_DIV, SI_PLL_RESET, and_three,
      and_nibble4_shr12, and_nibble4_shr16]
  · unfold ms2_calc
    rw [div_loop_ff_le _ _ _ (by decide)]
    decide

/-! ## Exact arithmetic: claims -/

/-- C16: for every target frequency f > 0 with 6 <= floor(900000000 / f), with
divider and R as chosen by the search, the 32-bit product divider * f * 2^R
computed in `update_freq0` / `update_freq12` equals the exact product (neither
divider * f nor the full product wraps modulo 2^32), and that value is greater
than 675,000,000 and at most 900,000,000.  The shift count is at most 20, and
at most 14 when f >= 61. -/
theorem C16_pll_product_exact (f x : Nat) (hf : 0 < f) (hx : 0 < x)
    (h6 : 6 ≤ 900000000 / f) :
    ∃ p, pll_calc (900000000 / f) f x = some p ∧
      u32 (u32 (p.divider * f) * u32 (1 <<< p.rdiv)) = p.divider * f * 2 ^ p.rdiv ∧
      p.pll_freq = p.divider * f * 2 ^ p.rdiv ∧
      p.divider * f < 2 ^ 32 ∧ p.divider * f * 2 ^ p.rdiv < 2 ^ 32 ∧
      675000000 < p.pll_freq ∧ p.pll_freq ≤ 900000000 ∧
      p.rdiv ≤ 20 ∧ (61 ≤ f → p.rdiv ≤ 14) ∧
      (∀ (s : Si5351) (nr : Nat), s.freq1 = f → s.xtal_freq = x → ∃ s' nr' w,
        s.update_freq12_clk1 nr = some (false, s', nr', w) ∧
        s'.freq_pll_b = p.divider * f * 2 ^ p.rdiv) := by
  obtain ⟨p, hp, hr20, _, _, _, _, _, hpll, hlo, hhi, _⟩ := search_facts f x hx h6
  obtain ⟨p2, hp2, _, _, hraw, _⟩ := pll_calc_eq (900000000 / f) f x hx
  have hpp : p2 = p := Option.some.inj (hp2.symm.trans hp)
  subst hpp
  obtain ⟨p3, hp3, hiff⟩ := search_rdiv_le f x 14 hx h6
  have hpp3 : p3 = p2 := Option.some.inj (hp3.symm.trans hp)
  subst hpp3
  have hpk : 0 < 2 ^ p3.rdiv := Nat.pow_pos (by decide)
  have hle : p3.divider * f ≤ p3.divider * f * 2 ^ p3.rdiv := Nat.le_mul_of_pos_right _ hpk
  refine ⟨p3, hp, ?_, hpll, by omega, by omega, hlo, hhi, hr20, ?_, ?_⟩
  · rw [← hraw, hpll]
  · intro h61
    apply hiff.mpr
    have m1 : 900000000 / f * f ≤ 900000000 := Nat.div_mul_le_self _ _
    have e14 : (2 : Nat) ^ 14 = 16384 := by norm_num
    rw [e14]
    generalize 900000000 / f = d0 at *
    by_contra hcon
    have hd0 : 14761984 ≤ d0 := by omega
    have : 14761984 * 61 ≤ d0 * f := Nat.mul_le_mul hd0 h61
    omega
  · intro s nr hs hxs
    subst hs hxs
    obtain ⟨s', nr', wpll, rest, h, _, _, _, hb⟩ := update_freq12_clk1_search s nr p3 h6 hp
    exact ⟨s', nr', _, h, hb.trans hpll⟩

/-- C16, witness: f = 1000 Hz (ten halvings) with a 25 MHz crystal. -/
theorem C16_pll_product_exact_witness :
    ∃ p, pll_calc (900000000 / 1000) 1000 250000000 = some p ∧
      u32 (u32 (p.divider * 1000) * u32 (1 <<< p.rdiv)) = p.divider * 1000 * 2 ^ p.rdiv ∧
      p.pll_freq = p.divider * 1000 * 2 ^ p.rdiv ∧
      p.divider * 1000 < 2 ^ 32 ∧ p.divider * 1000 * 2 ^ p.rdiv < 2 ^ 32 ∧
      675000000 < p.pll_freq ∧ p.pll_freq ≤ 900000000 ∧
      p.rdiv ≤ 20 ∧ (61 ≤ 1000 → p.rdiv ≤ 14) ∧
      (∀ (s : Si5351) (nr : Nat), s.freq1 = 1000 → s.xtal_freq = 250000000 → ∃ s' nr' w,
        s.update_freq12_clk1 nr = some (false, s', nr', w) ∧
        s'.freq_pll_b = p.divider * 1000 * 2 ^ p.rdiv) :=
  C16_pll_product_exact 1000 250000000 (by decide) (by decide) (by decide)

/-- C17: when the stored crystal value is 10 * c with
10,000,000 <= c <= 45,000,000, then for every target frequency f with
6 <= floor(900000000 / f) and PLL = divider * f * 2^R, the values passed to
`si5351_setup_pll` are exactly a = floor(PLL / c), with 15 <= a <= 90 (no
8-bit truncation), and b = floor((PLL mod c) * 0xFFFFF / c), with b < 0xFFFFF,
so that c * (a * 0xFFFFF + b) <= PLL * 0xFFFFF < c * (a * 0xFFFFF + b + 1). -/
theorem C17_crystal_in_tenths (f c : Nat) (hc1 : 10000000 ≤ c) (hc2 : c ≤ 45000000)
    (h6 : 6 ≤ 900000000 / f) :
    ∃ p, pll_calc (900000000 / f) f (10 * c) = some p ∧
      p.pll_freq = p.divider * f * 2 ^ p.rdiv ∧
      p.mult = p.pll_freq / c ∧ 15 ≤ p.mult ∧ p.mult ≤ 90 ∧
      p.num = p.pll_freq % c * 0xFFFFF / c ∧ p.num < 0xFFFFF ∧
      c * (p.mult * 0xFFFFF + p.num) ≤ p.pll_freq * 0xFFFFF ∧
      p.pll_freq * 0xFFFFF < c * (p.mult * 0xFFFFF + p.num + 1) ∧
      (∀ (s : Si5351) (nr : Nat), s.freq0 = f → s.xtal_freq = 10 * c → ∃ s' nr' wpll rest,
        s.update_freq0 nr = some (s', nr', wpll ++ rest) ∧
        si5351_setup_pll SI_SYNTH_PLL_A p.mult p.num FRAC_DENOM = some wpll) := by
  have hc : 0 < c := by omega
  obtain ⟨p, hp, _, _, _, _, _, _, hpll, hlo, hhi, hmult, hnum⟩ :=
    search_facts f (10 * c) (by omega) h6
  obtain ⟨r1, r2, r3, r4, r5⟩ :=
    pll_args_range p.pll_freq (10 * c) hlo hhi (by omega) (by omega)
  have eq1 : p.pll_freq * 10 / (10 * c) = p.pll_freq / c := by
    rw [Nat.mul_comm 10 c]
    exact Nat.mul_div_mul_right _ _ (by decide)
  have em : p.mult = p.pll_freq / c := by rw [hmult, r1, eq1]
  have hdm := Nat.div_add_mod p.pll_freq c
  have hmodlt : p.pll_freq % c < c := Nat.mod_lt _ hc
  have eq2 : p.pll_freq / c * (10 * c) / 10 = c * (p.pll_freq / c) := by
    have : p.pll_freq / c * (10 * c) = c * (p.pll_freq / c) * 10 := by ring
    rw [this]
    exact Nat.mul_div_cancel _ (by decide)
  have eq3 : p.pll_freq - c * (p.pll_freq / c) = p.pll_freq % c := by omega
  have en : p.num = p.pll_freq % c * 0xFFFFF / c := by
    rw [eq1] at r4
    rw [hnum, em, r4, eq2, eq3]
    have : p.pll_freq % c * FRAC_DENOM * 10 / (10 * c)
        = p.pll_freq % c * FRAC_DENOM / c := by
      rw [Nat.mul_comm 10 c]
      exact Nat.mul_div_mul_right _ _ (by decide)
    rw [this]
    rfl
  have hn1 : p.pll_freq % c * 0xFFFFF / c * c ≤ p.pll_freq % c * 0xFFFFF :=
    Nat.div_mul_le_self _ _
  have hn2 : p.pll_freq % c * 0xFFFFF < p.pll_freq % c * 0xFFFFF / c * c + c :=
    Nat.lt_div_mul_add hc
  have hnlt : p.pll_freq % c * 0xFFFFF / c < 0xFFFFF := by
    apply Nat.div_lt_of_lt_mul
    exact (Nat.mul_lt_mul_right (by decide : 0 < 0xFFFFF)).mpr hmodlt
  have hq1 : 15 ≤ p.pll_freq / c := by
    rw [← eq1]
    exact r2
  have hq2 : p.pll_freq / c ≤ 90 := by
    rw [← eq1]
    exact r3
  refine ⟨p, hp, hpll, em, by rw [em]; exact hq1, by rw [em]; exact hq2, en,
    by rw [en]; exact hnlt, ?_, ?_, ?_⟩
  · rw [em, en]
    have e : c * (p.pll_freq / c * 0xFFFFF + p.pll_freq % c * 0xFFFFF / c)
        = c * (p.pll_freq / c) * 0xFFFFF + p.pll_freq % c * 0xFFFFF / c * c := by ring
    rw [e]
    generalize p.pll_freq % c * 0xFFFFF / c * c = nc at *
    generalize c * (p.pll_freq / c) = A at *
    generalize p.pll_freq % c = r at *
    omega
  · rw [em, en]
    have e : c * (p.pll_freq / c * 0xFFFFF + p.pll_freq % c * 0xFFFFF / c + 1)
        = c * (p.pll_freq / c) * 0xFFFFF + (p.pll_freq % c * 0xFFFFF / c * c + c) := by ring
    rw [e]
    generalize p.pll_freq % c * 0xFFFFF / c * c = nc at *
    generalize c * (p.pll_freq / c) = A at *
    generalize p.pll_freq % c = r at *
    omega
  · intro s nr hs hxs
    subst hs
    have hp' : pll_calc (900000000 / s.freq0) s.freq0 s.xtal_freq = some p := by
      rw [hxs]
      exact hp
    obtain ⟨s', nr', wpll, rest, h, hw, _⟩ := update_freq0_search s nr p h6 hp'
    exact ⟨s', nr', wpll, rest, h, hw⟩

/-- C17, witness: a 25 MHz crystal (stored value 250,000,000) and f = 7 MHz. -/
theorem C17_crystal_in_tenths_witness :
    ∃ p, pll_calc (900000000 / 7000000) 7000000 (10 * 25000000) = some p ∧
      p.pll_freq = p.divider * 7000000 * 2 ^ p.rdiv ∧
      p.mult = p.pll_freq / 25000000 ∧ 15 ≤ p.mult ∧ p.mult ≤ 90 ∧
      p.num = p.pll_freq % 25000000 * 0xFFFFF / 25000000 ∧ p.num < 0xFFFFF ∧
      25000000 * (p.mult * 0xFFFFF + p.num) ≤ p.pll_freq * 0xFFFFF ∧
      p.pll_freq * 0xFFFFF < 25000000 * (p.mult * 0xFFFFF + p.num + 1) ∧
      (∀ (s : Si5351) (nr : Nat), s.freq0 = 7000000 → s.xtal_freq = 10 * 25000000 →
        ∃ s' nr' wpll rest, s.update_freq0 nr = some (s', nr', wpll ++ rest) ∧
        si5351_setup_pll SI_SYNTH_PLL_A p.mult p.num FRAC_DENOM = some wpll) :=
  C17_crystal_in_tenths 7000000 25000000 (by decide) (by decide) (by decide)

/-- C18: in the shared-PLL branch of `update_freq12`, for every retained
PLL-B frequency P <= 900,000,000 and every f2 > 0 with floor(P / f2) >= 6, the
computed divider d, shift R and numerator n satisfy 6 <= d <= 900,
n < 0xFFFFF, the shifted frequency ff = f2 * 2^R does not wrap in 32 bits,
d = floor(P / ff), and
(d * 0xFFFFF + n) * ff <= P * 0xFFFFF < (d * 0xFFFFF + n + 1) * ff; these are
the values the block hands to `si5351_setup_msynth`. -/
theorem C18_channel2_bracket (P f2 : Nat) (hP : P ≤ 900000000) (hf : 0 < f2)
    (h6 : 6 ≤ P / f2) :
    ∃ m, ms2_calc (P / f2) P f2 = some m ∧
      6 ≤ m.divider ∧ m.divider ≤ 900 ∧ m.num < 0xFFFFF ∧
      m.ff = f2 * 2 ^ m.rdiv ∧ f2 * 2 ^ m.rdiv < 2 ^ 32 ∧ m.divider = P / m.ff ∧
      (m.divider * 0xFFFFF + m.num) * m.ff ≤ P * 0xFFFFF ∧
      P * 0xFFFFF < (m.divider * 0xFFFFF + m.num + 1) * m.ff ∧
      (∀ s : Si5351, s.freq_pll_b = P → s.freq2 = f2 → ∃ wms,
        si5351_setup_msynth SI_SYNTH_MS_2 m.divider m.num
          (if m.num ≠ 0 then FRAC_DENOM else 1) (R_DIV m.rdiv) = some wms ∧
        s.update_freq12_clk2 = some ({ s with freq2_div := 1 }, wms)) := by
  have hP32 : P < 2 ^ 32 := by omega
  obtain ⟨m, hm, _, hff, hfflt, hffpos, hdiv, _, h900, _, hnum, hnumlt⟩ :=
    ms2_calc_spec P f2 hP32 hf (by omega)
  -- the lower bound on the divider, from the block's own summary
  obtain ⟨_, _, _, _, _, hres⟩ := update_freq12_clk2_result
    ({ Si5351.zero with freq_pll_b := P, freq2 := f2 } : Si5351) hP32 (by
      show f2 ≠ 0
      omega)
  obtain ⟨m2, hm2, _, hd6, _⟩ := hres h6
  have hmm : m2 = m := Option.some.inj (hm2.symm.trans hm)
  subst hmm
  have hdm := Nat.div_add_mod P m2.ff
  have hn1 : P % m2.ff * FRAC_DENOM / m2.ff * m2.ff ≤ P % m2.ff * FRAC_DENOM :=
    Nat.div_mul_le_self _ _
  have hn2 : P % m2.ff * FRAC_DENOM < P % m2.ff * FRAC_DENOM / m2.ff * m2.ff + m2.ff :=
    Nat.lt_div_mul_add hffpos
  refine ⟨m2, hm, hd6, h900, hnumlt, hff, by rw [← hff]; exact hfflt, hdiv, ?_, ?_, ?_⟩
  · rw [hdiv, hnum]
    have e : (P / m2.ff * 0xFFFFF + P % m2.ff * FRAC_DENOM / m2.ff) * m2.ff
        = m2.ff * (P / m2.ff) * 0xFFFFF + P % m2.ff * FRAC_DENOM / m2.ff * m2.ff := by ring
    rw [e]
    generalize P % m2.ff * FRAC_DENOM / m2.ff * m2.ff = nc at *
    generalize m2.ff * (P / m2.ff) = A at *
    generalize P % m2.ff = r at *
    unfold FRAC_DENOM at hn1 hn2
    omega
  · rw [hdiv, hnum]
    have e : (P / m2.ff * 0xFFFFF + P % m2.ff * FRAC_DENOM / m2.ff + 1) * m2.ff
        = m2.ff * (P / m2.ff) * 0xFFFFF + (P % m2.ff * FRAC_DENOM / m2.ff * m2.ff + m2.ff) := by
      ring
    rw [e]
    generalize P % m2.ff * FRAC_DENOM / m2.ff * m2.ff = nc at *
    generalize m2.ff * (P / m2.ff) = A at *
    generalize P % m2.ff = r at *
    unfold FRAC_DENOM at hn1 hn2
    omega
  · intro s hs1 hs2
    subst hs1 hs2
    obtain ⟨m3, wms, hm3, hw, hclk⟩ := update_freq12_clk2_eq s hP32 h6
    have hmm : m3 = m2 := Option.some.inj (hm3.symm.trans hm)
    subst hmm
    exact ⟨wms, hw, hclk⟩

/-- C18, witness: PLL B retained at 896,000,064 Hz and f2 = 7 MHz. -/
theorem C18_channel2_bracket_witness :
    ∃ m, ms2_calc (896000064 / 7000000) 896000064 7000000 = some m ∧
      6 ≤ m.divider ∧ m.divider ≤ 900 ∧ m.num < 0xFFFFF ∧
      m.ff = 7000000 * 2 ^ m.rdiv ∧ 7000000 * 2 ^ m.rdiv < 2 ^ 32 ∧
      m.divider = 896000064 / m.ff ∧
      (m.divider * 0xFFFFF + m.num) * m.ff ≤ 896000064 * 0xFFFFF ∧
      896000064 * 0xFFFFF < (m.divider * 0xFFFFF + m.num + 1) * m.ff ∧
      (∀ s : Si5351, s.freq_pll_b = 896000064 → s.freq2 = 7000000 → ∃ wms,
        si5351_setup_msynth SI_SYNTH_MS_2 m.divider m.num
          (if m.num ≠ 0 then FRAC_DENOM else 1) (R_DIV m.rdiv) = some wms ∧
        s.update_freq12_clk2 = some ({ s with freq2_div := 1 }, wms)) :=
  C18_channel2_bracket 896000064 7000000 (by decide) (by decide) (by decide)

/-- C19: for every a in [15,90], every c in [1,0xFFFFF] and every b with
0 <= b < c, reading P1 (18 bits), P2 (20 bits) and P3 (20 bits) back from the
8 bytes emitted by `si5351_setup_pll` and computing a' = (P1 + 512) div 128,
c' = P3, b' = (P2 + P3 * ((P1 + 512) mod 128)) div 128 gives
(a', b', c') = (a, b, c); the same holds for the 8 values written by
`si5351_setup_msynth` with rDiv = 0. -/
theorem C19_round_trip_proper_fractions (pll synth a b c : Nat) (ha : 15 ≤ a)
    (ha2 : a ≤ 90) (hc : 1 ≤ c) (hc2 : c ≤ 0xFFFFF) (hb : b < c) :
    (∃ bytes, si5351_setup_pll pll a b c = some [u8 pll :: bytes] ∧ bytes.length = 8 ∧
      field_P1 bytes < 2 ^ 18 ∧ field_P2 bytes < 2 ^ 20 ∧ field_P3 bytes < 2 ^ 20 ∧
      (field_P1 bytes + 512) / 128 = a ∧
      (field_P2 bytes + field_P3 bytes * ((field_P1 bytes + 512) % 128)) / 128 = b ∧
      field_P3 bytes = c) ∧
    (∃ w, si5351_setup_msynth synth a b c 0 = some w ∧ w.length = 8 ∧
      (field_P1 (w.map fun t => t.getD 1 0) + 512) / 128 = a ∧
      (field_P2 (w.map fun t => t.getD 1 0) +
        field_P3 (w.map fun t => t.getD 1 0) *
          ((field_P1 (w.map fun t => t.getD 1 0) + 512) % 128)) / 128 = b ∧
      field_P3 (w.map fun t => t.getD 1 0) = c) := by
  have ht : 128 * b / c < 128 := Nat.div_lt_of_lt_mul (by omega)
  have hm : 128 * b % c < c := Nat.mod_lt _ (by omega)
  have hdec := decode_param_bytes a b c 0 (by omega) (by omega) (by omega) (by omega) hb
  obtain ⟨f1, f2, f3⟩ := fields_param_bytes (128 * a + 128 * b / c - 512) (128 * b % c) c 0
    (by omega) (by omega) (by omega)
  simp only [decode_abc, Prod.mk.injEq] at hdec
  obtain ⟨d1, d2, d3⟩ := hdec
  constructor
  · refine ⟨_, setup_pll_bytes pll a b c (by omega) (by omega) (by omega) (by omega)
      (by omega) (by omega), rfl, ?_, ?_, ?_, d1, d2, d3⟩
    · show field_P1 (param_bytes _ _ _ (0 * 16)) < 2 ^ 18
      rw [f1]
      omega
    · show field_P2 (param_bytes _ _ _ (0 * 16)) < 2 ^ 20
      rw [f2]
      omega
    · show field_P3 (param_bytes _ _ _ (0 * 16)) < 2 ^ 20
      rw [f3]
      omega
  · obtain ⟨w, hw, hlen, hvals⟩ := setup_msynth_values synth a b c 0 (by omega) (by omega)
      (by omega) (by omega) (by omega) (by omega) (by decide)
    refine ⟨w, hw, hlen, ?_, ?_, ?_⟩
    · rw [hvals]
      exact d1
    · rw [hvals]
      exact d2
    · rw [hvals]
      exact d3

/-- C19, witness: a = 35, b = 880805, c = 0xFFFFF on PLL B and multisynth 2. -/
theorem C19_round_trip_proper_fractions_witness :
    (∃ bytes, si5351_setup_pll 34 35 880805 0xFFFFF = some [u8 34 :: bytes] ∧
      bytes.length = 8 ∧
      field_P1 bytes < 2 ^ 18 ∧ field_P2 bytes < 2 ^ 20 ∧ field_P3 bytes < 2 ^ 20 ∧
      (field_P1 bytes + 512) / 128 = 35 ∧
      (field_P2 bytes + field_P3 bytes * ((field_P1 bytes + 512) % 128)) / 128 = 880805 ∧
      field_P3 bytes = 0xFFFFF) ∧
    (∃ w, si5351_setup_msynth 58 35 880805 0xFFFFF 0 = some w ∧ w.length = 8 ∧
      (field_P1 (w.map fun t => t.getD 1 0) + 512) / 128 = 35 ∧
      (field_P2 (w.map fun t => t.getD 1 0) +
        field_P3 (w.map fun t => t.getD 1 0) *
          ((field_P1 (w.map fun t => t.getD 1 0) + 512) % 128)) / 128 = 880805 ∧
      field_P3 (w.map fun t => t.getD 1 0) = 0xFFFFF) :=
  C19_round_trip_proper_fractions 34 58 35 880805 0xFFFFF (by decide) (by decide) (by decide)
    (by decide) (by decide)

/-- C20: for every controller state whose crystal frequency is positive and
whose retained PLL-B frequency fits in 32 bits, and for every (f0, f1, f2),
`set_freq` returns, that is, no division or modulo it executes (all of them go
through `udiv` and `umod`) has a zero divisor; in particular the doubled
channel-2 frequency ff of `update_freq12` is f2 * 2^R exactly, below 2^32 and
nonzero, and every denominator passed to an encoder is at least 1. -/
theorem C20_no_division_by_zero (s : Si5351) (f0 f1 f2 : Nat) (hx : 0 < s.xtal_freq)
    (hP : s.freq_pll_b < 2 ^ 32) :
    (∃ s' w, s.set_freq f0 f1 f2 = some (s', w) ∧ 0 < s'.xtal_freq ∧
      s'.freq_pll_b < 2 ^ 32) ∧
    (∀ t : Si5351, t.freq_pll_b < 2 ^ 32 → t.freq2 ≠ 0 → 6 ≤ t.freq_pll_b / t.freq2 →
      ∃ m, ms2_calc (t.freq_pll_b / t.freq2) t.freq_pll_b t.freq2 = some m ∧
        m.ff = t.freq2 * 2 ^ m.rdiv ∧ m.ff < 2 ^ 32 ∧ 0 < m.ff ∧
        umod t.freq_pll_b m.ff = some (t.freq_pll_b % m.ff) ∧
        1 ≤ u32 (if m.num ≠ 0 then FRAC_DENOM else 1)) ∧
    1 ≤ u32 FRAC_DENOM ∧
    (∀ pll a b, si5351_setup_pll pll a b FRAC_DENOM ≠ none) ∧
    (∀ synth a n rDiv,
      si5351_setup_msynth synth a n (if n ≠ 0 then FRAC_DENOM else 1) rDiv ≠ none) := by
  refine ⟨?_, ?_, by decide, ?_, ?_⟩
  · obtain ⟨s', w, h, hxt, _, _, _, _, _, _, hpb⟩ := set_freq_total s f0 f1 f2 hx hP
    exact ⟨s', w, h, by rw [hxt]; exact hx, hpb⟩
  · intro t ht hf2 h6
    obtain ⟨m, hm, _, hff, hfflt, hffpos, _⟩ :=
      ms2_calc_spec t.freq_pll_b t.freq2 ht (by omega) (by omega)
    refine ⟨m, hm, hff, hfflt, hffpos, ?_, ?_⟩
    · have hne : m.ff ≠ 0 := by omega
      simp [umod, hne]
    · have := ms2_denominator_ne_zero m.num
      omega
  · intro pll a b
    obtain ⟨b0, b1, b2, b3, b4, b5, b6, b7, h⟩ := setup_pll_frac pll a b
    rw [h]
    exact Option.some_ne_none _
  · intro synth a n rDiv
    have hc := ms2_denominator_ne_zero n
    simp only [si5351_setup_msynth, udiv, hc, if_false]
    exact Option.some_ne_none _

/-- C20, witness: the state with channels 1 and 2 running, all three
frequencies changed. -/
theorem C20_no_division_by_zero_witness :
    (∃ s' w, Si5351.ch12_on.set_freq 100000000 9000000 3000000 = some (s', w) ∧
      0 < s'.xtal_freq ∧ s'.freq_pll_b < 2 ^ 32) ∧
    (∀ t : Si5351, t.freq_pll_b < 2 ^ 32 → t.freq2 ≠ 0 → 6 ≤ t.freq_pll_b / t.freq2 →
      ∃ m, ms2_calc (t.freq_pll_b / t.freq2) t.freq_pll_b t.freq2 = some m ∧
        m.ff = t.freq2 * 2 ^ m.rdiv ∧ m.ff < 2 ^ 32 ∧ 0 < m.ff ∧
        umod t.freq_pll_b m.ff = some (t.freq_pll_b % m.ff) ∧
        1 ≤ u32 (if m.num ≠ 0 then FRAC_DENOM else 1)) ∧
    1 ≤ u32 FRAC_DENOM ∧
    (∀ pll a b, si5351_setup_pll pll a b FRAC_DENOM ≠ none) ∧
    (∀ synth a n rDiv,
      si5351_setup_msynth synth a n (if n ≠ 0 then FRAC_DENOM else 1) rDiv ≠ none) :=
  C20_no_division_by_zero Si5351.ch12_on 100000000 9000000 3000000 (by decide) (by decide)

end Syntez
